import Mathlib

/-!
# MultibodyPlant: lifecycle gate, geometry coupling, penalty contact forces and
time derivatives; derivative-tracking scalars

A shallow embedding of `multibody/multibody_tree/multibody_plant/multibody_plant.cc`
and of the calculations of `math/test/autodiff_test.cc`.

* The scalar type `double` is idealised as a linear ordered field `K`
  (exact arithmetic); every definition is executable at `K = ℚ`.
* A member function that mutates the plant (or an engine it is handed) takes the
  memory before the call and returns the outcome of the call together with the
  memory after it, so that the state left behind by a throwing call is visible.
* `std::unordered_map` is an association list with unique keys; the list order
  is the iteration order of the container.
* A `GeometrySystem*` is an optional address into a table of engine instances.
-/

namespace Drake

/-! ## Indices and identifiers -/

abbrev BodyIndex := Nat
abbrev BodyNodeIndex := Nat
abbrev GeometryId := Nat
abbrev FrameId := Nat
abbrev SourceId := Nat
/-- Opaque description of a `geometry::Shape`. -/
abbrev Shape := Nat

/-- Modelled from the spec: `world_index()` is declared in
`multibody_tree_indexes.h`, outside `multibody_plant.cc`; the index of the
distinguished world body, the first body of every model. -/
def world_index : BodyIndex := 0

/-- What a failing call raises: `std::logic_error`, `std::runtime_error`, the
exception of `DRAKE_THROW_UNLESS`, `std::out_of_range` (from `at()`),
`std::bad_optional_access` (from `value()`), or the abort of `DRAKE_DEMAND`. -/
inductive Error where
  | logic_error (what : String)
  | runtime_error (what : String)
  | throw_unless (condition : String)
  | out_of_range (what : String)
  | bad_optional_access
  | abort (what : String)
deriving DecidableEq

/-! ## Three-vectors and spatial quantities -/

/-- `Vector3<T>`. -/
@[ext]
structure Vector3 (K : Type) where
  x : K
  y : K
  z : K
deriving DecidableEq

namespace Vector3
variable {K : Type} [LinearOrderedField K]

instance : Zero (Vector3 K) := ⟨⟨0, 0, 0⟩⟩
instance : Add (Vector3 K) := ⟨fun a b => ⟨a.x + b.x, a.y + b.y, a.z + b.z⟩⟩
instance : Sub (Vector3 K) := ⟨fun a b => ⟨a.x - b.x, a.y - b.y, a.z - b.z⟩⟩
instance : Neg (Vector3 K) := ⟨fun a => ⟨-a.x, -a.y, -a.z⟩⟩
instance : SMul K (Vector3 K) := ⟨fun c a => ⟨c * a.x, c * a.y, c * a.z⟩⟩

/-- `a.dot(b)`. -/
def dot (a b : Vector3 K) : K := a.x * b.x + a.y * b.y + a.z * b.z

/-- `a.cross(b)`. -/
def cross (a b : Vector3 K) : Vector3 K :=
  ⟨a.y * b.z - a.z * b.y, a.z * b.x - a.x * b.z, a.x * b.y - a.y * b.x⟩

end Vector3

/-- `Isometry3<T>`: a rigid transform, the rows of its rotation and its
translation. Only `translation()` is read by the plant. -/
structure Isometry3 (K : Type) where
  linear : Vector3 K × Vector3 K × Vector3 K
  translation : Vector3 K
deriving DecidableEq

/-- `Isometry3<double>::Identity()`. -/
def Isometry3.Identity {K : Type} [LinearOrderedField K] : Isometry3 K :=
  ⟨(⟨1, 0, 0⟩, ⟨0, 1, 0⟩, ⟨0, 0, 1⟩), 0⟩

/-- `SpatialVelocity<T>`: angular part `rotational()`, linear part
`translational()`. -/
structure SpatialVelocity (K : Type) where
  rotational : Vector3 K
  translational : Vector3 K
deriving DecidableEq

/-- Modelled from the spec: `SpatialVelocity::Shift` is declared in
`multibody_tree/math/spatial_velocity.h`, outside `multibody_plant.cc`. The
velocity of the frame shifted by `p_BpBq_E` keeps the angular part
and adds `w × p_BpBq_E` to the linear part. -/
def SpatialVelocity.Shift {K : Type} [LinearOrderedField K]
    (V : SpatialVelocity K) (p_BpBq_E : Vector3 K) : SpatialVelocity K :=
  ⟨V.rotational, V.translational + V.rotational.cross p_BpBq_E⟩

/-- `SpatialForce<T>`: torque `rotational()`, force `translational()`. -/
@[ext]
structure SpatialForce (K : Type) where
  rotational : Vector3 K
  translational : Vector3 K
deriving DecidableEq

namespace SpatialForce
variable {K : Type} [LinearOrderedField K]

/-- Modelled from the spec: `SpatialForce::Shift` is declared in
`multibody_tree/math/spatial_force.h`, outside `multibody_plant.cc`.
Shifting the application point by `p_BpBq_E` keeps the force and
subtracts `p_BpBq_E × f` from the torque. -/
def Shift (F : SpatialForce K) (p_BpBq_E : Vector3 K) : SpatialForce K :=
  ⟨F.rotational - p_BpBq_E.cross F.translational, F.translational⟩

instance : Zero (SpatialForce K) := ⟨⟨0, 0⟩⟩
instance : Neg (SpatialForce K) := ⟨fun F => ⟨-F.rotational, -F.translational⟩⟩
instance : Add (SpatialForce K) :=
  ⟨fun F G => ⟨F.rotational + G.rotational, F.translational + G.translational⟩⟩

end SpatialForce

/-! ## Associative containers -/

namespace Map
variable {α β : Type} [DecidableEq α]

/-- `m.count(k)`: the number of entries stored under the key `k`. -/
def count (m : List (α × β)) (k : α) : Nat :=
  (m.filter (fun e => decide (e.1 = k))).length

/-- `m.find(k)`, as the value found, if any. -/
def find (m : List (α × β)) (k : α) : Option β :=
  (m.find? (fun e => decide (e.1 = k))).map Prod.snd

/-- `m.at(k)`: throws `std::out_of_range` when `k` is not a key. -/
def at_ (m : List (α × β)) (k : α) : Except Error β :=
  match find m k with
  | some v => .ok v
  | none => .error (.out_of_range "unordered_map::at")

/-- `m[k] = v`: overwrites the entry of `k`, or adds one. -/
def assign : List (α × β) → α → β → List (α × β)
  | [], k, v => [(k, v)]
  | e :: m, k, v => if e.1 = k then (k, v) :: m else e :: assign m k v

end Map

/-! ## The geometry engine (external collaborator) -/

/-- `geometry::GeometryFrame`: a name and an initial pose. -/
structure GeometryFrame (K : Type) where
  name : String
  pose : Isometry3 K
deriving DecidableEq

/-- `geometry::GeometryInstance`: a pose and a (cloned) shape. -/
structure GeometryInstance (K : Type) where
  X : Isometry3 K
  shape : Shape
deriving DecidableEq

/-- Modelled from the spec: `geometry::GeometrySystem` is an external
collaborator whose code lies outside `multibody_plant.cc`. Its interface is
`RegisterSource()`, `RegisterFrame(source, frame) → frame-id`,
`RegisterGeometry(source, frame-id, instance) → geometry-id` and
`RegisterAnchoredGeometry(source, instance) → geometry-id`. The model records
every registration it is asked for and hands out fresh identifiers. -/
structure GeometrySystem (K : Type) where
  next_id : Nat
  sources : List SourceId
  frames : List (SourceId × FrameId × GeometryFrame K)
  geometries : List (SourceId × FrameId × GeometryId × GeometryInstance K)
  anchored : List (SourceId × GeometryId × GeometryInstance K)
deriving DecidableEq

namespace GeometrySystem
variable {K : Type}

/-- Modelled from the spec: `RegisterSource()` of the geometry engine. -/
def RegisterSource (gs : GeometrySystem K) : SourceId × GeometrySystem K :=
  (gs.next_id, { gs with next_id := gs.next_id + 1, sources := gs.sources ++ [gs.next_id] })

/-- Modelled from the spec: `RegisterFrame(source, frame)` of the geometry
engine. -/
def RegisterFrame (gs : GeometrySystem K) (source : SourceId) (frame : GeometryFrame K) :
    FrameId × GeometrySystem K :=
  (gs.next_id,
    { gs with next_id := gs.next_id + 1, frames := gs.frames ++ [(source, gs.next_id, frame)] })

/-- Modelled from the spec: `RegisterGeometry(source, frame_id, instance)` of
the geometry engine. -/
def RegisterGeometry (gs : GeometrySystem K) (source : SourceId) (frame_id : FrameId)
    (geometry : GeometryInstance K) : GeometryId × GeometrySystem K :=
  (gs.next_id,
    { gs with
      next_id := gs.next_id + 1,
      geometries := gs.geometries ++ [(source, frame_id, gs.next_id, geometry)] })

/-- Modelled from the spec: `RegisterAnchoredGeometry(source, instance)` of the
geometry engine. -/
def RegisterAnchoredGeometry (gs : GeometrySystem K) (source : SourceId)
    (geometry : GeometryInstance K) : GeometryId × GeometrySystem K :=
  (gs.next_id,
    { gs with
      next_id := gs.next_id + 1,
      anchored := gs.anchored ++ [(source, gs.next_id, geometry)] })

end GeometrySystem

/-- `geometry::PenetrationAsPointPair<double>`. -/
structure PenetrationAsPointPair (K : Type) where
  id_A : GeometryId
  id_B : GeometryId
  p_WCa : Vector3 K
  p_WCb : Vector3 K
  nhat_BA_W : Vector3 K
  depth : K
deriving DecidableEq

/-! ## Topology model, caches and context -/

/-- `Body<T>`, as far as the plant reads it. -/
structure Body (K : Type) where
  index : BodyIndex
  node_index : BodyNodeIndex
  name : String
  get_default_mass : K
deriving DecidableEq

/-- `PositionKinematicsCache<T>`: the pose `X_WB` of every body node. -/
structure PositionKinematicsCache (K : Type) where
  get_X_WB : BodyNodeIndex → Isometry3 K

/-- `VelocityKinematicsCache<T>`: the spatial velocity `V_WB` of every body
node. -/
structure VelocityKinematicsCache (K : Type) where
  get_V_WB : BodyNodeIndex → SpatialVelocity K

/-- `systems::Context<T>`, as far as the plant reads it: the continuous state
`[q; v]`, the actuation input, and the penetration pairs that the query object
on the geometry query input port reports
(`query_object.ComputePointPairPenetration()`). -/
structure Context (K : Type) where
  continuous_state : List K
  actuation : List K
  penetrations : List (PenetrationAsPointPair K)

/-- `MultibodyTree<T>`, as far as the plant reads it. Its recursions are
supplied as-is: they are fields of the tree. The accessors `get_body`,
`get_X_WB` and `get_V_WB` are total: their range checks are `DRAKE_ASSERT`s. -/
structure MultibodyTree (K : Type) where
  topology_is_valid : Bool
  num_bodies : Nat
  get_body : BodyIndex → Body K
  num_positions : Nat
  num_velocities : Nat
  num_actuators : Nat
  num_actuated_dofs : Nat
  CalcPositionKinematicsCache : Context K → PositionKinematicsCache K
  CalcVelocityKinematicsCache : Context K → PositionKinematicsCache K → VelocityKinematicsCache K

/-- `MultibodyTree::num_states()`. -/
def MultibodyTree.num_states {K : Type} (t : MultibodyTree K) : Nat :=
  t.num_positions + t.num_velocities

/-- Modelled from the spec: `MultibodyTree::Finalize()` is defined outside
`multibody_plant.cc`. The `Finalized` state is entered by exactly one call; a
second call fails and changes nothing. -/
def MultibodyTree.Finalize {K : Type} (t : MultibodyTree K) : Except Error (MultibodyTree K) :=
  if t.topology_is_valid then
    .error (.logic_error
      "Attempting to call MultibodyTree::Finalize() on a tree with an already finalized topology.")
  else .ok { t with topology_is_valid := true }

/-! ## The plant -/

/-- The members `stiffness`, `damping` and `time_scale` of
`penalty_method_contact_parameters_`. -/
structure PenaltyMethodContactParameters (K : Type) where
  stiffness : K
  damping : K
  time_scale : K
deriving DecidableEq

/-- A port declared with the `LeafSystem` base. -/
inductive PortKind where
  | vector (size : Nat)
  | abstract
deriving DecidableEq

/-- The data members of `MultibodyPlant<T>`, with the port and state
declarations it makes on its `LeafSystem` base. -/
structure MultibodyPlant (K : Type) where
  model_ : MultibodyTree K
  source_id_ : Option SourceId
  geometry_system_ : Option Nat
  body_index_to_frame_id_ : List (BodyIndex × FrameId)
  geometry_id_to_body_index_ : List (GeometryId × BodyIndex)
  geometry_id_to_visual_index_ : List (GeometryId × Nat)
  geometry_id_to_collision_index_ : List (GeometryId × Nat)
  ids_ : List FrameId
  penalty_method_contact_parameters_ : PenaltyMethodContactParameters K
  gravity_field_ : Option (Vector3 K)
  pc_ : Option (PositionKinematicsCache K)
  vc_ : Option (VelocityKinematicsCache K)
  actuation_port_ : Option Nat
  continuous_state_output_port_ : Option Nat
  geometry_query_port_ : Option Nat
  geometry_id_port_ : Option Nat
  geometry_pose_port_ : Option Nat
  continuous_state_declared : Option (Nat × Nat × Nat)
  input_ports : List PortKind
  output_ports : List PortKind

/-- What the plant takes from outside this file: the square root of `<cmath>`
and the default argument of `set_penetration_allowance`, which is declared in
the header. -/
structure Externals (K : Type) where
  sqrt : K → K
  default_penetration_allowance : K

/-- The plant together with the `GeometrySystem` instances that exist, by
address. -/
structure Memory (K : Type) where
  plant : MultibodyPlant K
  engines : Nat → GeometrySystem K

namespace MultibodyPlant
variable {K : Type} [LinearOrderedField K]

/-- `MultibodyPlant<T>::MultibodyPlant()` followed by the assembly of the
model: the members hold their initial values and the topology of the model is
not valid yet. -/
def building (model : MultibodyTree K) : MultibodyPlant K where
  model_ := { model with topology_is_valid := false }
  source_id_ := none
  geometry_system_ := none
  body_index_to_frame_id_ := []
  geometry_id_to_body_index_ := []
  geometry_id_to_visual_index_ := []
  geometry_id_to_collision_index_ := []
  ids_ := []
  penalty_method_contact_parameters_ := ⟨0, 0, -1⟩
  gravity_field_ := none
  pc_ := none
  vc_ := none
  actuation_port_ := none
  continuous_state_output_port_ := none
  geometry_query_port_ := none
  geometry_id_port_ := none
  geometry_pose_port_ := none
  continuous_state_declared := none
  input_ports := []
  output_ports := []

/-- Modelled from the spec: `is_finalized()` is declared in the header
`multibody_plant.h`; the plant is `Finalized` when the topology of its
model is valid (`model_->topology_is_valid()`). -/
def is_finalized (p : MultibodyPlant K) : Bool := p.model_.topology_is_valid

/-- Modelled from the spec: `geometry_source_is_registered()` is declared in
the header `multibody_plant.h`; whether a source id is held. -/
def geometry_source_is_registered (p : MultibodyPlant K) : Bool := p.source_id_.isSome

/-- Modelled from the spec: `body_has_registered_frame(body)` is declared in
the header `multibody_plant.h`; whether `body.index()` is a key of
`body_index_to_frame_id_`. -/
def body_has_registered_frame (p : MultibodyPlant K) (body : Body K) : Bool :=
  (Map.find p.body_index_to_frame_id_ body.index).isSome

/-- Modelled from the spec: `get_num_collision_geometries()` is declared in
the header `multibody_plant.h`; the size of
`geometry_id_to_collision_index_`. -/
def get_num_collision_geometries (p : MultibodyPlant K) : Nat :=
  p.geometry_id_to_collision_index_.length

/-- Modelled from the spec: `is_collision_geometry(id)` is declared in the
header `multibody_plant.h`; whether `id` is a key of
`geometry_id_to_collision_index_`. -/
def is_collision_geometry (p : MultibodyPlant K) (id : GeometryId) : Bool :=
  decide (0 < Map.count p.geometry_id_to_collision_index_ id)

/-- `ThrowIfFinalized(source_method)`. -/
def ThrowIfFinalized (p : MultibodyPlant K) (source_method : String) : Except Error Unit :=
  if p.is_finalized then
    .error (.logic_error
      ("Post-finalize calls to '" ++ source_method ++
        "()' are not allowed; calls to this method must happen before Finalize()."))
  else .ok ()

/-- `ThrowIfNotFinalized(source_method)`. -/
def ThrowIfNotFinalized (p : MultibodyPlant K) (source_method : String) : Except Error Unit :=
  if !p.is_finalized then
    .error (.logic_error
      ("Pre-finalize calls to '" ++ source_method ++
        "()' are not allowed; you must call Finalize() first."))
  else .ok ()

end MultibodyPlant

/-! ## Geometry registration -/

namespace MultibodyPlant
variable {K : Type} [LinearOrderedField K]

/-- `RegisterAsSourceForGeometrySystem(geometry_system)`. -/
def RegisterAsSourceForGeometrySystem (s : Memory K) (geometry_system : Option Nat) :
    Except Error SourceId × Memory K :=
  match geometry_system with
  | none => (.error (.throw_unless "geometry_system != nullptr"), s)
  | some a =>
    if s.plant.geometry_source_is_registered then
      (.error (.throw_unless "!geometry_source_is_registered()"), s)
    else
      let r := (s.engines a).RegisterSource
      (.ok r.1,
        { plant := { s.plant with source_id_ := some r.1, geometry_system_ := some a },
          engines := Function.update s.engines a r.2 })

/-- `RegisterGeometry(body, X_BG, shape, geometry_system)`, called with the
address `a` of the engine. Its `DRAKE_ASSERT` lines restate what both callers
have checked. `source_id_.value()` throws when there is no source id. -/
def RegisterGeometry (s : Memory K) (body : Body K) (X_BG : Isometry3 K) (shape : Shape)
    (a : Nat) : Except Error GeometryId × Memory K :=
  match s.plant.source_id_ with
  | none => (.error .bad_optional_access, s)
  | some source =>
    -- If not already done, register a frame for this body.
    let s1 : Memory K :=
      if !s.plant.body_has_registered_frame body then
        let r := (s.engines a).RegisterFrame source ⟨body.name, Isometry3.Identity⟩
        { plant := { s.plant with
            body_index_to_frame_id_ := Map.assign s.plant.body_index_to_frame_id_ body.index r.1 },
          engines := Function.update s.engines a r.2 }
      else s
    -- Register geometry in the body frame.
    let frame_id := (Map.find s1.plant.body_index_to_frame_id_ body.index).getD 0
    let g := (s1.engines a).RegisterGeometry source frame_id ⟨X_BG, shape⟩
    (.ok g.1,
      { plant := { s1.plant with
          geometry_id_to_body_index_ :=
            Map.assign s1.plant.geometry_id_to_body_index_ g.1 body.index },
        engines := Function.update s1.engines a g.2 })

/-- `RegisterAnchoredGeometry(X_WG, shape, geometry_system)`, called with the
address `a` of the engine. -/
def RegisterAnchoredGeometry (s : Memory K) (X_WG : Isometry3 K) (shape : Shape) (a : Nat) :
    Except Error GeometryId × Memory K :=
  match s.plant.source_id_ with
  | none => (.error .bad_optional_access, s)
  | some source =>
    let g := (s.engines a).RegisterAnchoredGeometry source ⟨X_WG, shape⟩
    (.ok g.1,
      { plant := { s.plant with
          geometry_id_to_body_index_ :=
            Map.assign s.plant.geometry_id_to_body_index_ g.1 world_index },
        engines := Function.update s.engines a g.2 })

/-- The message of the `std::logic_error` thrown on an engine other than the
registered one. -/
def same_instance_message : String :=
  "Geometry registration calls must be performed on the SAME instance of " ++
  "GeometrySystem used on the first call to " ++
  "RegisterAsSourceForGeometrySystem()"

/-- `RegisterVisualGeometry(body, X_BG, shape, geometry_system)`. -/
def RegisterVisualGeometry (s : Memory K) (body : Body K) (X_BG : Isometry3 K) (shape : Shape)
    (geometry_system : Option Nat) : Except Error Unit × Memory K :=
  match s.plant.ThrowIfFinalized "RegisterVisualGeometry" with
  | .error e => (.error e, s)
  | .ok _ =>
    match geometry_system with
    | none => (.error (.throw_unless "geometry_system != nullptr"), s)
    | some a =>
      if !s.plant.geometry_source_is_registered then
        (.error (.throw_unless "geometry_source_is_registered()"), s)
      else if geometry_system ≠ s.plant.geometry_system_ then
        (.error (.logic_error same_instance_message), s)
      else
        let r :=
          if body.index = world_index then RegisterAnchoredGeometry s X_BG shape a
          else RegisterGeometry s body X_BG shape a
        match r.1 with
        | .error e => (.error e, r.2)
        | .ok id =>
          let visual_index := r.2.plant.geometry_id_to_visual_index_.length
          (.ok (),
            { r.2 with plant := { r.2.plant with
                geometry_id_to_visual_index_ :=
                  Map.assign r.2.plant.geometry_id_to_visual_index_ id visual_index } })

/-- `RegisterCollisionGeometry(body, X_BG, shape, geometry_system)`. -/
def RegisterCollisionGeometry (s : Memory K) (body : Body K) (X_BG : Isometry3 K)
    (shape : Shape) (geometry_system : Option Nat) : Except Error Unit × Memory K :=
  match s.plant.ThrowIfFinalized "RegisterCollisionGeometry" with
  | .error e => (.error e, s)
  | .ok _ =>
    match geometry_system with
    | none => (.error (.throw_unless "geometry_system != nullptr"), s)
    | some a =>
      if !s.plant.geometry_source_is_registered then
        (.error (.throw_unless "geometry_source_is_registered()"), s)
      else if geometry_system ≠ s.plant.geometry_system_ then
        (.error (.logic_error same_instance_message), s)
      else
        let r :=
          if body.index = world_index then RegisterAnchoredGeometry s X_BG shape a
          else RegisterGeometry s body X_BG shape a
        match r.1 with
        | .error e => (.error e, r.2)
        | .ok id =>
          let collision_index := r.2.plant.geometry_id_to_collision_index_.length
          (.ok (),
            { r.2 with plant := { r.2.plant with
                geometry_id_to_collision_index_ :=
                  Map.assign r.2.plant.geometry_id_to_collision_index_ id collision_index } })

/-! ## Penalty parameters and finalization -/

/-- `set_penetration_allowance(penetration_allowance)`. -/
def set_penetration_allowance (env : Externals K) (p : MultibodyPlant K)
    (penetration_allowance : K) : Except Error Unit × MultibodyPlant K :=
  match p.ThrowIfNotFinalized "set_penetration_allowance" with
  | .error e => (.error e, p)
  | .ok _ =>
    -- Default to Earth's gravity for this estimation.
    let g : K :=
      match p.gravity_field_ with
      | some gravity_vector => env.sqrt (gravity_vector.dot gravity_vector)
      | none => 981 / 100
    let mass : K :=
      (List.range p.model_.num_bodies).foldl
        (fun mass body_index => max mass (p.model_.get_body body_index).get_default_mass) 0
    let stiffness := mass * g / penetration_allowance
    let omega := env.sqrt (stiffness / mass)
    let time_scale := 1 / omega
    let damping_ratio : K := 1
    let damping := damping_ratio * time_scale / penetration_allowance
    (.ok (), { p with penalty_method_contact_parameters_ := ⟨stiffness, damping, time_scale⟩ })

/-- `DeclareStateAndPorts()`. -/
def DeclareStateAndPorts (p : MultibodyPlant K) : Except Error (MultibodyPlant K) :=
  if !p.is_finalized then .error (.abort "this->is_finalized()")
  else
    let p1 : MultibodyPlant K := { p with
      continuous_state_declared := some (p.model_.num_positions, p.model_.num_velocities, 0) }
    let p2 : MultibodyPlant K :=
      if 0 < p1.model_.num_actuators then
        { p1 with
          actuation_port_ := some p1.input_ports.length,
          input_ports := p1.input_ports ++ [PortKind.vector p1.model_.num_actuated_dofs] }
      else p1
    .ok { p2 with
      continuous_state_output_port_ := some p2.output_ports.length,
      output_ports := p2.output_ports ++ [PortKind.vector p2.model_.num_states] }

/-- `DeclareGeometrySystemPorts()`. -/
def DeclareGeometrySystemPorts (p : MultibodyPlant K) : MultibodyPlant K :=
  let p1 : MultibodyPlant K := { p with
    geometry_query_port_ := some p.input_ports.length,
    input_ports := p.input_ports ++ [PortKind.abstract] }
  let p2 : MultibodyPlant K := { p1 with
    geometry_id_port_ := some p1.output_ports.length,
    output_ports := p1.output_ports ++ [PortKind.abstract] }
  let p3 : MultibodyPlant K := { p2 with
    geometry_pose_port_ := some p2.output_ports.length,
    output_ports := p2.output_ports ++ [PortKind.abstract] }
  -- Compute once, and for all, a vector of ids to be used in CalcFrameIdOuput.
  { p3 with
    ids_ := p3.body_index_to_frame_id_.foldl
      (fun (ids : List FrameId) (it : BodyIndex × FrameId) => ids ++ [it.2]) p3.ids_ }

/-- `DeclareCacheEntries()`: allocates the two caches; their content is
written by the `Eval` functions before it is read. -/
def DeclareCacheEntries (p : MultibodyPlant K) : MultibodyPlant K :=
  { p with
    pc_ := some ⟨fun _ => Isometry3.Identity⟩,
    vc_ := some ⟨fun _ => ⟨0, 0⟩⟩ }

/-- `FinalizePlantOnly()`. -/
def FinalizePlantOnly (env : Externals K) (p : MultibodyPlant K) :
    Except Error Unit × MultibodyPlant K :=
  match p.DeclareStateAndPorts with
  | .error e => (.error e, p)
  | .ok p1 =>
    let p2 := if p1.source_id_.isSome then p1.DeclareGeometrySystemPorts else p1
    let p3 := p2.DeclareCacheEntries
    let p4 : MultibodyPlant K := { p3 with geometry_system_ := none }
    if 0 < p4.get_num_collision_geometries ∧
        p4.penalty_method_contact_parameters_.time_scale < 0 then
      set_penetration_allowance env p4 env.default_penetration_allowance
    else (.ok (), p4)

/-- `Finalize()`. -/
def Finalize (env : Externals K) (p : MultibodyPlant K) : Except Error Unit × MultibodyPlant K :=
  match p.model_.Finalize with
  | .error e => (.error e, p)
  | .ok model => FinalizePlantOnly env { p with model_ := model }

/-- The scalar-converting constructor `MultibodyPlant<T>(const MultibodyPlant<U>&
other)`: the plant it constructs, unless it throws. `CloneToScalar` is the
conversion of the model; the members that the constructor does not assign hold
their initial values. -/
def ScalarConvert {U : Type} (env : Externals K) (CloneToScalar : MultibodyTree U → MultibodyTree K)
    (other : MultibodyPlant U) : Except Error (MultibodyPlant K) :=
  if !other.is_finalized then .error (.throw_unless "other.is_finalized()")
  else
    let p : MultibodyPlant K :=
      { building (CloneToScalar other.model_) with
        model_ := CloneToScalar other.model_
        -- Copy of all members related with geometry registration.
        source_id_ := other.source_id_
        body_index_to_frame_id_ := other.body_index_to_frame_id_
        geometry_id_to_body_index_ := other.geometry_id_to_body_index_
        geometry_id_to_visual_index_ := other.geometry_id_to_visual_index_ }
    match FinalizePlantOnly env p with
    | (.error e, _) => .error e
    | (.ok _, p1) => .ok p1

end MultibodyPlant

/-! ## Ports, outputs and kinematics caches -/

/-- `geometry::FrameIdVector`: a source id and a list of frame ids. -/
structure FrameIdVector where
  source_id : SourceId
  ids : List FrameId
deriving DecidableEq

/-- `geometry::FramePoseVector<T>`: a source id and a list of poses. -/
structure FramePoseVector (K : Type) where
  source_id : SourceId
  vector : List (Isometry3 K)
deriving DecidableEq

namespace MultibodyPlant
variable {K : Type} [LinearOrderedField K]

/-- Modelled from the spec: `System<T>::get_input_port(port_index)` belongs to
the systems framework, outside `multibody_plant.cc`; the declared port, by
index. -/
def get_input_port (p : MultibodyPlant K) (port_index : Option Nat) :
    Except Error (Nat × PortKind) :=
  match port_index with
  | none => .error (.out_of_range "get_input_port")
  | some i =>
    match p.input_ports[i]? with
    | some kind => .ok (i, kind)
    | none => .error (.out_of_range "get_input_port")

/-- Modelled from the spec: `System<T>::get_output_port(port_index)` belongs to
the systems framework, outside `multibody_plant.cc`; the declared port, by
index. -/
def get_output_port (p : MultibodyPlant K) (port_index : Option Nat) :
    Except Error (Nat × PortKind) :=
  match port_index with
  | none => .error (.out_of_range "get_output_port")
  | some i =>
    match p.output_ports[i]? with
    | some kind => .ok (i, kind)
    | none => .error (.out_of_range "get_output_port")

/-- `CopyContinuousStateOut(context, state_vector)`: the value written to
`state_vector`. -/
def CopyContinuousStateOut (p : MultibodyPlant K) (context : Context K) :
    Except Error (List K) :=
  match p.ThrowIfNotFinalized "CopyContinuousStateOut" with
  | .error e => .error e
  | .ok _ => .ok context.continuous_state

/-- `get_actuation_input_port()`. -/
def get_actuation_input_port (p : MultibodyPlant K) : Except Error (Nat × PortKind) :=
  if !p.is_finalized then .error (.throw_unless "is_finalized()")
  else if !decide (0 < p.model_.num_actuators) then .error (.throw_unless "num_actuators() > 0")
  else p.get_input_port p.actuation_port_

/-- `get_continuous_state_output_port()`. -/
def get_continuous_state_output_port (p : MultibodyPlant K) : Except Error (Nat × PortKind) :=
  match p.ThrowIfNotFinalized "get_continuous_state_output_port" with
  | .error e => .error e
  | .ok _ => p.get_output_port p.continuous_state_output_port_

/-- `AllocateFrameIdOutput(context)`. -/
def AllocateFrameIdOutput (p : MultibodyPlant K) (_context : Context K) :
    Except Error FrameIdVector :=
  match p.ThrowIfNotFinalized "AllocateFrameIdOutput" with
  | .error e => .error e
  | .ok _ =>
    match p.source_id_ with
    | none => .error (.abort "source_id_ != nullopt")
    | some source_id =>
      if !p.model_.topology_is_valid then .error (.abort "model_->topology_is_valid()")
      else .ok ⟨source_id, p.ids_⟩

/-- `CalcFrameIdOutput(context, ids_vector)`: the value written to
`ids_vector`. -/
def CalcFrameIdOutput (p : MultibodyPlant K) (_context : Context K) :
    Except Error FrameIdVector :=
  match p.ThrowIfNotFinalized "CalcFrameIdOutput" with
  | .error e => .error e
  | .ok _ =>
    match p.source_id_ with
    | none => .error (.abort "source_id_ != nullopt")
    | some source_id => .ok ⟨source_id, p.ids_⟩

/-- `AllocateFramePoseOutput(context)`: one pose (of unspecified value, here
the identity) per body with geometry. -/
def AllocateFramePoseOutput (p : MultibodyPlant K) (_context : Context K) :
    Except Error (FramePoseVector K) :=
  match p.ThrowIfNotFinalized "AllocateFramePoseOutput" with
  | .error e => .error e
  | .ok _ =>
    match p.source_id_ with
    | none => .error (.abort "source_id_ != nullopt")
    | some source_id =>
      let num_bodies_with_geometry := p.body_index_to_frame_id_.length
      .ok ⟨source_id, List.replicate num_bodies_with_geometry Isometry3.Identity⟩

/-- `EvalPositionKinematics(context)`: recomputes the plant-owned position
cache and returns it. -/
def EvalPositionKinematics (p : MultibodyPlant K) (context : Context K) :
    PositionKinematicsCache K × MultibodyPlant K :=
  let pc := p.model_.CalcPositionKinematicsCache context
  (pc, { p with pc_ := some pc })

/-- `EvalVelocityKinematics(context)`: recomputes the position cache, then the
plant-owned velocity cache, and returns the latter. -/
def EvalVelocityKinematics (p : MultibodyPlant K) (context : Context K) :
    VelocityKinematicsCache K × MultibodyPlant K :=
  let r := p.EvalPositionKinematics context
  let vc := r.2.model_.CalcVelocityKinematicsCache context r.1
  (vc, { r.2 with vc_ := some vc })

/-- `CalcFramePoseOutput(context, poses)`: the value written to `poses`, and
the plant with its position cache recomputed. -/
def CalcFramePoseOutput (p : MultibodyPlant K) (context : Context K) :
    Except Error (FramePoseVector K) × MultibodyPlant K :=
  match p.ThrowIfNotFinalized "CalcFramePoseOutput" with
  | .error e => (.error e, p)
  | .ok _ =>
    let r := p.EvalPositionKinematics context
    let pc := r.1
    match r.2.source_id_ with
    | none => (.error .bad_optional_access, r.2)
    | some source_id =>
      let pose_data : List (Isometry3 K) :=
        r.2.body_index_to_frame_id_.map
          (fun it => pc.get_X_WB (r.2.model_.get_body it.1).node_index)
      (.ok ⟨source_id, pose_data⟩, r.2)

/-- `get_geometry_ids_output_port()`. -/
def get_geometry_ids_output_port (p : MultibodyPlant K) : Except Error (Nat × PortKind) :=
  match p.ThrowIfNotFinalized "get_geometry_ids_output_port" with
  | .error e => .error e
  | .ok _ =>
    if !p.geometry_source_is_registered then .error (.abort "geometry_source_is_registered()")
    else p.get_output_port p.geometry_id_port_

/-- `get_geometry_poses_output_port()`. -/
def get_geometry_poses_output_port (p : MultibodyPlant K) : Except Error (Nat × PortKind) :=
  match p.ThrowIfNotFinalized "get_geometry_poses_output_port" with
  | .error e => .error e
  | .ok _ =>
    if !p.geometry_source_is_registered then .error (.abort "geometry_source_is_registered()")
    else p.get_output_port p.geometry_pose_port_

/-- `get_geometry_query_input_port()`. -/
def get_geometry_query_input_port (p : MultibodyPlant K) : Except Error (Nat × PortKind) :=
  match p.ThrowIfNotFinalized "get_geometry_query_input_port" with
  | .error e => .error e
  | .ok _ =>
    if !p.geometry_source_is_registered then .error (.abort "geometry_source_is_registered()")
    else p.get_input_port p.geometry_query_port_

/-! ## Contact forces by the penalty method -/

/-- `F_BBo_W_array->at(i) += F`: throws `std::out_of_range` when `i` is not an
index of the array. -/
def add_at (F_BBo_W_array : List (SpatialForce K)) (i : Nat) (F : SpatialForce K) :
    Except Error (List (SpatialForce K)) :=
  match F_BBo_W_array[i]? with
  | some F_i => .ok (F_BBo_W_array.set i (F_i + F))
  | none => .error (.out_of_range "vector::at")

/-- Contact point C: `p_WC = 0.5 * (p_WCa + p_WCb)`. -/
def p_WC (penetration : PenetrationAsPointPair K) : Vector3 K :=
  (1 / 2 : K) • (penetration.p_WCa + penetration.p_WCb)

/-- `p_CoAo_W` and `p_CoBo_W`: from the contact point to the origin of the
body `body_index`, `pc.get_X_WB(node_index).translation() - p_WC`. -/
def p_CoBo_W (p : MultibodyPlant K) (pc : PositionKinematicsCache K)
    (penetration : PenetrationAsPointPair K) (body_index : BodyIndex) : Vector3 K :=
  (pc.get_X_WB (p.model_.get_body body_index).node_index).translation - p_WC penetration

/-- `v_WAc` and `v_WBc`: the velocity of the material point of the body
`body_index` at the contact point,
`vc.get_V_WB(node_index).Shift(-p_CoBo_W).translational()`. -/
def v_WBc (p : MultibodyPlant K) (pc : PositionKinematicsCache K)
    (vc : VelocityKinematicsCache K) (penetration : PenetrationAsPointPair K)
    (body_index : BodyIndex) : Vector3 K :=
  ((vc.get_V_WB (p.model_.get_body body_index).node_index).Shift
    (-(p_CoBo_W p pc penetration body_index))).translational

/-- `vn = v_AcBc_W.dot(nhat_BA_W)` with `v_AcBc_W = v_WBc - v_WAc`. -/
def vn (p : MultibodyPlant K) (pc : PositionKinematicsCache K) (vc : VelocityKinematicsCache K)
    (penetration : PenetrationAsPointPair K) (bodyA_index bodyB_index : BodyIndex) : K :=
  (v_WBc p pc vc penetration bodyB_index - v_WBc p pc vc penetration bodyA_index).dot
    penetration.nhat_BA_W

/-- Magnitude of the normal force on body A at contact point C:
`fn_AC = k * x * (1.0 + d * vn)`. -/
def fn_AC (p : MultibodyPlant K) (pc : PositionKinematicsCache K)
    (vc : VelocityKinematicsCache K) (penetration : PenetrationAsPointPair K)
    (bodyA_index bodyB_index : BodyIndex) : K :=
  let k := p.penalty_method_contact_parameters_.stiffness
  let d := p.penalty_method_contact_parameters_.damping
  let x := penetration.depth
  k * x * (1 + d * vn p pc vc penetration bodyA_index bodyB_index)

/-- Spatial force on body A at C, expressed in the world frame W:
`F_AC_W(Vector3::Zero(), fn_AC * nhat_BA_W)`. -/
def F_AC_W (p : MultibodyPlant K) (pc : PositionKinematicsCache K)
    (vc : VelocityKinematicsCache K) (penetration : PenetrationAsPointPair K)
    (bodyA_index bodyB_index : BodyIndex) : SpatialForce K :=
  ⟨0, fn_AC p pc vc penetration bodyA_index bodyB_index • penetration.nhat_BA_W⟩

/-- The body of the loop of `CalcAndAddContactForcesByPenaltyMethod` for one
penetration: the outcome, and the array as the iteration leaves it. -/
def CalcAndAddContactForce (p : MultibodyPlant K) (pc : PositionKinematicsCache K)
    (vc : VelocityKinematicsCache K) (penetration : PenetrationAsPointPair K)
    (F_BBo_W_array : List (SpatialForce K)) : Except Error Unit × List (SpatialForce K) :=
  if !p.is_collision_geometry penetration.id_A || !p.is_collision_geometry penetration.id_B then
    (.ok (), F_BBo_W_array)
  else
    match Map.at_ p.geometry_id_to_body_index_ penetration.id_A with
    | .error e => (.error e, F_BBo_W_array)
    | .ok bodyA_index =>
      match Map.at_ p.geometry_id_to_body_index_ penetration.id_B with
      | .error e => (.error e, F_BBo_W_array)
      | .ok bodyB_index =>
        if fn_AC p pc vc penetration bodyA_index bodyB_index ≤ 0 then (.ok (), F_BBo_W_array)
        else
          let F := F_AC_W p pc vc penetration bodyA_index bodyB_index
          let rA : Except Error (List (SpatialForce K)) :=
            if bodyA_index ≠ world_index then
              add_at F_BBo_W_array bodyA_index (F.Shift (p_CoBo_W p pc penetration bodyA_index))
            else .ok F_BBo_W_array
          match rA with
          | .error e => (.error e, F_BBo_W_array)
          | .ok F1 =>
            let rB : Except Error (List (SpatialForce K)) :=
              if bodyB_index ≠ world_index then
                add_at F1 bodyB_index (-(F.Shift (p_CoBo_W p pc penetration bodyB_index)))
              else .ok F1
            match rB with
            | .error e => (.error e, F1)
            | .ok F2 => (.ok (), F2)

/-- The loop of `CalcAndAddContactForcesByPenaltyMethod` over the
penetrations, stopping at the first one that throws. -/
def CalcAndAddContactForces (p : MultibodyPlant K) (pc : PositionKinematicsCache K)
    (vc : VelocityKinematicsCache K) :
    List (PenetrationAsPointPair K) → List (SpatialForce K) →
      Except Error Unit × List (SpatialForce K)
  | [], F_BBo_W_array => (.ok (), F_BBo_W_array)
  | penetration :: penetrations, F_BBo_W_array =>
    match CalcAndAddContactForce p pc vc penetration F_BBo_W_array with
    | (.error e, F) => (.error e, F)
    | (.ok _, F) => CalcAndAddContactForces p pc vc penetrations F

/-- `MultibodyPlant<double>::CalcAndAddContactForcesByPenaltyMethod(context,
pc, vc, F_BBo_W_array)`: the outcome, and the array as the call leaves it. -/
def CalcAndAddContactForcesByPenaltyMethod (p : MultibodyPlant K) (context : Context K)
    (pc : PositionKinematicsCache K) (vc : VelocityKinematicsCache K)
    (F_BBo_W_array : List (SpatialForce K)) : Except Error Unit × List (SpatialForce K) :=
  if p.get_num_collision_geometries = 0 then (.ok (), F_BBo_W_array)
  else CalcAndAddContactForces p pc vc context.penetrations F_BBo_W_array

end MultibodyPlant

/-! ## Concrete data for evaluating the definitions -/

namespace Sample

/-- A model of three bodies (the world and two others), each of unit mass,
whose node index equals its body index; body `i` sits at height `i` and the
body of index 2 moves along `+z` with unit speed. -/
def model : MultibodyTree ℚ where
  topology_is_valid := false
  num_bodies := 3
  get_body := fun i => ⟨i, i, "body", 1⟩
  num_positions := 2
  num_velocities := 2
  num_actuators := 1
  num_actuated_dofs := 1
  CalcPositionKinematicsCache := fun _ =>
    ⟨fun i => ⟨(⟨1, 0, 0⟩, ⟨0, 1, 0⟩, ⟨0, 0, 1⟩), ⟨0, 0, (i : ℚ)⟩⟩⟩
  CalcVelocityKinematicsCache := fun _ _ =>
    ⟨fun i => ⟨0, ⟨0, 0, if i = 2 then 1 else 0⟩⟩⟩

/-- A context with no penetration. -/
def context : Context ℚ := ⟨[0, 0, 0, 0], [0], []⟩

/-- The position cache of `model`. -/
def pc : PositionKinematicsCache ℚ := model.CalcPositionKinematicsCache context

/-- The velocity cache of `model`. -/
def vc : VelocityKinematicsCache ℚ := model.CalcVelocityKinematicsCache context pc

/-- The identity square root, for evaluations that take no root. -/
def env : Externals ℚ := ⟨fun x => x, 1 / 1000⟩

/-- A plant with stiffness 2 and damping 1/2 in which the geometries 10, 11
and 12 are collision geometries of the bodies 1, 2 and the world, and the
geometry 13 is a visual geometry of body 1. -/
def plant : MultibodyPlant ℚ :=
  { MultibodyPlant.building model with
    source_id_ := some 0
    body_index_to_frame_id_ := [(1, 1), (2, 3)]
    geometry_id_to_body_index_ := [(10, 1), (11, 2), (12, 0), (13, 1)]
    geometry_id_to_visual_index_ := [(13, 0)]
    geometry_id_to_collision_index_ := [(10, 0), (11, 1), (12, 2)]
    penalty_method_contact_parameters_ := ⟨2, 1 / 2, 1⟩ }

/-- Geometry 10 (body 1, A) and geometry 11 (body 2, B) overlap by 1/10; the
normal from B to A is `+z`. -/
def penetration : PenetrationAsPointPair ℚ :=
  ⟨10, 11, ⟨0, 0, 1⟩, ⟨0, 0, 2⟩, ⟨0, 0, 1⟩, 1 / 10⟩

/-- Two geometries of the world overlap. -/
def world_penetration : PenetrationAsPointPair ℚ :=
  ⟨12, 12, ⟨0, 0, 0⟩, ⟨0, 0, 0⟩, ⟨0, 0, 1⟩, 1 / 10⟩

/-- The visual geometry 13 overlaps the collision geometry 11. -/
def visual_penetration : PenetrationAsPointPair ℚ :=
  ⟨13, 11, ⟨0, 0, 1⟩, ⟨0, 0, 2⟩, ⟨0, 0, 1⟩, 1 / 10⟩

/-- One zero spatial force per body. -/
def forces : List (SpatialForce ℚ) := [0, 0, 0]

end Sample

/-! ## Sequences of calls on a plant -/

/-- The calls of the plant's interface that change the plant or an engine,
and the scalar conversion, after which the calls are made on the converted
plant. -/
inductive Call (K : Type) where
  | RegisterAsSourceForGeometrySystem (geometry_system : Option Nat)
  | RegisterVisualGeometry (body : Body K) (X_BG : Isometry3 K) (shape : Shape)
      (geometry_system : Option Nat)
  | RegisterCollisionGeometry (body : Body K) (X_BG : Isometry3 K) (shape : Shape)
      (geometry_system : Option Nat)
  | Finalize
  | set_penetration_allowance (penetration_allowance : K)
  | CalcFramePoseOutput (context : Context K)
  | ScalarConvert (CloneToScalar : MultibodyTree K → MultibodyTree K)

namespace Call
variable {K : Type} [LinearOrderedField K]

/-- The outcome of a call (whether it returned or threw) and the memory it
leaves. -/
def exec (env : Externals K) : Call K → Memory K → Except Error Unit × Memory K
  | .RegisterAsSourceForGeometrySystem geometry_system, s =>
    let r := MultibodyPlant.RegisterAsSourceForGeometrySystem s geometry_system
    (r.1.map (fun _ => ()), r.2)
  | .RegisterVisualGeometry body X_BG shape geometry_system, s =>
    MultibodyPlant.RegisterVisualGeometry s body X_BG shape geometry_system
  | .RegisterCollisionGeometry body X_BG shape geometry_system, s =>
    MultibodyPlant.RegisterCollisionGeometry s body X_BG shape geometry_system
  | .Finalize, s =>
    let r := MultibodyPlant.Finalize env s.plant
    (r.1, { s with plant := r.2 })
  | .set_penetration_allowance penetration_allowance, s =>
    let r := MultibodyPlant.set_penetration_allowance env s.plant penetration_allowance
    (r.1, { s with plant := r.2 })
  | .CalcFramePoseOutput context, s =>
    let r := MultibodyPlant.CalcFramePoseOutput s.plant context
    (r.1.map (fun _ => ()), { s with plant := r.2 })
  | .ScalarConvert CloneToScalar, s =>
    match MultibodyPlant.ScalarConvert env CloneToScalar s.plant with
    | .error e => (.error e, s)
    | .ok p => (.ok (), { s with plant := p })

/-- Whether the call registers a geometry for `body` with the engine at
address `a`. -/
def registers (body : Body K) (a : Nat) : Call K → Prop
  | .RegisterVisualGeometry b _ _ geometry_system => b = body ∧ geometry_system = some a
  | .RegisterCollisionGeometry b _ _ geometry_system => b = body ∧ geometry_system = some a
  | _ => False

end Call

/-- The memory after a sequence of calls, each made on the memory the previous
one left, whether it returned or threw. -/
def run {K : Type} [LinearOrderedField K] (env : Externals K) :
    List (Call K) → Memory K → Memory K
  | [], s => s
  | call :: calls, s => run env calls (call.exec env s).2

/-- Whether every call of the sequence returns normally. -/
def all_succeed {K : Type} [LinearOrderedField K] (env : Externals K) :
    List (Call K) → Memory K → Prop
  | [], _ => True
  | call :: calls, s =>
    (call.exec env s).1 = .ok () ∧ all_succeed env calls (call.exec env s).2

/-- A plant under construction, with the gravity field (if any) that the
assembly of the model has added, next to the engine instances that exist. -/
def Memory.initial {K : Type} [LinearOrderedField K] (model : MultibodyTree K)
    (gravity_field : Option (Vector3 K)) (engines : Nat → GeometrySystem K) : Memory K :=
  ⟨{ MultibodyPlant.building model with gravity_field_ := gravity_field }, engines⟩

/-- The error is a `std::logic_error` whose message contains the name
`method`. -/
def Error.is_logic_error_naming (e : Error) (method : String) : Prop :=
  ∃ before after : String, e = .logic_error (before ++ method ++ after)

/-- Sample engines: nothing registered, identifiers start at 0. -/
def Sample.engines : Nat → GeometrySystem ℚ := fun _ => ⟨0, [], [], [], []⟩

/-- The sample model in a plant under construction. -/
def Sample.initial : Memory ℚ := Memory.initial Sample.model none Sample.engines

/-- The sample plant after `Finalize()`, without any geometry source. -/
def Sample.finalized : Memory ℚ := run Sample.env [Call.Finalize] Sample.initial

/-- The sample plant after it registered as a source and registered a
collision geometry and a visual geometry for the body of index 1. -/
def Sample.two_geometries : Memory ℚ :=
  run Sample.env
    [Call.RegisterAsSourceForGeometrySystem (some 0),
      Call.RegisterCollisionGeometry (Sample.model.get_body 1) Isometry3.Identity 0 (some 0),
      Call.RegisterVisualGeometry (Sample.model.get_body 1) Isometry3.Identity 0 (some 0)]
    Sample.initial

/-- The sample plant after it registered as a source, registered a visual
geometry for the body of index 1 and was finalized. -/
def Sample.with_frame : Memory ℚ :=
  run Sample.env
    [Call.RegisterAsSourceForGeometrySystem (some 0),
      Call.RegisterVisualGeometry (Sample.model.get_body 1) Isometry3.Identity 0 (some 0),
      Call.Finalize]
    Sample.initial

/-- A body of the sample model other than the world. -/
def Sample.body : Body ℚ := Sample.model.get_body 1

/-- The world body of the sample model. -/
def Sample.world_body : Body ℚ := Sample.model.get_body 0

/-- The sample plant under construction, registered as a source with the
engine at address 0. -/
def Sample.registered : Memory ℚ :=
  run Sample.env [Call.RegisterAsSourceForGeometrySystem (some 0)] Sample.initial

/-- The plants that exist: a plant under construction, after any sequence of
calls. -/
def Reachable {K : Type} [LinearOrderedField K] (env : Externals K) (p : MultibodyPlant K) :
    Prop :=
  ∃ (model : MultibodyTree K) (gravity_field : Option (Vector3 K))
    (engines : Nat → GeometrySystem K) (calls : List (Call K)),
    p = (run env calls (Memory.initial model gravity_field engines)).plant

/-- The body-to-frame map has at most one entry per body and none for the
world, and every body other than the world that owns a geometry has an
entry. -/
def FrameInvariant {K : Type} (p : MultibodyPlant K) : Prop :=
  (∀ k, Map.count p.body_index_to_frame_id_ k ≤ 1) ∧
  (∀ g b, (g, b) ∈ p.geometry_id_to_body_index_ → b ≠ world_index →
    0 < Map.count p.body_index_to_frame_id_ b) ∧
  Map.count p.body_index_to_frame_id_ world_index = 0

/-- Before `Finalize()` the list `ids_` is empty, without a source id there
is no frame, and after `Finalize()` the list `ids_` holds the frame ids of
`body_index_to_frame_id_` in the order of the map. -/
def IdsInvariant {K : Type} [LinearOrderedField K] (p : MultibodyPlant K) : Prop :=
  (p.is_finalized = false → p.ids_ = []) ∧
  (p.source_id_ = none → p.body_index_to_frame_id_ = []) ∧
  (p.is_finalized = true → p.ids_ = p.body_index_to_frame_id_.map Prod.snd)

/-- A square root that is exact at 4, for the evaluation of the penalty
parameters. -/
def Sample.root_env : Externals ℚ := ⟨fun x => if x = 4 then 2 else x, 1 / 1000⟩

/-! ## Time derivatives -/

/-- `MultibodyForces<T>`: one spatial force per body and one generalized force
per velocity. -/
structure MultibodyForces (K : Type) (num_bodies num_velocities : Nat) where
  body_forces : Fin num_bodies → SpatialForce K
  generalized_forces : Fin num_velocities → K

/-- `JointActuator<T>`, as far as the plant reads it: the number of degrees of
freedom of its joint and `AddInOneForce(context, joint_dof, tau, &forces)`. -/
structure JointActuator (K : Type) (num_bodies num_velocities : Nat) where
  joint_num_dofs : Nat
  AddInOneForce : Context K → Nat → K → MultibodyForces K num_bodies num_velocities →
    MultibodyForces K num_bodies num_velocities

/-- The recursions of `MultibodyTree<T>` that `DoCalcTimeDerivatives` calls,
supplied as-is. `CalcForceElementsContribution` resets the forces and adds the
force elements; `CalcInverseDynamics` is read for the generalized forces it
returns, its other outputs being discarded. -/
structure MultibodyTreeDynamics (K : Type) (num_bodies num_positions num_velocities : Nat) where
  CalcForceElementsContribution : Context K → PositionKinematicsCache K →
    VelocityKinematicsCache K → MultibodyForces K num_bodies num_velocities
  get_joint_actuator : Nat → JointActuator K num_bodies num_velocities
  CalcMassMatrixViaInverseDynamics : Context K →
    Matrix (Fin num_velocities) (Fin num_velocities) K
  CalcInverseDynamics : Context K → PositionKinematicsCache K → VelocityKinematicsCache K →
    (Fin num_velocities → K) → List (SpatialForce K) → (Fin num_velocities → K) →
    (Fin num_velocities → K)
  MapVelocityToQDot : Context K → (Fin num_velocities → K) → (Fin num_positions → K)

/-- Modelled from the spec: `M.ldlt().solve(b)` is Eigen's, outside
`multibody_plant.cc`; a symmetric positive-definite solve of `M x = b`. In
exact arithmetic it returns the solution of the system whenever `M` is
invertible, here as `adjugate(M) b / det(M)`. -/
def ldlt_solve {K : Type} [Field K] {n : Nat} (M : Matrix (Fin n) (Fin n) K) (b : Fin n → K) :
    Fin n → K :=
  (M.det)⁻¹ • (M.adjugate.mulVec b)

namespace MultibodyPlant
variable {K : Type} [LinearOrderedField K]

/-- The loop of `DoCalcTimeDerivatives` over the actuators: each must act on a
joint of one degree of freedom (`DRAKE_DEMAND`) and adds its force `u[i]`. -/
def AddActuation {num_bodies num_positions num_velocities : Nat}
    (dynamics : MultibodyTreeDynamics K num_bodies num_positions num_velocities)
    (context : Context K) (u : List K) :
    List Nat → MultibodyForces K num_bodies num_velocities →
      Except Error (MultibodyForces K num_bodies num_velocities)
  | [], forces => .ok forces
  | actuator_index :: rest, forces =>
    let actuator := dynamics.get_joint_actuator actuator_index
    -- We only support actuators on single dof joints for now.
    if actuator.joint_num_dofs ≠ 1 then .error (.abort "actuator.joint().num_dofs() == 1")
    else
      AddActuation dynamics context u rest
        ((List.range actuator.joint_num_dofs).foldl
          (fun forces joint_dof =>
            actuator.AddInOneForce context joint_dof (u.getD actuator_index 0) forces)
          forces)

/-- `DoCalcTimeDerivatives(context, derivatives)`: the vector written to
`derivatives`, unless the call fails, and the plant with its caches
recomputed. -/
def DoCalcTimeDerivatives (p : MultibodyPlant K)
    (dynamics : MultibodyTreeDynamics K p.model_.num_bodies p.model_.num_positions
      p.model_.num_velocities)
    (context : Context K) : Except Error (List K) × MultibodyPlant K :=
  let x := context.continuous_state
  let nv := p.model_.num_velocities
  let rp := p.EvalPositionKinematics context
  let pc := rp.1
  let rv := rp.2.EvalVelocityKinematics context
  let vc := rv.1
  let plant := rv.2
  -- Compute forces applied through force elements.
  let forces0 := dynamics.CalcForceElementsContribution context pc vc
  -- If there is any input actuation, add it to the multibody forces.
  let actuated :=
    if 0 < p.model_.num_actuators then
      AddActuation dynamics context context.actuation (List.range p.model_.num_actuators)
        forces0
    else .ok forces0
  match actuated with
  | .error e => (.error e, plant)
  | .ok forces =>
    let M := dynamics.CalcMassMatrixViaInverseDynamics context
    let F_BBo_W_array := List.ofFn forces.body_forces
    let tau_array := forces.generalized_forces
    -- Compute contact forces on each body by penalty method.
    let contact :=
      if 0 < plant.get_num_collision_geometries then
        plant.CalcAndAddContactForcesByPenaltyMethod context pc vc F_BBo_W_array
      else (.ok (), F_BBo_W_array)
    match contact with
    | (.error e, _) => (.error e, plant)
    | (.ok _, F) =>
      let tau := dynamics.CalcInverseDynamics context pc vc (fun _ => 0) F tau_array
      let vdot := ldlt_solve M (-tau)
      let v : Fin nv → K := fun i => x.getD (x.length - nv + i) 0
      let qdot := dynamics.MapVelocityToQDot context v
      (.ok (List.ofFn qdot ++ List.ofFn vdot), plant)

end MultibodyPlant

/-- The sample plant after it registered as a source and registered a
collision geometry for the body of index 1. -/
def Sample.collision_registered : Memory ℚ :=
  run Sample.env
    [Call.RegisterAsSourceForGeometrySystem (some 0),
      Call.RegisterCollisionGeometry (Sample.model.get_body 1) Isometry3.Identity 0 (some 0)]
    Sample.initial

/-- The sample plant with one collision geometry, finalized. -/
def Sample.collision_finalized : Memory ℚ :=
  run Sample.env [Call.Finalize] Sample.collision_registered

/-! ## Derivative-tracking scalars (`math/test/autodiff_test.cc`) -/

namespace math

/-- Modelled from the spec: `Eigen::AutoDiffScalar<VectorXd>` (`AutoDiffXd`),
the derivative-tracking scalar type, is declared outside the sources: a value
together with the vector of its partial derivatives. A vector of size zero
tracks no derivative (a constant). -/
structure AutoDiffScalar (K : Type) where
  value : K
  derivatives : List K
deriving DecidableEq

/-- Modelled from the spec: the transcendental functions `sin` and `cos` of
the plain scalar type, which the derivative-tracking type propagates. -/
structure ScalarFunctions (K : Type) where
  sin : K → K
  cos : K → K

namespace AutoDiffScalar
variable {K : Type} [LinearOrderedField K]

/-- Modelled from the spec: how a binary operator of the derivative-tracking
type (declared outside the sources) combines the derivatives of its operands,
entry by entry, after a vector of size zero was resized to the size of the
other and filled with zeros. -/
def combine (f : K → K → K) (da db : List K) : List K :=
  if da.isEmpty then db.map (f 0)
  else if db.isEmpty then da.map (fun d => f d 0)
  else List.zipWith f da db

/-- Modelled from the spec: `operator+` of the derivative-tracking type,
declared outside the sources: the derivative of a sum. -/
def add (a b : AutoDiffScalar K) : AutoDiffScalar K :=
  ⟨a.value + b.value, combine (fun da db => da + db) a.derivatives b.derivatives⟩

/-- Modelled from the spec: `operator*` of the derivative-tracking type,
declared outside the sources: the derivative of a product. -/
def mul (a b : AutoDiffScalar K) : AutoDiffScalar K :=
  ⟨a.value * b.value,
    combine (fun da db => da * b.value + db * a.value) a.derivatives b.derivatives⟩

/-- Modelled from the spec: `operator/` of the derivative-tracking type,
declared outside the sources: the derivative of a quotient. -/
def div (a b : AutoDiffScalar K) : AutoDiffScalar K :=
  ⟨a.value / b.value,
    combine (fun da db => (da * b.value - db * a.value) / (b.value * b.value))
      a.derivatives b.derivatives⟩

instance : Add (AutoDiffScalar K) := ⟨add⟩
instance : Mul (AutoDiffScalar K) := ⟨mul⟩
instance : Div (AutoDiffScalar K) := ⟨div⟩

/-- Modelled from the spec: `sin` of the derivative-tracking type, declared
outside the sources: the chain rule with `sin' = cos`. -/
def sin (f : ScalarFunctions K) (a : AutoDiffScalar K) : AutoDiffScalar K :=
  ⟨f.sin a.value, a.derivatives.map (fun d => f.cos a.value * d)⟩

/-- Modelled from the spec: `cos` of the derivative-tracking type, declared
outside the sources: the chain rule with `cos' = -sin`. -/
def cos (f : ScalarFunctions K) (a : AutoDiffScalar K) : AutoDiffScalar K :=
  ⟨f.cos a.value, a.derivatives.map (fun d => -f.sin a.value * d)⟩

end AutoDiffScalar

variable {K : Type} [LinearOrderedField K]

/-- Modelled from the spec: `autoDiffToValueMatrix` of `drake/math/autodiff.h`,
which is not among the sources: the values of the entries, in storage order. -/
def autoDiffToValueMatrix (auto_diff_matrix : List (AutoDiffScalar K)) : List K :=
  auto_diff_matrix.map (fun a => a.value)

/-- Modelled from the spec: `autoDiffToGradientMatrix` of
`drake/math/autodiff.h`, which is not among the sources: one row per entry, in
storage order, holding the derivatives of that entry; the number of columns is
the largest number of derivatives an entry tracks, and the row of an entry
that tracks none is zero. -/
def autoDiffToGradientMatrix (auto_diff_matrix : List (AutoDiffScalar K)) : List (List K) :=
  let num_variables :=
    auto_diff_matrix.foldl (fun n a => max n a.derivatives.length) 0
  auto_diff_matrix.map (fun a =>
    if a.derivatives.isEmpty then List.replicate num_variables 0 else a.derivatives)

namespace AutodiffTest

/-- `AutodiffTest::DoMath`: a calculation that is a real function of two real
variables, `v[0]` and `v[1]`. -/
def DoMath (f : ScalarFunctions K) (v : List (AutoDiffScalar K)) :
    Option (List (AutoDiffScalar K)) := do
  let v0 ← v[0]?
  let v1 ← v[1]?
  pure [AutoDiffScalar.cos f v0 + AutoDiffScalar.sin f v0 * AutoDiffScalar.cos f v0 / v1,
    AutoDiffScalar.sin f v0 + v1,
    v0 * v0 + v1 * v1 * v1]

/-- The variables `vec_` that `AutodiffTest::SetUp` builds, each with a unit
seed derivative, at the values `x` and `y` (the test sets 7 and 9). -/
def vec_ (x y : K) : List (AutoDiffScalar K) := [⟨x, [1, 0]⟩, ⟨y, [0, 1]⟩]

/-- `AutodiffTest::SetUp`: `output_calculation_ = DoMath(vec_)` at the values 7
and 9. -/
def SetUp (f : ScalarFunctions K) : Option (List (AutoDiffScalar K)) :=
  DoMath f (vec_ 7 9)

end AutodiffTest

end math

/-! ## Discarding gradients that are zero (`math/test/autodiff_test.cc`) -/

/-- The entries of the transform: those of `linear()`, then those of
`translation()`. -/
def Isometry3.entries {α : Type} (X : Isometry3 α) : List α :=
  [X.linear.1.x, X.linear.1.y, X.linear.1.z,
    X.linear.2.1.x, X.linear.2.1.y, X.linear.2.1.z,
    X.linear.2.2.x, X.linear.2.2.y, X.linear.2.2.z,
    X.translation.x, X.translation.y, X.translation.z]

/-- The transform whose entries are those listed, read in the order of
`Isometry3.entries`; an entry that is not listed is zero. -/
def Isometry3.of_entries {K : Type} [LinearOrderedField K] (m : List K) : Isometry3 K :=
  ⟨(⟨m.getD 0 0, m.getD 1 0, m.getD 2 0⟩, ⟨m.getD 3 0, m.getD 4 0, m.getD 5 0⟩,
      ⟨m.getD 6 0, m.getD 7 0, m.getD 8 0⟩),
    ⟨m.getD 9 0, m.getD 10 0, m.getD 11 0⟩⟩

/-- The transform whose entries are the images by `f` of the entries of `X`. -/
def Isometry3.map {α β : Type} (f : α → β) (X : Isometry3 α) : Isometry3 β :=
  ⟨(⟨f X.linear.1.x, f X.linear.1.y, f X.linear.1.z⟩,
      ⟨f X.linear.2.1.x, f X.linear.2.1.y, f X.linear.2.1.z⟩,
      ⟨f X.linear.2.2.x, f X.linear.2.2.y, f X.linear.2.2.z⟩),
    ⟨f X.translation.x, f X.translation.y, f X.translation.z⟩⟩

namespace math
variable {K : Type} [LinearOrderedField K]

/-- Modelled from the spec: `Eigen::MatrixBase::isZero(prec)`, declared outside
the sources: every coefficient of the matrix is zero within `prec`. -/
def isZero (matrix : List (List K)) (prec : K) : Bool :=
  matrix.all (fun row => row.all (fun d => decide (|d| ≤ prec)))

/-- Modelled from the spec: the tolerance of `DiscardZeroGradient` when the
caller supplies none, exactly zero. -/
def default_precision : K := 0

/-- Modelled from the spec: `DiscardZeroGradient(auto_diff_matrix, precision)`
of `drake/math/autodiff_gradient.h`, which is not among the sources (only its
test is): the values of the matrix if every tracked derivative is zero within
`precision`, and a `std::runtime_error` otherwise. -/
def DiscardZeroGradient (auto_diff_matrix : List (AutoDiffScalar K)) (precision : K) :
    Except Error (List K) :=
  if isZero (autoDiffToGradientMatrix auto_diff_matrix) precision then
    .ok (autoDiffToValueMatrix auto_diff_matrix)
  else
    .error (.runtime_error "Casting AutoDiff to value but gradients are not zero.")

/-- Modelled from the spec: the overload of `DiscardZeroGradient` for a matrix
of plain values, not among the sources: it returns its argument. -/
def DiscardZeroGradient_plain (matrix : List K) (_precision : K) : Except Error (List K) :=
  .ok matrix

/-- Modelled from the spec: the overload of `DiscardZeroGradient` for a
derivative-tracking transform, not among the sources: the transform of the
values of `DiscardZeroGradient` on the entries. -/
def DiscardZeroGradient_transform (auto_diff_transform : Isometry3 (AutoDiffScalar K))
    (precision : K) : Except Error (Isometry3 K) :=
  (DiscardZeroGradient auto_diff_transform.entries precision).map Isometry3.of_entries

/-- Modelled from the spec: the overload of `DiscardZeroGradient` for a
transform of plain values, not among the sources: it returns its argument. -/
def DiscardZeroGradient_plain_transform (transform : Isometry3 K) (_precision : K) :
    Except Error (Isometry3 K) :=
  .ok transform

/-- Modelled from the spec: `initializeAutoDiffGivenGradientMatrix` of
`drake/math/autodiff_gradient.h`, not among the sources: the entry `i` has the
value `val[i]` and the derivatives of the row `i` of `gradient`. -/
def initializeAutoDiffGivenGradientMatrix (val : List K) (gradient : List (List K)) :
    List (AutoDiffScalar K) :=
  List.zipWith (fun v g => ⟨v, g⟩) val gradient

/-- The cast of a plain value to the derivative-tracking type: no derivative
is tracked. -/
def cast (v : K) : AutoDiffScalar K := ⟨v, []⟩

namespace AdditionalAutodiffTest

/-- The vector `test2` of the test `DiscardZeroGradient`. -/
def test2 : List ℚ := [1, 2, 3]

/-- The vector `test3 = test2`: no derivative is tracked. -/
def test3 : List (AutoDiffScalar ℚ) := test2.map cast

/-- The vector `test3` with the gradient `MatrixXd::Zero(3, 2)`. -/
def test3_zero : List (AutoDiffScalar ℚ) :=
  initializeAutoDiffGivenGradientMatrix test2 (List.replicate 3 [0, 0])

/-- The vector `test3` with the gradient `MatrixXd::Ones(3, 2)`. -/
def test3_ones : List (AutoDiffScalar ℚ) :=
  initializeAutoDiffGivenGradientMatrix test2 (List.replicate 3 [1, 1])

/-- The transform `test5`, the identity. -/
def test5 : Isometry3 ℚ := Isometry3.Identity

/-- The transform `test6`: the identity translated by `(3, 2, 1)`, no
derivative tracked. -/
def test6 : Isometry3 (AutoDiffScalar ℚ) :=
  ⟨(⟨cast 1, cast 0, cast 0⟩, ⟨cast 0, cast 1, cast 0⟩, ⟨cast 0, cast 0, cast 1⟩),
    ⟨cast 3, cast 2, cast 1⟩⟩

/-- The transform `test6` after
`test6.linear()(0, 0).derivatives() = Vector3d{1., 2., 3.}`. -/
def test6_derivatives : Isometry3 (AutoDiffScalar ℚ) :=
  { test6 with linear := (⟨⟨1, [1, 2, 3]⟩, cast 0, cast 0⟩, test6.linear.2) }

end AdditionalAutodiffTest

end math

/-- A chain of three bodies: the world, then the body of index 2, then the
body of index 1. The nodes are numbered along the chain, so the body of index
1 has the node index 2 and the body of index 2 has the node index 1. The
caches, ordered by node index, are those of `Sample.model`: the node `i` sits
at height `i` and the node 2 moves along `+z` with unit speed. -/
def Sample.chain_model : MultibodyTree ℚ :=
  { Sample.model with
    get_body := fun i => ⟨i, if i = 1 then 2 else if i = 2 then 1 else i, "body", 1⟩ }

/-- The plant `Sample.plant` on the chain: the geometry 10 is a collision
geometry of the body 1 and the geometry 12 one of the world. -/
def Sample.chain_plant : MultibodyPlant ℚ :=
  { Sample.plant with model_ := Sample.chain_model }

/-- Geometry 10 (body 1, A) and geometry 12 (the world, B) overlap by 1/10 at
height 2; the normal from B to A is `+z`. -/
def Sample.chain_penetration : PenetrationAsPointPair ℚ :=
  ⟨10, 12, ⟨0, 0, 2⟩, ⟨0, 0, 2⟩, ⟨0, 0, 1⟩, 1 / 10⟩

/-- A context whose geometry query reports `Sample.chain_penetration`. -/
def Sample.chain_context : Context ℚ := ⟨[0, 0, 0, 0], [0], [Sample.chain_penetration]⟩

/-- A square root that is exact at the arguments the runs on the slider plant
take it at, `sqrt 100 = 10` and `sqrt 10000 = 100` (elsewhere, where no such
run takes it, it returns its argument), and the default penetration allowance
1/1000. -/
def Sample.exact_env : Externals ℚ :=
  ⟨fun x => if x = 100 then 10 else if x = 10000 then 100 else x, 1 / 1000⟩

/-- A mechanism of two bodies, the world and a slider of unit mass, joined by
one actuated joint of one degree of freedom, a vertical prismatic joint. The
body origins stay at the world origin and the bodies are at rest. -/
def Sample.slider_model : MultibodyTree ℚ where
  topology_is_valid := false
  num_bodies := 2
  get_body := fun i => ⟨i, i, "slider", 1⟩
  num_positions := 1
  num_velocities := 1
  num_actuators := 1
  num_actuated_dofs := 1
  CalcPositionKinematicsCache := fun _ => ⟨fun _ => Isometry3.Identity⟩
  CalcVelocityKinematicsCache := fun _ _ => ⟨fun _ => ⟨0, 0⟩⟩

/-- The slider plant under the gravity `(0, 0, -10)`, after it registered as a
source and registered one collision geometry on the slider (the geometry 2)
and one on the world (the geometry 3). -/
def Sample.slider_registered : Memory ℚ :=
  run Sample.exact_env
    [Call.RegisterAsSourceForGeometrySystem (some 0),
      Call.RegisterCollisionGeometry (Sample.slider_model.get_body 1) Isometry3.Identity 0
        (some 0),
      Call.RegisterCollisionGeometry (Sample.slider_model.get_body 0) Isometry3.Identity 0
        (some 0)]
    (Memory.initial Sample.slider_model (some ⟨0, 0, -10⟩) Sample.engines)

/-- The slider plant, finalized. -/
def Sample.slider : Memory ℚ :=
  run Sample.exact_env [Call.Finalize] Sample.slider_registered

/-- The dynamics of the slider: gravity applies the generalized force -10 (the
weight) and no body force, the actuator adds its input to the generalized
force, the mass matrix is `(1)`, inverse dynamics at zero acceleration and zero
velocity returns `-tau_app - J^T F` where `J^T F` is the vertical force on the
slider, the entry 1 of the array of body forces, and `qdot = v`. -/
def Sample.slider_dynamics : MultibodyTreeDynamics ℚ 2 1 1 where
  CalcForceElementsContribution := fun _ _ _ => ⟨fun _ => 0, fun _ => -10⟩
  get_joint_actuator := fun _ =>
    ⟨1, fun _ _ u forces => { forces with
      generalized_forces := fun i => forces.generalized_forces i + u }⟩
  CalcMassMatrixViaInverseDynamics := fun _ => Matrix.diagonal (fun _ => 1)
  CalcInverseDynamics := fun _ _ _ _ F_BBo_W_array tau_applied =>
    fun i => -tau_applied i - (F_BBo_W_array.getD 1 0).translational.z
  MapVelocityToQDot := fun _ v => v

/-- The slider at `q = 1`, at rest (`v = 0`), with the actuation `u = 0` and no
penetration. -/
def Sample.slider_free : Context ℚ := ⟨[1, 0], [0], []⟩

/-- The slider at rest on the ground, with the actuation `u = 5`: its geometry
(A) overlaps the geometry of the world (B) by the allowance 1/1000 at the
world origin, the normal from B to A being `+z`. -/
def Sample.slider_resting : Context ℚ :=
  ⟨[0, 0], [5], [⟨2, 3, ⟨0, 0, 0⟩, ⟨0, 0, 0⟩, ⟨0, 0, 1⟩, 1 / 1000⟩]⟩

namespace MultibodyPlant
variable {K : Type} [LinearOrderedField K]

/-- The contact force on a body as the specification states it, for comparison
with the array that `CalcAndAddContactForcesByPenaltyMethod` leaves: the
spatial force at the origin of the body `body_index`, expressed in the world
frame, that one penetration pair applies to it. It is zero unless both
geometries of the pair are collision geometries and `f = k x (1 + d vn)` is
positive, `vn` being the normal relative velocity at the midpoint `p` of the
two witness points. Then the body that owns the geometry A receives the force
`f nhat` applied at `p` (the torque `(p - origin) × f nhat` at its origin),
the body that owns the geometry B receives the opposite force applied at `p`,
and the world body receives nothing. -/
def specified_contact_force (p : MultibodyPlant K) (pc : PositionKinematicsCache K)
    (vc : VelocityKinematicsCache K) (penetration : PenetrationAsPointPair K)
    (body_index : BodyIndex) : SpatialForce K :=
  if p.is_collision_geometry penetration.id_A = true ∧
      p.is_collision_geometry penetration.id_B = true then
    match Map.at_ p.geometry_id_to_body_index_ penetration.id_A with
    | .error _ => 0
    | .ok a =>
      match Map.at_ p.geometry_id_to_body_index_ penetration.id_B with
      | .error _ => 0
      | .ok b =>
        let k := p.penalty_method_contact_parameters_.stiffness
        let d := p.penalty_method_contact_parameters_.damping
        let x := penetration.depth
        let nhat := penetration.nhat_BA_W
        let origin := fun i => (pc.get_X_WB (p.model_.get_body i).node_index).translation
        let V := fun i => vc.get_V_WB (p.model_.get_body i).node_index
        let point : Vector3 K :=
          ⟨(penetration.p_WCa.x + penetration.p_WCb.x) / 2,
            (penetration.p_WCa.y + penetration.p_WCb.y) / 2,
            (penetration.p_WCa.z + penetration.p_WCb.z) / 2⟩
        let v_at := fun i => (V i).translational + (V i).rotational.cross (point - origin i)
        let v_n := (v_at b - v_at a).dot nhat
        let f := k * x * (1 + d * v_n)
        if 0 < f then
          (if body_index = a ∧ a ≠ world_index then
              ⟨(point - origin a).cross (f • nhat), f • nhat⟩
            else 0) +
          (if body_index = b ∧ b ≠ world_index then
              ⟨-((point - origin b).cross (f • nhat)), -(f • nhat)⟩
            else 0)
        else 0
  else 0

end MultibodyPlant

/-- A context whose geometry query reports `Sample.penetration`, between the
geometry 10 of the body 1 (A) and the geometry 11 of the body 2 (B). -/
def Sample.chain_pair_context : Context ℚ := ⟨[0, 0, 0, 0], [0], [Sample.penetration]⟩

/-! # Theorems -/

set_option linter.unusedSectionVars false

namespace Vector3
variable {K : Type} [LinearOrderedField K]

@[simp]
theorem zero_x : (0 : Vector3 K).x = 0 := rfl
@[simp]
theorem zero_y : (0 : Vector3 K).y = 0 := rfl
@[simp]
theorem zero_z : (0 : Vector3 K).z = 0 := rfl
@[simp]
theorem add_x (a b : Vector3 K) : (a + b).x = a.x + b.x := rfl
@[simp]
theorem add_y (a b : Vector3 K) : (a + b).y = a.y + b.y := rfl
@[simp]
theorem add_z (a b : Vector3 K) : (a + b).z = a.z + b.z := rfl
@[simp]
theorem sub_x (a b : Vector3 K) : (a - b).x = a.x - b.x := rfl
@[simp]
theorem sub_y (a b : Vector3 K) : (a - b).y = a.y - b.y := rfl
@[simp]
theorem sub_z (a b : Vector3 K) : (a - b).z = a.z - b.z := rfl
@[simp]
theorem neg_x (a : Vector3 K) : (-a).x = -a.x := rfl
@[simp]
theorem neg_y (a : Vector3 K) : (-a).y = -a.y := rfl
@[simp]
theorem neg_z (a : Vector3 K) : (-a).z = -a.z := rfl
@[simp]
theorem smul_x (c : K) (a : Vector3 K) : (c • a).x = c * a.x := rfl
@[simp]
theorem smul_y (c : K) (a : Vector3 K) : (c • a).y = c * a.y := rfl
@[simp]
theorem smul_z (c : K) (a : Vector3 K) : (c • a).z = c * a.z := rfl

end Vector3

/-! ## Facts about the containers and the spatial algebra -/

namespace SpatialForce
variable {K : Type} [LinearOrderedField K]

@[simp]
theorem neg_rotational (F : SpatialForce K) : (-F).rotational = -F.rotational := rfl
@[simp]
theorem neg_translational (F : SpatialForce K) :
    (-F).translational = -F.translational := rfl
@[simp]
theorem add_rotational (F G : SpatialForce K) :
    (F + G).rotational = F.rotational + G.rotational := rfl
@[simp]
theorem add_translational (F G : SpatialForce K) :
    (F + G).translational = F.translational + G.translational := rfl

@[simp]
theorem zero_rotational : (0 : SpatialForce K).rotational = 0 := rfl
@[simp]
theorem zero_translational : (0 : SpatialForce K).translational = 0 := rfl

theorem add_zero_right (F : SpatialForce K) : F + 0 = F := by
  ext <;> simp

end SpatialForce

namespace MultibodyPlant
variable {K : Type} [LinearOrderedField K]

theorem add_at_eq_ok {F : List (SpatialForce K)} {i : Nat} (X : SpatialForce K)
    (h : i < F.length) : add_at F i X = .ok (F.set i (F[i] + X)) := by
  simp [add_at, List.getElem?_eq_getElem h]

theorem add_at_getElem? {F F1 : List (SpatialForce K)} {i : Nat} {X : SpatialForce K}
    (h : add_at F i X = .ok F1) (j : Nat) :
    F1[j]? = (F[j]?).map (fun Fj => if j = i then Fj + X else Fj) := by
  unfold add_at at h
  cases hi : F[i]? with
  | none => simp [hi] at h
  | some Fi =>
    simp only [hi, Except.ok.injEq] at h
    subst h
    have hlt : i < F.length := by
      by_contra hge
      rw [List.getElem?_eq_none (not_lt.mp hge)] at hi
      exact Option.noConfusion hi
    by_cases hji : j = i
    · subst hji
      simp [List.getElem?_set, hlt, hi]
    · have hij : i ≠ j := fun e => hji e.symm
      rw [List.getElem?_set_ne hij]
      cases F[j]? <;> simp [hji]

theorem add_at_error_iff {F : List (SpatialForce K)} {i : Nat} {X : SpatialForce K} :
    (∃ e, add_at F i X = .error e) ↔ F.length ≤ i := by
  unfold add_at
  constructor
  · rintro ⟨e, h⟩
    by_contra hlt
    rw [List.getElem?_eq_getElem (not_le.mp hlt)] at h
    exact Except.noConfusion h
  · intro hle
    rw [List.getElem?_eq_none hle]
    exact ⟨_, rfl⟩

end MultibodyPlant

namespace MultibodyPlant
variable {K : Type} [LinearOrderedField K]

theorem is_collision_geometry_eq_false_skips (p : MultibodyPlant K)
    (pc : PositionKinematicsCache K) (vc : VelocityKinematicsCache K)
    (penetration : PenetrationAsPointPair K) (F : List (SpatialForce K))
    (h : p.is_collision_geometry penetration.id_A = false ∨
      p.is_collision_geometry penetration.id_B = false) :
    CalcAndAddContactForce p pc vc penetration F = (.ok (), F) := by
  unfold CalcAndAddContactForce
  rcases h with h | h <;> simp [h]

/-- What one iteration does once both owning bodies are found. -/
theorem CalcAndAddContactForce_of_bodies (p : MultibodyPlant K)
    (pc : PositionKinematicsCache K) (vc : VelocityKinematicsCache K)
    (penetration : PenetrationAsPointPair K) (F : List (SpatialForce K))
    (a b : BodyIndex)
    (hA : p.is_collision_geometry penetration.id_A = true)
    (hB : p.is_collision_geometry penetration.id_B = true)
    (ha : Map.at_ p.geometry_id_to_body_index_ penetration.id_A = .ok a)
    (hb : Map.at_ p.geometry_id_to_body_index_ penetration.id_B = .ok b) :
    CalcAndAddContactForce p pc vc penetration F =
      if fn_AC p pc vc penetration a b ≤ 0 then (.ok (), F)
      else
        match (if a ≠ world_index then
            add_at F a ((F_AC_W p pc vc penetration a b).Shift (p_CoBo_W p pc penetration a))
          else .ok F) with
        | .error e => (.error e, F)
        | .ok F1 =>
          match (if b ≠ world_index then
              add_at F1 b (-((F_AC_W p pc vc penetration a b).Shift (p_CoBo_W p pc penetration b)))
            else .ok F1) with
          | .error e => (.error e, F1)
          | .ok F2 => (.ok (), F2) := by
  unfold CalcAndAddContactForce
  simp only [hA, hB, ha, hb, Bool.not_true, Bool.or_self, Bool.false_eq_true, if_false]


theorem v_WBc_eq (p : MultibodyPlant K) (pc : PositionKinematicsCache K)
    (vc : VelocityKinematicsCache K) (penetration : PenetrationAsPointPair K) (i : BodyIndex) :
    v_WBc p pc vc penetration i =
      (vc.get_V_WB (p.model_.get_body i).node_index).translational +
        (vc.get_V_WB (p.model_.get_body i).node_index).rotational.cross
          (p_WC penetration - (pc.get_X_WB (p.model_.get_body i).node_index).translation) := by
  unfold v_WBc p_CoBo_W SpatialVelocity.Shift
  ext <;> simp [Vector3.cross]

theorem F_AC_W_Shift_eq (p : MultibodyPlant K) (pc : PositionKinematicsCache K)
    (vc : VelocityKinematicsCache K) (penetration : PenetrationAsPointPair K)
    (a b i : BodyIndex) :
    (F_AC_W p pc vc penetration a b).Shift (p_CoBo_W p pc penetration i) =
      ⟨(p_WC penetration - (pc.get_X_WB (p.model_.get_body i).node_index).translation).cross
          (fn_AC p pc vc penetration a b • penetration.nhat_BA_W),
        fn_AC p pc vc penetration a b • penetration.nhat_BA_W⟩ := by
  unfold F_AC_W p_CoBo_W SpatialForce.Shift
  ext <;> simp [Vector3.cross] <;> ring

theorem CalcAndAddContactForce_pointwise (p : MultibodyPlant K)
    (pc : PositionKinematicsCache K) (vc : VelocityKinematicsCache K)
    (penetration : PenetrationAsPointPair K) (F : List (SpatialForce K))
    (a b : BodyIndex)
    (hA : p.is_collision_geometry penetration.id_A = true)
    (hB : p.is_collision_geometry penetration.id_B = true)
    (ha : Map.at_ p.geometry_id_to_body_index_ penetration.id_A = .ok a)
    (hb : Map.at_ p.geometry_id_to_body_index_ penetration.id_B = .ok b)
    (hFa : a ≠ world_index → a < F.length) (hFb : b ≠ world_index → b < F.length)
    (hf : 0 < fn_AC p pc vc penetration a b) :
    ∃ F2, CalcAndAddContactForce p pc vc penetration F = (.ok (), F2) ∧
      ∀ i, F2[i]? = (F[i]?).map (fun Fi =>
        Fi + (if i = a ∧ a ≠ world_index then
                (F_AC_W p pc vc penetration a b).Shift (p_CoBo_W p pc penetration a) else 0)
           + (if i = b ∧ b ≠ world_index then
                -((F_AC_W p pc vc penetration a b).Shift (p_CoBo_W p pc penetration b))
              else 0)) := by
  rw [CalcAndAddContactForce_of_bodies p pc vc penetration F a b hA hB ha hb,
    if_neg (not_le.mpr hf)]
  have key : ∀ (G : List (SpatialForce K)) (c : BodyIndex) (X : SpatialForce K),
      (c ≠ world_index → c < G.length) →
      ∃ G1, (if c ≠ world_index then add_at G c X else .ok G) = .ok G1 ∧
        G1.length = G.length ∧
        ∀ i, G1[i]? = (G[i]?).map (fun Gi => Gi + (if i = c ∧ c ≠ world_index then X else 0)) := by
    intro G c X hc
    by_cases hw : c ≠ world_index
    · refine ⟨_, by rw [if_pos hw]; exact add_at_eq_ok X (hc hw), by simp, ?_⟩
      intro i
      rw [add_at_getElem? (add_at_eq_ok X (hc hw)) i]
      cases G[i]? with
      | none => rfl
      | some Gi =>
        by_cases hi : i = c
        · simp [hi, hw]
        · simp [hi, SpatialForce.add_zero_right]
    · refine ⟨G, by rw [if_neg hw], rfl, ?_⟩
      intro i
      cases G[i]? with
      | none => rfl
      | some Gi => simp [hw, SpatialForce.add_zero_right]
  obtain ⟨F1, h1, hlen1, hp1⟩ := key F a
    ((F_AC_W p pc vc penetration a b).Shift (p_CoBo_W p pc penetration a)) hFa
  obtain ⟨F2, h2, _, hp2⟩ := key F1 b
    (-((F_AC_W p pc vc penetration a b).Shift (p_CoBo_W p pc penetration b)))
    (by rw [hlen1]; exact hFb)
  refine ⟨F2, ?_, ?_⟩
  · simp only [h1, h2]
  · intro i
    rw [hp2 i, hp1 i]
    cases F[i]? <;> rfl


/-- What one iteration of the loop does, entry by entry of the array as the
loop indexes it, by body index. For a penetration pair whose two ids are
collision geometries, owned by the bodies `a` (A) and `b` (B), one iteration of
`CalcAndAddContactForcesByPenaltyMethod` works with the midpoint `p` of the two
witness points, the velocities `v + w × (p - origin)` of the two material
points at `p`, `vn = (v_B(p) - v_A(p)) · nhat` and `f = k * x * (1 + d * vn)`.
When `f ≤ 0` the accumulator is returned as it was. When `0 < f` the entry of
a non-world `a` receives the force `f * nhat` with the torque
`(p - origin_A) × (f * nhat)` (zero torque at `p`, shifted to A's origin), the
entry of a non-world `b` receives the negated force shifted to B's origin, and
no other entry changes. When `vn = 0` the force for A is `(k * x) * nhat`. -/
theorem CalcAndAddContactForce_law (p : MultibodyPlant K)
    (pc : PositionKinematicsCache K) (vc : VelocityKinematicsCache K)
    (penetration : PenetrationAsPointPair K) (F : List (SpatialForce K))
    (a b : BodyIndex)
    (hA : p.is_collision_geometry penetration.id_A = true)
    (hB : p.is_collision_geometry penetration.id_B = true)
    (ha : Map.at_ p.geometry_id_to_body_index_ penetration.id_A = .ok a)
    (hb : Map.at_ p.geometry_id_to_body_index_ penetration.id_B = .ok b)
    (hFa : a ≠ world_index → a < F.length) (hFb : b ≠ world_index → b < F.length) :
    let k := p.penalty_method_contact_parameters_.stiffness
    let d := p.penalty_method_contact_parameters_.damping
    let x := penetration.depth
    let nhat := penetration.nhat_BA_W
    let origin := fun i => (pc.get_X_WB (p.model_.get_body i).node_index).translation
    let V := fun i => vc.get_V_WB (p.model_.get_body i).node_index
    let point : Vector3 K :=
      ⟨(penetration.p_WCa.x + penetration.p_WCb.x) / 2,
        (penetration.p_WCa.y + penetration.p_WCb.y) / 2,
        (penetration.p_WCa.z + penetration.p_WCb.z) / 2⟩
    let v_at := fun i => (V i).translational + (V i).rotational.cross (point - origin i)
    let v_n := (v_at b - v_at a).dot nhat
    let f := k * x * (1 + d * v_n)
    let F_A : SpatialForce K := ⟨(point - origin a).cross (f • nhat), f • nhat⟩
    let F_B : SpatialForce K := ⟨-((point - origin b).cross (f • nhat)), -(f • nhat)⟩
    (f ≤ 0 → CalcAndAddContactForce p pc vc penetration F = (.ok (), F)) ∧
    (0 < f → ∃ F2, CalcAndAddContactForce p pc vc penetration F = (.ok (), F2) ∧
      ∀ i, F2[i]? = (F[i]?).map (fun Fi =>
        Fi + (if i = a ∧ a ≠ world_index then F_A else 0)
           + (if i = b ∧ b ≠ world_index then F_B else 0))) ∧
    (v_n = 0 → F_A.translational = (k * x) • nhat) := by
  intro k d x nhat origin V point v_at v_n f F_A F_B
  have hpoint : p_WC penetration = point := by
    unfold p_WC
    ext <;> simp [point] <;> ring
  have hv : ∀ i, v_WBc p pc vc penetration i = v_at i := by
    intro i
    rw [v_WBc_eq, hpoint]
  have hvn : vn p pc vc penetration a b = v_n := by
    unfold vn
    rw [hv, hv]
  have hf : fn_AC p pc vc penetration a b = f := by
    unfold fn_AC
    simp only [hvn]
  have hFA : (F_AC_W p pc vc penetration a b).Shift (p_CoBo_W p pc penetration a) = F_A := by
    rw [F_AC_W_Shift_eq, hf, hpoint]
  have hFB : -((F_AC_W p pc vc penetration a b).Shift (p_CoBo_W p pc penetration b)) = F_B := by
    rw [F_AC_W_Shift_eq, hf, hpoint]
    rfl
  refine ⟨?_, ?_, ?_⟩
  · intro hle
    rw [CalcAndAddContactForce_of_bodies p pc vc penetration F a b hA hB ha hb, hf, if_pos hle]
  · intro hpos
    have h := CalcAndAddContactForce_pointwise p pc vc penetration F a b hA hB ha hb hFa hFb
      (by rw [hf]; exact hpos)
    rw [hFA, hFB] at h
    exact h
  · intro h0
    have : f = k * x := by
      show k * x * (1 + d * v_n) = k * x
      rw [h0]
      ring
    show f • nhat = (k * x) • nhat
    rw [this]

/-- One iteration on the sample pair: the force 3/10 along the normal goes to
body 1 and its opposite to body 2. -/
theorem CalcAndAddContactForce_law_sample :
    (Sample.plant.is_collision_geometry Sample.penetration.id_A = true ∧
      Sample.plant.is_collision_geometry Sample.penetration.id_B = true ∧
      Map.at_ Sample.plant.geometry_id_to_body_index_ Sample.penetration.id_A = .ok 1 ∧
      Map.at_ Sample.plant.geometry_id_to_body_index_ Sample.penetration.id_B = .ok 2) ∧
    ∃ F2, CalcAndAddContactForce Sample.plant Sample.pc Sample.vc Sample.penetration
        Sample.forces = (.ok (), F2) ∧
      F2[1]? = some ⟨0, ⟨0, 0, 3 / 10⟩⟩ ∧ F2[2]? = some ⟨0, ⟨0, 0, -(3 / 10)⟩⟩ := by
  have hA : Sample.plant.is_collision_geometry Sample.penetration.id_A = true := by decide
  have hB : Sample.plant.is_collision_geometry Sample.penetration.id_B = true := by decide
  have ha : Map.at_ Sample.plant.geometry_id_to_body_index_ Sample.penetration.id_A = .ok 1 := rfl
  have hb : Map.at_ Sample.plant.geometry_id_to_body_index_ Sample.penetration.id_B = .ok 2 := rfl
  refine ⟨⟨hA, hB, ha, hb⟩, ?_⟩
  have h := (CalcAndAddContactForce_law Sample.plant Sample.pc Sample.vc Sample.penetration
    Sample.forces 1 2 hA hB ha hb (fun _ => by decide) (fun _ => by decide)).2.1
  simp only [Sample.plant, Sample.pc, Sample.vc, Sample.penetration, Sample.model, building,
    Vector3.dot, Vector3.cross] at h
  obtain ⟨F2, h2, hp⟩ := h (by norm_num)
  refine ⟨F2, h2, ?_, ?_⟩
  · rw [hp 1]
    simp [Sample.forces, world_index]
    ext <;> simp [Vector3.cross]
    norm_num
  · rw [hp 2]
    simp [Sample.forces, world_index]
    ext <;> simp [Vector3.cross]
    norm_num

end MultibodyPlant

namespace MultibodyPlant

/-- C1, at the failing input: on the chain, where the body 1 has the node index
2 and the body 2 has the node index 1, the geometry 10 of the body 1 (A) and
the geometry 11 of the body 2 (B) overlap by 1/10 with the normal `+z`. The
call computes `f = k x (1 + d vn) = 2 * 1/10 * (1 + 1/2 * (-1)) = 1/10 > 0`
as the law says, and the specification assigns the force `f nhat = (0, 0, 1/10)`
to the body A. The call writes that force at the entry 1, the body index of A,
which is the entry of the node of B, and the opposite force at the entry 2, the
entry of the node of A: in the array, ordered by node index, the body A
receives `-f nhat` and the body B receives `f nhat`. -/
theorem contact_force_reaches_other_body :
    Sample.chain_plant.is_collision_geometry Sample.penetration.id_A = true ∧
    Sample.chain_plant.is_collision_geometry Sample.penetration.id_B = true ∧
    Map.at_ Sample.chain_plant.geometry_id_to_body_index_ Sample.penetration.id_A = .ok 1 ∧
    Map.at_ Sample.chain_plant.geometry_id_to_body_index_ Sample.penetration.id_B = .ok 2 ∧
    (Sample.chain_plant.model_.get_body 1).node_index = 2 ∧
    (Sample.chain_plant.model_.get_body 2).node_index = 1 ∧
    vn Sample.chain_plant Sample.pc Sample.vc Sample.penetration 1 2 = -1 ∧
    fn_AC Sample.chain_plant Sample.pc Sample.vc Sample.penetration 1 2 = 1 / 10 ∧
    specified_contact_force Sample.chain_plant Sample.pc Sample.vc Sample.penetration 1
      = ⟨0, ⟨0, 0, 1 / 10⟩⟩ ∧
    ∃ F, CalcAndAddContactForcesByPenaltyMethod Sample.chain_plant Sample.chain_pair_context
        Sample.pc Sample.vc Sample.forces = (.ok (), F) ∧
      F[(Sample.chain_plant.model_.get_body 1).node_index]? = some ⟨0, ⟨0, 0, -(1 / 10)⟩⟩ ∧
      F[(Sample.chain_plant.model_.get_body 2).node_index]? = some ⟨0, ⟨0, 0, 1 / 10⟩⟩ ∧
      F[0]? = some 0 := by
  have hA : Sample.chain_plant.is_collision_geometry Sample.penetration.id_A = true := by decide
  have hB : Sample.chain_plant.is_collision_geometry Sample.penetration.id_B = true := by decide
  have ha : Map.at_ Sample.chain_plant.geometry_id_to_body_index_ Sample.penetration.id_A
      = .ok 1 := rfl
  have hb : Map.at_ Sample.chain_plant.geometry_id_to_body_index_ Sample.penetration.id_B
      = .ok 2 := rfl
  have hvn : vn Sample.chain_plant Sample.pc Sample.vc Sample.penetration 1 2 = -1 := by
    simp [vn, v_WBc, p_CoBo_W, p_WC, Sample.chain_plant, Sample.chain_model,
      Sample.plant, Sample.pc, Sample.vc, Sample.penetration, Sample.model,
      SpatialVelocity.Shift, Vector3.dot, Vector3.cross, building]
  have hfn : fn_AC Sample.chain_plant Sample.pc Sample.vc Sample.penetration 1 2 = 1 / 10 := by
    unfold fn_AC
    rw [hvn]
    simp [Sample.chain_plant, Sample.plant, Sample.penetration, building]
    norm_num
  have hf : 0 < fn_AC Sample.chain_plant Sample.pc Sample.vc Sample.penetration 1 2 := by
    rw [hfn]
    norm_num
  refine ⟨hA, hB, ha, hb, rfl, rfl, hvn, hfn, ?_, ?_⟩
  · unfold specified_contact_force
    simp only [hA, hB, ha, hb, and_self, if_true]
    simp [world_index, Sample.chain_plant, Sample.chain_model, Sample.plant, Sample.pc,
      Sample.vc, Sample.penetration, Sample.model, Vector3.dot, Vector3.cross, building]
    rw [if_pos (by norm_num)]
    ext <;> simp
    norm_num
  · obtain ⟨F2, h2, hp⟩ := CalcAndAddContactForce_pointwise Sample.chain_plant Sample.pc
      Sample.vc Sample.penetration Sample.forces 1 2 hA hB ha hb
      (fun _ => by decide) (fun _ => by decide) hf
    refine ⟨F2, ?_, ?_, ?_, ?_⟩
    · unfold CalcAndAddContactForcesByPenaltyMethod
      rw [if_neg (by decide)]
      show CalcAndAddContactForces Sample.chain_plant Sample.pc Sample.vc
        [Sample.penetration] Sample.forces = _
      unfold CalcAndAddContactForces
      rw [h2]
      rfl
    · show F2[2]? = _
      rw [hp 2]
      simp only [F_AC_W_Shift_eq, hfn]
      simp [Sample.forces, world_index, p_WC, Sample.chain_plant, Sample.chain_model,
        Sample.plant, Sample.pc, Sample.penetration, Sample.model, Vector3.cross, building]
      ext <;> simp
    · show F2[1]? = _
      rw [hp 1]
      simp only [F_AC_W_Shift_eq, hfn]
      simp [Sample.forces, world_index, p_WC, Sample.chain_plant, Sample.chain_model,
        Sample.plant, Sample.pc, Sample.penetration, Sample.model, Vector3.cross, building]
      ext <;> simp
    · rw [hp 0]
      simp [Sample.forces, world_index]
      ext <;> simp

end MultibodyPlant

namespace MultibodyPlant
variable {K : Type} [LinearOrderedField K]

/-- C2, as stated, fails: on the sample pair the body B moves along the normal
towards A, the computed `vn` is positive, and `(v_A(p) - v_B(p)) · nhat` is
negative. -/
theorem vn_positive_not_separating :
    0 < vn Sample.plant Sample.pc Sample.vc Sample.penetration 1 2 ∧
    ¬ 0 < (v_WBc Sample.plant Sample.pc Sample.vc Sample.penetration 1 -
        v_WBc Sample.plant Sample.pc Sample.vc Sample.penetration 2).dot
          Sample.penetration.nhat_BA_W := by
  constructor <;>
    simp [vn, v_WBc, p_CoBo_W, p_WC, Sample.plant, Sample.pc, Sample.vc, Sample.penetration,
      Sample.model, SpatialVelocity.Shift, Vector3.dot, Vector3.cross, building]

/-- C2, amended. With `vn = (v_B(p) - v_A(p)) · nhat` and `nhat` pointing from
B to A, `vn` is the opposite of `(v_A(p) - v_B(p)) · nhat`, where `v(p)` is the
velocity `v + w × (p - origin)` of the body's material point at the contact
point: `vn` is positive exactly when `(v_A(p) - v_B(p)) · nhat` is negative,
that is when the two contact points approach each other along `nhat`, and
negative exactly when they separate. -/
theorem vn_positive_iff_approaching (p : MultibodyPlant K)
    (pc : PositionKinematicsCache K) (vc : VelocityKinematicsCache K)
    (penetration : PenetrationAsPointPair K) (a b : BodyIndex) :
    let origin := fun i => (pc.get_X_WB (p.model_.get_body i).node_index).translation
    let V := fun i => vc.get_V_WB (p.model_.get_body i).node_index
    let v_at := fun i =>
      (V i).translational + (V i).rotational.cross (p_WC penetration - origin i)
    vn p pc vc penetration a b = -((v_at a - v_at b).dot penetration.nhat_BA_W) ∧
    (0 < vn p pc vc penetration a b ↔ (v_at a - v_at b).dot penetration.nhat_BA_W < 0) ∧
    (vn p pc vc penetration a b < 0 ↔ 0 < (v_at a - v_at b).dot penetration.nhat_BA_W) := by
  intro origin V v_at
  have hv : ∀ i, v_WBc p pc vc penetration i = v_at i := fun i => v_WBc_eq p pc vc penetration i
  have h : vn p pc vc penetration a b = -((v_at a - v_at b).dot penetration.nhat_BA_W) := by
    unfold vn
    rw [hv, hv]
    simp only [Vector3.dot, Vector3.sub_x, Vector3.sub_y, Vector3.sub_z]
    ring
  refine ⟨h, ?_, ?_⟩
  · rw [h]
    exact neg_pos
  · rw [h]
    exact neg_lt_zero

end MultibodyPlant

namespace MultibodyPlant
variable {K : Type} [LinearOrderedField K]

theorem guarded_add_at_world {G G1 : List (SpatialForce K)} {c : BodyIndex}
    {X : SpatialForce K}
    (h : (if c ≠ world_index then add_at G c X else .ok G) = .ok G1) :
    G1[world_index]? = G[world_index]? := by
  by_cases hw : c ≠ world_index
  · rw [if_pos hw] at h
    rw [add_at_getElem? h]
    cases G[world_index]? with
    | none => rfl
    | some Gi => simp [Ne.symm hw]
  · rw [if_neg hw] at h
    cases h
    rfl

theorem CalcAndAddContactForce_world (p : MultibodyPlant K)
    (pc : PositionKinematicsCache K) (vc : VelocityKinematicsCache K)
    (penetration : PenetrationAsPointPair K) (F : List (SpatialForce K)) :
    (CalcAndAddContactForce p pc vc penetration F).2[world_index]? = F[world_index]? := by
  unfold CalcAndAddContactForce
  split
  · rfl
  · split
    · rfl
    · split
      · rfl
      · split
        · rfl
        · dsimp only
          split
          · rfl
          · rename_i F1 h1
            split
            · exact guarded_add_at_world h1
            · rename_i F2 h2
              exact (guarded_add_at_world h2).trans (guarded_add_at_world h1)

theorem CalcAndAddContactForces_world (p : MultibodyPlant K)
    (pc : PositionKinematicsCache K) (vc : VelocityKinematicsCache K)
    (penetrations : List (PenetrationAsPointPair K)) (F : List (SpatialForce K)) :
    (CalcAndAddContactForces p pc vc penetrations F).2[world_index]? = F[world_index]? := by
  induction penetrations generalizing F with
  | nil => rfl
  | cons penetration rest ih =>
    have h := CalcAndAddContactForce_world p pc vc penetration F
    unfold CalcAndAddContactForces
    split
    · rename_i e F1 heq
      rw [heq] at h
      exact h
    · rename_i F1 heq
      rw [heq] at h
      exact (ih F1).trans h

theorem CalcAndAddContactForce_both_world (p : MultibodyPlant K)
    (pc : PositionKinematicsCache K) (vc : VelocityKinematicsCache K)
    (penetration : PenetrationAsPointPair K) (F : List (SpatialForce K))
    (ha : Map.at_ p.geometry_id_to_body_index_ penetration.id_A = .ok world_index)
    (hb : Map.at_ p.geometry_id_to_body_index_ penetration.id_B = .ok world_index) :
    CalcAndAddContactForce p pc vc penetration F = (.ok (), F) := by
  cases hA : p.is_collision_geometry penetration.id_A with
  | false => exact is_collision_geometry_eq_false_skips p pc vc penetration F (Or.inl hA)
  | true =>
    cases hB : p.is_collision_geometry penetration.id_B with
    | false => exact is_collision_geometry_eq_false_skips p pc vc penetration F (Or.inr hB)
    | true =>
      rw [CalcAndAddContactForce_of_bodies p pc vc penetration F _ _ hA hB ha hb]
      split <;> simp

/-- C3. Whatever the penetration pairs, the caches and the accumulator are,
and whether the call returns or throws, the accumulator entry at
`world_index()` (the entry of the world body, which is the root of the tree)
is the same after `CalcAndAddContactForcesByPenaltyMethod` as before it; and
an iteration for a pair whose two geometries both belong to the world body
returns the accumulator as it was. -/
theorem world_body_receives_no_contact_force (p : MultibodyPlant K) (context : Context K)
    (pc : PositionKinematicsCache K) (vc : VelocityKinematicsCache K)
    (F : List (SpatialForce K)) :
    (CalcAndAddContactForcesByPenaltyMethod p context pc vc F).2[world_index]? =
      F[world_index]? ∧
    ∀ (penetration : PenetrationAsPointPair K) (F0 : List (SpatialForce K)),
      Map.at_ p.geometry_id_to_body_index_ penetration.id_A = .ok world_index →
      Map.at_ p.geometry_id_to_body_index_ penetration.id_B = .ok world_index →
      CalcAndAddContactForce p pc vc penetration F0 = (.ok (), F0) := by
  refine ⟨?_, fun penetration F0 ha hb =>
    CalcAndAddContactForce_both_world p pc vc penetration F0 ha hb⟩
  unfold CalcAndAddContactForcesByPenaltyMethod
  split
  · rfl
  · exact CalcAndAddContactForces_world p pc vc context.penetrations F

/-- C3, evaluated on the sample plant for a pair of two geometries of the
world. -/
theorem world_body_receives_no_contact_force_witness :
    (Map.at_ Sample.plant.geometry_id_to_body_index_ Sample.world_penetration.id_A =
        .ok world_index ∧
      Map.at_ Sample.plant.geometry_id_to_body_index_ Sample.world_penetration.id_B =
        .ok world_index) ∧
    CalcAndAddContactForce Sample.plant Sample.pc Sample.vc Sample.world_penetration
      Sample.forces = (.ok (), Sample.forces) :=
  ⟨⟨rfl, rfl⟩,
    (world_body_receives_no_contact_force Sample.plant Sample.context Sample.pc Sample.vc
      Sample.forces).2 Sample.world_penetration Sample.forces rfl rfl⟩

theorem CalcAndAddContactForces_skip (p : MultibodyPlant K)
    (pc : PositionKinematicsCache K) (vc : VelocityKinematicsCache K)
    (penetration : PenetrationAsPointPair K)
    (h : ∀ F, CalcAndAddContactForce p pc vc penetration F = (.ok (), F))
    (before after : List (PenetrationAsPointPair K)) (F : List (SpatialForce K)) :
    CalcAndAddContactForces p pc vc (before ++ penetration :: after) F =
      CalcAndAddContactForces p pc vc (before ++ after) F := by
  induction before generalizing F with
  | nil =>
    simp only [List.nil_append]
    conv_lhs => unfold CalcAndAddContactForces
    rw [h F]
  | cons q rest ih =>
    simp only [List.cons_append]
    unfold CalcAndAddContactForces
    split
    · rfl
    · exact ih _

/-- C4. A penetration pair one of whose ids is not a collision geometry of the
plant is skipped: its iteration returns normally with the accumulator as it
was, whatever `geometry_id_to_body_index_` holds (no owning body is looked up,
so an id without owner does not make the call throw), and the whole call gives
the same outcome and the same accumulator as for the list of penetrations
without that pair. -/
theorem non_collision_pair_is_skipped (p : MultibodyPlant K)
    (pc : PositionKinematicsCache K) (vc : VelocityKinematicsCache K)
    (penetration : PenetrationAsPointPair K)
    (h : p.is_collision_geometry penetration.id_A = false ∨
      p.is_collision_geometry penetration.id_B = false) :
    (∀ (owners : List (GeometryId × BodyIndex)) (F : List (SpatialForce K)),
      CalcAndAddContactForce { p with geometry_id_to_body_index_ := owners } pc vc penetration F
        = (.ok (), F)) ∧
    (∀ (F : List (SpatialForce K)),
      CalcAndAddContactForce p pc vc penetration F = (.ok (), F)) ∧
    ∀ (context : Context K) (before after : List (PenetrationAsPointPair K))
      (F : List (SpatialForce K)),
      context.penetrations = before ++ penetration :: after →
      CalcAndAddContactForcesByPenaltyMethod p context pc vc F =
        CalcAndAddContactForcesByPenaltyMethod p
          { context with penetrations := before ++ after } pc vc F := by
  have hskip : ∀ F, CalcAndAddContactForce p pc vc penetration F = (.ok (), F) :=
    fun F => is_collision_geometry_eq_false_skips p pc vc penetration F h
  refine ⟨fun owners F => ?_, hskip, ?_⟩
  · exact is_collision_geometry_eq_false_skips _ pc vc penetration F h
  · intro context before after F hc
    unfold CalcAndAddContactForcesByPenaltyMethod
    split
    · rfl
    · rw [hc]
      exact CalcAndAddContactForces_skip p pc vc penetration hskip before after F

/-- C4, evaluated on the sample plant for a pair with a visual geometry, with
no owner recorded for any geometry. -/
theorem non_collision_pair_is_skipped_witness :
    Sample.plant.is_collision_geometry Sample.visual_penetration.id_A = false ∧
    CalcAndAddContactForce { Sample.plant with geometry_id_to_body_index_ := [] }
      Sample.pc Sample.vc Sample.visual_penetration Sample.forces = (.ok (), Sample.forces) :=
  ⟨by decide,
    (non_collision_pair_is_skipped Sample.plant Sample.pc Sample.vc Sample.visual_penetration
      (Or.inl (by decide))).1 [] Sample.forces⟩

end MultibodyPlant

namespace MultibodyPlant
variable {K : Type} [LinearOrderedField K]

theorem ThrowIfFinalized_of_finalized (p : MultibodyPlant K) (method : String)
    (h : p.is_finalized = true) :
    ∃ e, p.ThrowIfFinalized method = .error e ∧ e.is_logic_error_naming method := by
  unfold ThrowIfFinalized
  rw [if_pos h]
  exact ⟨_, rfl, _, _, rfl⟩

theorem ThrowIfNotFinalized_of_not_finalized (p : MultibodyPlant K) (method : String)
    (h : p.is_finalized = false) :
    ∃ e, p.ThrowIfNotFinalized method = .error e ∧ e.is_logic_error_naming method := by
  unfold ThrowIfNotFinalized
  rw [h]
  exact ⟨_, rfl, _, _, rfl⟩

theorem ThrowIfFinalized_of_not_finalized (p : MultibodyPlant K) (method : String)
    (h : p.is_finalized = false) : p.ThrowIfFinalized method = .ok () := by
  unfold ThrowIfFinalized
  rw [h]
  rfl

theorem ThrowIfNotFinalized_of_finalized (p : MultibodyPlant K) (method : String)
    (h : p.is_finalized = true) : p.ThrowIfNotFinalized method = .ok () := by
  unfold ThrowIfNotFinalized
  rw [h]
  rfl

theorem registration_of_finalized (s : Memory K) (body : Body K) (X_BG : Isometry3 K)
    (shape : Shape) (geometry_system : Option Nat) (h : s.plant.is_finalized = true) :
    (∃ e, RegisterVisualGeometry s body X_BG shape geometry_system = (.error e, s) ∧
      e.is_logic_error_naming "RegisterVisualGeometry") ∧
    (∃ e, RegisterCollisionGeometry s body X_BG shape geometry_system = (.error e, s) ∧
      e.is_logic_error_naming "RegisterCollisionGeometry") := by
  constructor
  · obtain ⟨e, he, hn⟩ := ThrowIfFinalized_of_finalized s.plant "RegisterVisualGeometry" h
    exact ⟨e, by unfold RegisterVisualGeometry; rw [he], hn⟩
  · obtain ⟨e, he, hn⟩ := ThrowIfFinalized_of_finalized s.plant "RegisterCollisionGeometry" h
    exact ⟨e, by unfold RegisterCollisionGeometry; rw [he], hn⟩

/-- C5. On a finalized plant `RegisterVisualGeometry` and
`RegisterCollisionGeometry` throw a `std::logic_error` whose message contains
their name and leave the plant and every engine as they were. On a plant that
is not finalized `set_penetration_allowance`, `CopyContinuousStateOut`,
`get_continuous_state_output_port`, `AllocateFrameIdOutput`,
`CalcFrameIdOutput`, `AllocateFramePoseOutput`, `CalcFramePoseOutput` and the
three geometry port getters throw a `std::logic_error` whose message contains
their name; the two of them that write to the plant leave it as it was, the
others only read it. In the right state neither gate throws, whatever the
method. -/
theorem lifecycle_gate_rejects (env : Externals K) (s : Memory K) (body : Body K)
    (X_BG : Isometry3 K) (shape : Shape) (geometry_system : Option Nat)
    (penetration_allowance : K) (context : Context K) :
    (s.plant.is_finalized = true →
      (∃ e, RegisterVisualGeometry s body X_BG shape geometry_system = (.error e, s) ∧
        e.is_logic_error_naming "RegisterVisualGeometry") ∧
      (∃ e, RegisterCollisionGeometry s body X_BG shape geometry_system = (.error e, s) ∧
        e.is_logic_error_naming "RegisterCollisionGeometry") ∧
      ∀ method, s.plant.ThrowIfNotFinalized method = .ok ()) ∧
    (s.plant.is_finalized = false →
      (∃ e, set_penetration_allowance env s.plant penetration_allowance = (.error e, s.plant) ∧
        e.is_logic_error_naming "set_penetration_allowance") ∧
      (∃ e, s.plant.CopyContinuousStateOut context = .error e ∧
        e.is_logic_error_naming "CopyContinuousStateOut") ∧
      (∃ e, s.plant.get_continuous_state_output_port = .error e ∧
        e.is_logic_error_naming "get_continuous_state_output_port") ∧
      (∃ e, s.plant.AllocateFrameIdOutput context = .error e ∧
        e.is_logic_error_naming "AllocateFrameIdOutput") ∧
      (∃ e, s.plant.CalcFrameIdOutput context = .error e ∧
        e.is_logic_error_naming "CalcFrameIdOutput") ∧
      (∃ e, s.plant.AllocateFramePoseOutput context = .error e ∧
        e.is_logic_error_naming "AllocateFramePoseOutput") ∧
      (∃ e, s.plant.CalcFramePoseOutput context = (.error e, s.plant) ∧
        e.is_logic_error_naming "CalcFramePoseOutput") ∧
      (∃ e, s.plant.get_geometry_ids_output_port = .error e ∧
        e.is_logic_error_naming "get_geometry_ids_output_port") ∧
      (∃ e, s.plant.get_geometry_poses_output_port = .error e ∧
        e.is_logic_error_naming "get_geometry_poses_output_port") ∧
      (∃ e, s.plant.get_geometry_query_input_port = .error e ∧
        e.is_logic_error_naming "get_geometry_query_input_port") ∧
      ∀ method, s.plant.ThrowIfFinalized method = .ok ()) := by
  constructor
  · intro h
    exact ⟨(registration_of_finalized s body X_BG shape geometry_system h).1,
      (registration_of_finalized s body X_BG shape geometry_system h).2,
      fun method => ThrowIfNotFinalized_of_finalized _ method h⟩
  · intro h
    have gate := fun method => ThrowIfNotFinalized_of_not_finalized s.plant method h
    refine ⟨?_, ?_, ?_, ?_, ?_, ?_, ?_, ?_, ?_, ?_,
      fun method => ThrowIfFinalized_of_not_finalized _ method h⟩
    · obtain ⟨e, he, hn⟩ := gate "set_penetration_allowance"
      exact ⟨e, by unfold set_penetration_allowance; rw [he], hn⟩
    · obtain ⟨e, he, hn⟩ := gate "CopyContinuousStateOut"
      exact ⟨e, by unfold CopyContinuousStateOut; rw [he], hn⟩
    · obtain ⟨e, he, hn⟩ := gate "get_continuous_state_output_port"
      exact ⟨e, by unfold get_continuous_state_output_port; rw [he], hn⟩
    · obtain ⟨e, he, hn⟩ := gate "AllocateFrameIdOutput"
      exact ⟨e, by unfold AllocateFrameIdOutput; rw [he], hn⟩
    · obtain ⟨e, he, hn⟩ := gate "CalcFrameIdOutput"
      exact ⟨e, by unfold CalcFrameIdOutput; rw [he], hn⟩
    · obtain ⟨e, he, hn⟩ := gate "AllocateFramePoseOutput"
      exact ⟨e, by unfold AllocateFramePoseOutput; rw [he], hn⟩
    · obtain ⟨e, he, hn⟩ := gate "CalcFramePoseOutput"
      exact ⟨e, by unfold CalcFramePoseOutput; rw [he], hn⟩
    · obtain ⟨e, he, hn⟩ := gate "get_geometry_ids_output_port"
      exact ⟨e, by unfold get_geometry_ids_output_port; rw [he], hn⟩
    · obtain ⟨e, he, hn⟩ := gate "get_geometry_poses_output_port"
      exact ⟨e, by unfold get_geometry_poses_output_port; rw [he], hn⟩
    · obtain ⟨e, he, hn⟩ := gate "get_geometry_query_input_port"
      exact ⟨e, by unfold get_geometry_query_input_port; rw [he], hn⟩

/-- C5, evaluated: a registration on the finalized
sample plant, and `set_penetration_allowance` on the sample plant under
construction. -/
theorem lifecycle_gate_rejects_witness :
    (Sample.finalized.plant.is_finalized = true ∧
      ∃ e, RegisterCollisionGeometry Sample.finalized Sample.body Isometry3.Identity 0 (some 0)
          = (.error e, Sample.finalized) ∧
        e.is_logic_error_naming "RegisterCollisionGeometry") ∧
    (Sample.initial.plant.is_finalized = false ∧
      ∃ e, set_penetration_allowance Sample.env Sample.initial.plant (1 / 1000)
          = (.error e, Sample.initial.plant) ∧
        e.is_logic_error_naming "set_penetration_allowance") :=
  ⟨⟨rfl, ((lifecycle_gate_rejects Sample.env Sample.finalized Sample.body Isometry3.Identity 0
      (some 0) (1 / 1000) Sample.context).1 rfl).2.1⟩,
    ⟨rfl, ((lifecycle_gate_rejects Sample.env Sample.initial Sample.body Isometry3.Identity 0
      (some 0) (1 / 1000) Sample.context).2 rfl).1⟩⟩

end MultibodyPlant

namespace MultibodyPlant
variable {K : Type} [LinearOrderedField K]

/-- C6, evaluated: the sample plant is finalized without a geometry source
(`Finalize()` returned, the source id is absent and the engine pointer is
null); `RegisterAsSourceForGeometrySystem` then returns a source id, sets
`source_id_`, stores the engine pointer again and registers a source with the
engine. -/
theorem RegisterAsSource_after_Finalize_succeeds :
    (Call.Finalize.exec Sample.env Sample.initial).1 = .ok () ∧
    Sample.finalized.plant.is_finalized = true ∧
    Sample.finalized.plant.source_id_ = none ∧
    Sample.finalized.plant.geometry_system_ = none ∧
    (RegisterAsSourceForGeometrySystem Sample.finalized (some 0)).1 = .ok 0 ∧
    (RegisterAsSourceForGeometrySystem Sample.finalized (some 0)).2.plant.source_id_ = some 0 ∧
    (RegisterAsSourceForGeometrySystem Sample.finalized (some 0)).2.plant.geometry_system_
      = some 0 ∧
    ((RegisterAsSourceForGeometrySystem Sample.finalized (some 0)).2.engines 0).sources = [0] :=
  ⟨rfl, rfl, rfl, rfl, rfl, rfl, rfl, rfl⟩

/-- C7. On a plant that is not finalized, `RegisterVisualGeometry` and
`RegisterCollisionGeometry` throw when the engine pointer is null, when no
geometry source is registered, or when the pointer differs from
`geometry_system_` (the pointer stored by
`RegisterAsSourceForGeometrySystem`); the plant, with all its maps, and every
engine are then as before the call. -/
theorem registration_rejects_wrong_engine (s : Memory K) (body : Body K)
    (X_BG : Isometry3 K) (shape : Shape) (geometry_system : Option Nat)
    (hbuilding : s.plant.is_finalized = false)
    (h : geometry_system = none ∨ s.plant.source_id_ = none ∨
      geometry_system ≠ s.plant.geometry_system_) :
    (∃ e, RegisterVisualGeometry s body X_BG shape geometry_system = (.error e, s)) ∧
    (∃ e, RegisterCollisionGeometry s body X_BG shape geometry_system = (.error e, s)) := by
  have hv := ThrowIfFinalized_of_not_finalized s.plant "RegisterVisualGeometry" hbuilding
  have hc := ThrowIfFinalized_of_not_finalized s.plant "RegisterCollisionGeometry" hbuilding
  unfold RegisterVisualGeometry RegisterCollisionGeometry
  rw [hv, hc]
  cases geometry_system with
  | none => exact ⟨⟨_, rfl⟩, ⟨_, rfl⟩⟩
  | some a =>
    cases hs : s.plant.source_id_ with
    | none => simp [geometry_source_is_registered, hs]
    | some source =>
      rcases h with h | h | h
      · exact Option.noConfusion h
      · rw [hs] at h
        exact Option.noConfusion h
      · simp [geometry_source_is_registered, hs, h]

/-- C7, evaluated: the sample plant has
registered as a source with the engine at address 0 and is handed the engine
at address 1. -/
theorem registration_rejects_wrong_engine_witness :
    (Sample.registered.plant.is_finalized = false ∧
      some 1 ≠ Sample.registered.plant.geometry_system_) ∧
    ∃ e, RegisterCollisionGeometry Sample.registered Sample.body Isometry3.Identity 0 (some 1)
      = (.error e, Sample.registered) :=
  ⟨⟨rfl, by decide⟩,
    (registration_rejects_wrong_engine Sample.registered Sample.body Isometry3.Identity 0
      (some 1) rfl (Or.inr (Or.inr (by decide)))).2⟩

theorem RegisterAsSource_stores_pointer (s : Memory K) (a : Nat)
    (h : s.plant.source_id_ = none) :
    (RegisterAsSourceForGeometrySystem s (some a)).1 = .ok (s.engines a).next_id ∧
    (RegisterAsSourceForGeometrySystem s (some a)).2.plant.geometry_system_ = some a ∧
    (RegisterAsSourceForGeometrySystem s (some a)).2.plant.source_id_
      = some (s.engines a).next_id := by
  simp [RegisterAsSourceForGeometrySystem, geometry_source_is_registered, h,
    GeometrySystem.RegisterSource]

end MultibodyPlant

namespace Map
variable {α β : Type} [DecidableEq α]

theorem count_cons (e : α × β) (m : List (α × β)) (k : α) :
    count (e :: m) k = (if e.1 = k then 1 else 0) + count m k := by
  unfold count
  by_cases h : e.1 = k
  · simp [List.filter_cons, h, Nat.add_comm]
  · simp [List.filter_cons, h]

theorem find_cons (e : α × β) (m : List (α × β)) (k : α) :
    find (e :: m) k = if e.1 = k then some e.2 else find m k := by
  unfold find
  by_cases h : e.1 = k
  · simp [List.find?_cons, h]
  · simp [List.find?_cons, h]

theorem find_eq_none_iff (m : List (α × β)) (k : α) : find m k = none ↔ count m k = 0 := by
  induction m with
  | nil => simp [find, count]
  | cons e m ih =>
    rw [find_cons, count_cons]
    by_cases h : e.1 = k
    · simp [h]
    · simp [h, ih]

theorem count_assign_self (m : List (α × β)) (k : α) (v : β) :
    count (assign m k v) k = max 1 (count m k) := by
  induction m with
  | nil => simp [assign, count]
  | cons e m ih =>
    unfold assign
    by_cases h : e.1 = k
    · rw [if_pos h, count_cons, count_cons]
      simp [h]
    · rw [if_neg h, count_cons, count_cons, ih]
      simp [h]

theorem count_assign_ne (m : List (α × β)) {k j : α} (v : β) (h : j ≠ k) :
    count (assign m k v) j = count m j := by
  induction m with
  | nil =>
    have : ¬ k = j := fun e => h e.symm
    simp [assign, count, this]
  | cons e m ih =>
    unfold assign
    by_cases he : e.1 = k
    · rw [if_pos he, count_cons, count_cons]
      have h1 : ¬ k = j := fun e => h e.symm
      have h2 : ¬ e.1 = j := fun e' => h (e'.symm.trans he)
      simp [h1, h2]
    · rw [if_neg he, count_cons, count_cons, ih]

theorem find_assign_self (m : List (α × β)) (k : α) (v : β) :
    find (assign m k v) k = some v := by
  induction m with
  | nil => simp [assign, find]
  | cons e m ih =>
    unfold assign
    by_cases h : e.1 = k
    · rw [if_pos h, find_cons]
      simp
    · rw [if_neg h, find_cons, if_neg h, ih]

theorem find_assign_ne (m : List (α × β)) {k j : α} (v : β) (h : j ≠ k) :
    find (assign m k v) j = find m j := by
  induction m with
  | nil =>
    have : ¬ k = j := fun e => h e.symm
    simp [assign, find, this]
  | cons e m ih =>
    unfold assign
    by_cases he : e.1 = k
    · have h1 : ¬ k = j := fun e => h e.symm
      have h2 : ¬ e.1 = j := fun e' => h (e'.symm.trans he)
      rw [if_pos he, find_cons, find_cons]
      simp [h1, h2]
    · rw [if_neg he, find_cons, find_cons, ih]

theorem mem_assign {m : List (α × β)} {k : α} {v : β} {x : α × β}
    (h : x ∈ assign m k v) : x ∈ m ∨ x = (k, v) := by
  induction m with
  | nil =>
    simp [assign] at h
    exact Or.inr h
  | cons e m ih =>
    unfold assign at h
    by_cases he : e.1 = k
    · rw [if_pos he] at h
      rcases List.mem_cons.mp h with h | h
      · exact Or.inr h
      · exact Or.inl (List.mem_cons_of_mem _ h)
    · rw [if_neg he] at h
      rcases List.mem_cons.mp h with h | h
      · exact Or.inl (h ▸ List.mem_cons_self _ _)
      · rcases ih h with h | h
        · exact Or.inl (List.mem_cons_of_mem _ h)
        · exact Or.inr h

theorem mem_assign_self (m : List (α × β)) (k : α) (v : β) : (k, v) ∈ assign m k v := by
  induction m with
  | nil => simp [assign]
  | cons e m ih =>
    unfold assign
    by_cases he : e.1 = k
    · rw [if_pos he]
      exact List.mem_cons_self _ _
    · rw [if_neg he]
      exact List.mem_cons_of_mem _ ih

end Map

namespace MultibodyPlant
variable {K : Type} [LinearOrderedField K]

theorem RegisterAnchoredGeometry_eq (s : Memory K) (X_WG : Isometry3 K) (shape : Shape)
    (a : Nat) (source : SourceId) (hs : s.plant.source_id_ = some source) :
    RegisterAnchoredGeometry s X_WG shape a =
      (.ok (s.engines a).next_id,
        { plant := { s.plant with
            geometry_id_to_body_index_ :=
              Map.assign s.plant.geometry_id_to_body_index_ (s.engines a).next_id world_index },
          engines := Function.update s.engines a
            { s.engines a with
              next_id := (s.engines a).next_id + 1,
              anchored := (s.engines a).anchored ++
                [(source, (s.engines a).next_id, ⟨X_WG, shape⟩)] } }) := by
  unfold RegisterAnchoredGeometry
  rw [hs]
  rfl

theorem RegisterGeometry_eq_of_frame (s : Memory K) (body : Body K) (X_BG : Isometry3 K)
    (shape : Shape) (a : Nat) (source : SourceId) (frame_id : FrameId)
    (hs : s.plant.source_id_ = some source)
    (hf : Map.find s.plant.body_index_to_frame_id_ body.index = some frame_id) :
    RegisterGeometry s body X_BG shape a =
      (.ok (s.engines a).next_id,
        { plant := { s.plant with
            geometry_id_to_body_index_ :=
              Map.assign s.plant.geometry_id_to_body_index_ (s.engines a).next_id body.index },
          engines := Function.update s.engines a
            { s.engines a with
              next_id := (s.engines a).next_id + 1,
              geometries := (s.engines a).geometries ++
                [(source, frame_id, (s.engines a).next_id, ⟨X_BG, shape⟩)] } }) := by
  unfold RegisterGeometry
  rw [hs]
  simp [body_has_registered_frame, hf, GeometrySystem.RegisterGeometry]

theorem RegisterGeometry_eq_of_no_frame (s : Memory K) (body : Body K) (X_BG : Isometry3 K)
    (shape : Shape) (a : Nat) (source : SourceId)
    (hs : s.plant.source_id_ = some source)
    (hf : Map.find s.plant.body_index_to_frame_id_ body.index = none) :
    RegisterGeometry s body X_BG shape a =
      (.ok ((s.engines a).next_id + 1),
        { plant := { s.plant with
            body_index_to_frame_id_ :=
              Map.assign s.plant.body_index_to_frame_id_ body.index (s.engines a).next_id,
            geometry_id_to_body_index_ :=
              Map.assign s.plant.geometry_id_to_body_index_ ((s.engines a).next_id + 1)
                body.index },
          engines := Function.update s.engines a
            { s.engines a with
              next_id := (s.engines a).next_id + 1 + 1,
              frames := (s.engines a).frames ++
                [(source, (s.engines a).next_id, ⟨body.name, Isometry3.Identity⟩)],
              geometries := (s.engines a).geometries ++
                [(source, (s.engines a).next_id, (s.engines a).next_id + 1,
                  ⟨X_BG, shape⟩)] } }) := by
  unfold RegisterGeometry
  rw [hs]
  simp [body_has_registered_frame, hf, GeometrySystem.RegisterGeometry,
    GeometrySystem.RegisterFrame, Map.find_assign_self]

end MultibodyPlant

namespace MultibodyPlant
variable {K : Type} [LinearOrderedField K]

/-- What a registration call does when the plant is under construction and
is handed the engine it registered with: the call returns, the plant changes
in its maps only, and the engine at `a` records the frame (if the body had
none) and the geometry, or the anchored geometry. -/
theorem exec_registration (env : Externals K) (s : Memory K) (body : Body K)
    (X_BG : Isometry3 K) (shape : Shape) (a : Nat) (source : SourceId) (call : Call K)
    (hcall : call = .RegisterVisualGeometry body X_BG shape (some a) ∨
      call = .RegisterCollisionGeometry body X_BG shape (some a))
    (hbuilding : s.plant.is_finalized = false)
    (hsource : s.plant.source_id_ = some source)
    (hengine : s.plant.geometry_system_ = some a) :
    (call.exec env s).1 = .ok () ∧
    (call.exec env s).2.plant.model_ = s.plant.model_ ∧
    (call.exec env s).2.plant.source_id_ = s.plant.source_id_ ∧
    (call.exec env s).2.plant.geometry_system_ = s.plant.geometry_system_ ∧
    (call.exec env s).2.plant.ids_ = s.plant.ids_ ∧
    (∀ a2, a2 ≠ a → (call.exec env s).2.engines a2 = s.engines a2) ∧
    ∃ gid,
      (call.exec env s).2.plant.geometry_id_to_body_index_ =
        Map.assign s.plant.geometry_id_to_body_index_ gid body.index ∧
      (body.index = world_index →
        (call.exec env s).2.plant.body_index_to_frame_id_ = s.plant.body_index_to_frame_id_ ∧
        ((call.exec env s).2.engines a).frames = (s.engines a).frames ∧
        ((call.exec env s).2.engines a).geometries = (s.engines a).geometries ∧
        ((call.exec env s).2.engines a).anchored =
          (s.engines a).anchored ++ [(source, gid, ⟨X_BG, shape⟩)]) ∧
      (body.index ≠ world_index →
        ((call.exec env s).2.engines a).anchored = (s.engines a).anchored ∧
        ∃ fid,
          Map.find (call.exec env s).2.plant.body_index_to_frame_id_ body.index = some fid ∧
          ((call.exec env s).2.engines a).geometries =
            (s.engines a).geometries ++ [(source, fid, gid, ⟨X_BG, shape⟩)] ∧
          (Map.find s.plant.body_index_to_frame_id_ body.index = none →
            (call.exec env s).2.plant.body_index_to_frame_id_ =
              Map.assign s.plant.body_index_to_frame_id_ body.index fid ∧
            ((call.exec env s).2.engines a).frames =
              (s.engines a).frames ++ [(source, fid, ⟨body.name, Isometry3.Identity⟩)]) ∧
          (∀ f0, Map.find s.plant.body_index_to_frame_id_ body.index = some f0 →
            (call.exec env s).2.plant.body_index_to_frame_id_ = s.plant.body_index_to_frame_id_ ∧
            ((call.exec env s).2.engines a).frames = (s.engines a).frames ∧ fid = f0)) := by
  have hv := ThrowIfFinalized_of_not_finalized s.plant "RegisterVisualGeometry" hbuilding
  have hc := ThrowIfFinalized_of_not_finalized s.plant "RegisterCollisionGeometry" hbuilding
  by_cases hw : body.index = world_index
  · have hr := RegisterAnchoredGeometry_eq s X_BG shape a source hsource
    have hx : call.exec env s =
        (.ok (), ⟨{ (RegisterAnchoredGeometry s X_BG shape a).2.plant with
            geometry_id_to_visual_index_ := (call.exec env s).2.plant.geometry_id_to_visual_index_,
            geometry_id_to_collision_index_ :=
              (call.exec env s).2.plant.geometry_id_to_collision_index_ },
          (RegisterAnchoredGeometry s X_BG shape a).2.engines⟩) := by
      rcases hcall with rfl | rfl
      · simp only [Call.exec, RegisterVisualGeometry, hv, geometry_source_is_registered, hsource,
          hengine, hw, if_true, hr]
        simp
      · simp only [Call.exec, RegisterCollisionGeometry, hc, geometry_source_is_registered,
          hsource, hengine, hw, if_true, hr]
        simp
    rw [hr] at hx
    rw [hx]
    refine ⟨rfl, rfl, rfl, rfl, rfl, fun a2 h2 => Function.update_noteq h2 _ _,
      (s.engines a).next_id, by rw [hw], fun _ => ⟨rfl, ?_, ?_, ?_⟩, fun h => absurd hw h⟩ <;>
      simp
  · cases hf : Map.find s.plant.body_index_to_frame_id_ body.index with
    | none =>
      have hr := RegisterGeometry_eq_of_no_frame s body X_BG shape a source hsource hf
      have hx : call.exec env s =
          (.ok (), ⟨{ (RegisterGeometry s body X_BG shape a).2.plant with
              geometry_id_to_visual_index_ :=
                (call.exec env s).2.plant.geometry_id_to_visual_index_,
              geometry_id_to_collision_index_ :=
                (call.exec env s).2.plant.geometry_id_to_collision_index_ },
            (RegisterGeometry s body X_BG shape a).2.engines⟩) := by
        rcases hcall with rfl | rfl
        · simp only [Call.exec, RegisterVisualGeometry, hv, geometry_source_is_registered,
            hsource, hengine, hw, if_false, hr]
          simp
        · simp only [Call.exec, RegisterCollisionGeometry, hc, geometry_source_is_registered,
            hsource, hengine, hw, if_false, hr]
          simp
      rw [hr] at hx
      rw [hx]
      refine ⟨rfl, rfl, rfl, rfl, rfl, fun a2 h2 => Function.update_noteq h2 _ _,
        (s.engines a).next_id + 1, rfl, fun h => absurd h hw, fun _ => ⟨?_,
          (s.engines a).next_id, Map.find_assign_self _ _ _, ?_, fun _ => ⟨rfl, ?_⟩,
          fun f0 h0 => Option.noConfusion h0⟩⟩ <;> simp
    | some f0 =>
      have hr := RegisterGeometry_eq_of_frame s body X_BG shape a source f0 hsource hf
      have hx : call.exec env s =
          (.ok (), ⟨{ (RegisterGeometry s body X_BG shape a).2.plant with
              geometry_id_to_visual_index_ :=
                (call.exec env s).2.plant.geometry_id_to_visual_index_,
              geometry_id_to_collision_index_ :=
                (call.exec env s).2.plant.geometry_id_to_collision_index_ },
            (RegisterGeometry s body X_BG shape a).2.engines⟩) := by
        rcases hcall with rfl | rfl
        · simp only [Call.exec, RegisterVisualGeometry, hv, geometry_source_is_registered,
            hsource, hengine, hw, if_false, hr]
          simp
        · simp only [Call.exec, RegisterCollisionGeometry, hc, geometry_source_is_registered,
            hsource, hengine, hw, if_false, hr]
          simp
      rw [hr] at hx
      rw [hx]
      refine ⟨rfl, rfl, rfl, rfl, rfl, fun a2 h2 => Function.update_noteq h2 _ _,
        (s.engines a).next_id, rfl, fun h => absurd h hw, fun _ => ⟨?_,
          f0, hf, ?_, fun h0 => Option.noConfusion h0,
          fun f1 h1 => ⟨rfl, ?_, Option.some.inj h1⟩⟩⟩ <;> simp

end MultibodyPlant

namespace MultibodyPlant
variable {K : Type} [LinearOrderedField K]

theorem exec_of_wrong_engine (env : Externals K) (s : Memory K) (body : Body K)
    (X_BG : Isometry3 K) (shape : Shape) (geometry_system : Option Nat) (call : Call K)
    (hcall : call = .RegisterVisualGeometry body X_BG shape geometry_system ∨
      call = .RegisterCollisionGeometry body X_BG shape geometry_system)
    (hbuilding : s.plant.is_finalized = false)
    (h : geometry_system = none ∨ s.plant.source_id_ = none ∨
      geometry_system ≠ s.plant.geometry_system_) :
    (call.exec env s).2 = s := by
  have hv := ThrowIfFinalized_of_not_finalized s.plant "RegisterVisualGeometry" hbuilding
  have hc := ThrowIfFinalized_of_not_finalized s.plant "RegisterCollisionGeometry" hbuilding
  have hcheck : geometry_system = none ∨
      (!s.plant.geometry_source_is_registered) = true ∨
      (s.plant.geometry_source_is_registered = true ∧
        geometry_system ≠ s.plant.geometry_system_) := by
    cases hs : s.plant.source_id_ with
    | none => exact Or.inr (Or.inl (by simp [geometry_source_is_registered, hs]))
    | some source =>
      rcases h with h | h | h
      · exact Or.inl h
      · rw [hs] at h
        exact Option.noConfusion h
      · exact Or.inr (Or.inr ⟨by simp [geometry_source_is_registered, hs], h⟩)
  rcases hcall with rfl | rfl
  · simp only [Call.exec, RegisterVisualGeometry, hv]
    rcases hcheck with rfl | hreg | ⟨hreg, hne⟩
    · rfl
    · cases geometry_system with
      | none => rfl
      | some a => simp only [hreg, if_true]
    · cases geometry_system with
      | none => rfl
      | some a => simp [hreg, hne]
  · simp only [Call.exec, RegisterCollisionGeometry, hc]
    rcases hcheck with rfl | hreg | ⟨hreg, hne⟩
    · rfl
    · cases geometry_system with
      | none => rfl
      | some a => simp only [hreg, if_true]
    · cases geometry_system with
      | none => rfl
      | some a => simp [hreg, hne]

theorem exec_registration_cases (env : Externals K) (s : Memory K) (body : Body K)
    (X_BG : Isometry3 K) (shape : Shape) (geometry_system : Option Nat) (call : Call K)
    (hcall : call = .RegisterVisualGeometry body X_BG shape geometry_system ∨
      call = .RegisterCollisionGeometry body X_BG shape geometry_system) :
    (call.exec env s).2 = s ∨
      ∃ a source, geometry_system = some a ∧ s.plant.is_finalized = false ∧
        s.plant.source_id_ = some source ∧ s.plant.geometry_system_ = some a := by
  cases hfin : s.plant.is_finalized with
  | true =>
    left
    have h := registration_of_finalized s body X_BG shape geometry_system hfin
    rcases hcall with rfl | rfl
    · obtain ⟨e, he, _⟩ := h.1
      simp only [Call.exec, he]
    · obtain ⟨e, he, _⟩ := h.2
      simp only [Call.exec, he]
  | false =>
    by_cases hbad : geometry_system = none ∨ s.plant.source_id_ = none ∨
        geometry_system ≠ s.plant.geometry_system_
    · left
      exact exec_of_wrong_engine env s body X_BG shape geometry_system call hcall hfin hbad
    · right
      simp only [not_or, not_not, ne_eq] at hbad
      obtain ⟨h1, h2, h3⟩ := hbad
      obtain ⟨a, ha⟩ := Option.ne_none_iff_exists'.mp h1
      obtain ⟨source, hs⟩ := Option.ne_none_iff_exists'.mp h2
      exact ⟨a, source, ha, rfl, hs, by rw [← h3, ha]⟩

theorem foldl_push_back (l : List (BodyIndex × FrameId)) (ids : List FrameId) :
    l.foldl (fun (ids : List FrameId) (it : BodyIndex × FrameId) => ids ++ [it.2]) ids =
      ids ++ l.map Prod.snd := by
  induction l generalizing ids with
  | nil => simp
  | cons e l ih => simp [List.foldl_cons, ih]

theorem set_penetration_allowance_eq (env : Externals K) (p : MultibodyPlant K)
    (penetration_allowance : K) (h : p.is_finalized = true) :
    ∃ parameters, set_penetration_allowance env p penetration_allowance =
      (.ok (), { p with penalty_method_contact_parameters_ := parameters }) := by
  unfold set_penetration_allowance
  rw [ThrowIfNotFinalized_of_finalized p _ h]
  exact ⟨_, rfl⟩

theorem DeclareStateAndPorts_eq (p : MultibodyPlant K) (h : p.is_finalized = true) :
    ∃ actuation state_output declared inputs outputs,
      p.DeclareStateAndPorts = .ok { p with
        actuation_port_ := actuation,
        continuous_state_output_port_ := state_output,
        continuous_state_declared := declared,
        input_ports := inputs,
        output_ports := outputs } := by
  unfold DeclareStateAndPorts
  simp only [h, Bool.not_true, Bool.false_eq_true, if_false]
  by_cases ha : 0 < p.model_.num_actuators
  · simp only [ha, if_true]
    exact ⟨_, _, _, _, _, rfl⟩
  · simp only [ha, if_false]
    exact ⟨_, _, _, _, _, rfl⟩

theorem set_penetration_allowance_fields (env : Externals K) (p : MultibodyPlant K)
    (penetration_allowance : K) :
    (set_penetration_allowance env p penetration_allowance).2.model_ = p.model_ ∧
    (set_penetration_allowance env p penetration_allowance).2.source_id_ = p.source_id_ ∧
    (set_penetration_allowance env p penetration_allowance).2.geometry_system_
      = p.geometry_system_ ∧
    (set_penetration_allowance env p penetration_allowance).2.body_index_to_frame_id_
      = p.body_index_to_frame_id_ ∧
    (set_penetration_allowance env p penetration_allowance).2.geometry_id_to_body_index_
      = p.geometry_id_to_body_index_ ∧
    (set_penetration_allowance env p penetration_allowance).2.ids_ = p.ids_ := by
  unfold set_penetration_allowance
  split <;> exact ⟨rfl, rfl, rfl, rfl, rfl, rfl⟩

theorem set_penetration_allowance_ok (env : Externals K) (p : MultibodyPlant K)
    (penetration_allowance : K) (h : p.is_finalized = true) :
    (set_penetration_allowance env p penetration_allowance).1 = .ok () := by
  obtain ⟨parameters, hP⟩ := set_penetration_allowance_eq env p penetration_allowance h
  rw [hP]

theorem FinalizePlantOnly_eq (env : Externals K) (p : MultibodyPlant K)
    (h : p.is_finalized = true) :
    (FinalizePlantOnly env p).1 = .ok () ∧
    (FinalizePlantOnly env p).2.model_ = p.model_ ∧
    (FinalizePlantOnly env p).2.source_id_ = p.source_id_ ∧
    (FinalizePlantOnly env p).2.geometry_system_ = none ∧
    (FinalizePlantOnly env p).2.body_index_to_frame_id_ = p.body_index_to_frame_id_ ∧
    (FinalizePlantOnly env p).2.geometry_id_to_body_index_ = p.geometry_id_to_body_index_ ∧
    (FinalizePlantOnly env p).2.ids_ =
      p.ids_ ++ (if p.source_id_.isSome then p.body_index_to_frame_id_.map Prod.snd else []) := by
  obtain ⟨actuation, state_output, declared, inputs, outputs, hD⟩ := DeclareStateAndPorts_eq p h
  unfold FinalizePlantOnly
  rw [hD]
  unfold is_finalized at h
  cases hs : p.source_id_ with
  | none =>
    simp only [hs, Option.isSome_none, Bool.false_eq_true, if_false]
    split
    · refine ⟨set_penetration_allowance_ok _ _ _ h, ?_⟩
      simp only [set_penetration_allowance_fields]
      simp [DeclareCacheEntries, hs]
    · simp [DeclareCacheEntries, hs]
  | some source =>
    simp only [hs, Option.isSome_some, if_true]
    split
    · refine ⟨set_penetration_allowance_ok _ _ _ h, ?_⟩
      simp only [set_penetration_allowance_fields]
      simp [DeclareCacheEntries, DeclareGeometrySystemPorts, hs, foldl_push_back]
    · simp [DeclareCacheEntries, DeclareGeometrySystemPorts, hs, foldl_push_back]

end MultibodyPlant

namespace MultibodyPlant
variable {K : Type} [LinearOrderedField K]

theorem Finalize_fields (env : Externals K) (p : MultibodyPlant K) :
    (p.is_finalized = true ∧ (Finalize env p).2 = p ∧ ∃ e, (Finalize env p).1 = .error e) ∨
    (p.is_finalized = false ∧
      (Finalize env p).1 = .ok () ∧
      (Finalize env p).2.is_finalized = true ∧
      (Finalize env p).2.source_id_ = p.source_id_ ∧
      (Finalize env p).2.geometry_system_ = none ∧
      (Finalize env p).2.body_index_to_frame_id_ = p.body_index_to_frame_id_ ∧
      (Finalize env p).2.geometry_id_to_body_index_ = p.geometry_id_to_body_index_ ∧
      (Finalize env p).2.ids_ =
        p.ids_ ++
          (if p.source_id_.isSome then p.body_index_to_frame_id_.map Prod.snd else [])) := by
  unfold Finalize MultibodyTree.Finalize
  cases hfin : p.is_finalized with
  | true =>
    left
    unfold is_finalized at hfin
    simp [hfin]
  | false =>
    right
    unfold is_finalized at hfin
    simp only [hfin, Bool.false_eq_true, if_false]
    have h := FinalizePlantOnly_eq env
      { p with model_ := { p.model_ with topology_is_valid := true } } rfl
    obtain ⟨h1, h2, h3, h4, h5, h6, h7⟩ := h
    refine ⟨trivial, h1, ?_, h3, h4, h5, h6, h7⟩
    unfold is_finalized
    rw [h2]

theorem ScalarConvert_fields {U : Type} (env : Externals K)
    (CloneToScalar : MultibodyTree U → MultibodyTree K) (other : MultibodyPlant U) :
    (∀ p, ScalarConvert env CloneToScalar other = .ok p →
      p.source_id_ = other.source_id_ ∧
      p.body_index_to_frame_id_ = other.body_index_to_frame_id_ ∧
      p.geometry_id_to_body_index_ = other.geometry_id_to_body_index_ ∧
      p.geometry_system_ = none) ∧
    (other.model_.topology_is_valid = false →
      ∃ e, ScalarConvert env CloneToScalar other = .error e) ∧
    (other.model_.topology_is_valid = true →
      (CloneToScalar other.model_).topology_is_valid = true →
      ∃ p, ScalarConvert env CloneToScalar other = .ok p) ∧
    (∀ p, ScalarConvert env CloneToScalar other = .ok p →
      p.is_finalized = true ∧
      p.ids_ = (if other.source_id_.isSome then other.body_index_to_frame_id_.map Prod.snd
        else [])) := by
  unfold ScalarConvert
  have hfin : other.is_finalized = other.model_.topology_is_valid := rfl
  rw [hfin]
  cases hv : other.model_.topology_is_valid with
  | false =>
    refine ⟨fun p h => ?_, fun _ => ⟨_, rfl⟩, fun h => Bool.noConfusion h, fun p h => ?_⟩ <;>
      simp at h
  | true =>
    simp only [Bool.not_true, Bool.false_eq_true, if_false]
    cases hc : (CloneToScalar other.model_).topology_is_valid with
    | false =>
      have hD : ∀ q : MultibodyPlant K, q.model_ = CloneToScalar other.model_ →
          (FinalizePlantOnly env q).1 = .error (.abort "this->is_finalized()") := by
        intro q hq
        unfold FinalizePlantOnly DeclareStateAndPorts is_finalized
        rw [hq, hc]
        rfl
      refine ⟨fun p h => ?_, fun h => Bool.noConfusion h, fun _ h => Bool.noConfusion h,
        fun p h => ?_⟩ <;>
      · split at h
        · exact Except.noConfusion h
        · rename_i heq
          have herr := congrArg Prod.fst heq
          rw [hD _ (by rfl)] at herr
          exact Except.noConfusion herr
    | true =>
      obtain ⟨h1, h2, h3, h4, h5, h6, h7⟩ := FinalizePlantOnly_eq env
        ({ building (CloneToScalar other.model_) with
          model_ := CloneToScalar other.model_
          source_id_ := other.source_id_
          body_index_to_frame_id_ := other.body_index_to_frame_id_
          geometry_id_to_body_index_ := other.geometry_id_to_body_index_
          geometry_id_to_visual_index_ := other.geometry_id_to_visual_index_ } :
          MultibodyPlant K) hc
      have key : ∀ p, (match FinalizePlantOnly env
          ({ building (CloneToScalar other.model_) with
            model_ := CloneToScalar other.model_
            source_id_ := other.source_id_
            body_index_to_frame_id_ := other.body_index_to_frame_id_
            geometry_id_to_body_index_ := other.geometry_id_to_body_index_
            geometry_id_to_visual_index_ := other.geometry_id_to_visual_index_ } :
            MultibodyPlant K) with
          | (.error e, _) => (Except.error e : Except Error (MultibodyPlant K))
          | (.ok _, p1) => .ok p1) = .ok p →
          p = (FinalizePlantOnly env
            ({ building (CloneToScalar other.model_) with
              model_ := CloneToScalar other.model_
              source_id_ := other.source_id_
              body_index_to_frame_id_ := other.body_index_to_frame_id_
              geometry_id_to_body_index_ := other.geometry_id_to_body_index_
              geometry_id_to_visual_index_ := other.geometry_id_to_visual_index_ } :
              MultibodyPlant K)).2 := by
        intro p h
        split at h
        · exact Except.noConfusion h
        · rename_i heq
          rw [heq]
          exact (Except.ok.inj h).symm
      refine ⟨fun p h => ?_, fun h => Bool.noConfusion h, fun _ _ => ?_, fun p h => ?_⟩
      · rw [key p h]
        exact ⟨h3, h5, h6, h4⟩
      · generalize hr : FinalizePlantOnly env _ = r at h1
        obtain ⟨r1, r2⟩ := r
        simp only at h1
        subst h1
        exact ⟨r2, rfl⟩
      · rw [key p h]
        refine ⟨?_, ?_⟩
        · unfold is_finalized
          rw [h2]
          exact hc
        · rw [h7]
          rfl

/-- The fields that the calls other than the two registrations leave alone. -/
theorem exec_fields_other (env : Externals K) (s : Memory K) (call : Call K)
    (hcall : ∀ body X_BG shape geometry_system,
      call ≠ .RegisterVisualGeometry body X_BG shape geometry_system ∧
      call ≠ .RegisterCollisionGeometry body X_BG shape geometry_system) :
    (call.exec env s).2.plant.body_index_to_frame_id_ = s.plant.body_index_to_frame_id_ ∧
    (call.exec env s).2.plant.geometry_id_to_body_index_ = s.plant.geometry_id_to_body_index_ ∧
    ((call.exec env s).2.plant.source_id_ = none → s.plant.source_id_ = none) ∧
    (((call.exec env s).2.plant.model_ = s.plant.model_ ∧
        (call.exec env s).2.plant.ids_ = s.plant.ids_) ∨
      (s.plant.is_finalized = false ∧ (call.exec env s).2.plant.is_finalized = true ∧
        (call.exec env s).2.plant.source_id_ = s.plant.source_id_ ∧
        (call.exec env s).2.plant.ids_ =
          s.plant.ids_ ++
            (if s.plant.source_id_.isSome then s.plant.body_index_to_frame_id_.map Prod.snd
              else [])) ∨
      ((call.exec env s).2.plant.is_finalized = true ∧
        (call.exec env s).2.plant.source_id_ = s.plant.source_id_ ∧
        (call.exec env s).2.plant.ids_ =
          (if s.plant.source_id_.isSome then s.plant.body_index_to_frame_id_.map Prod.snd
            else []))) := by
  cases call with
  | RegisterVisualGeometry body X_BG shape geometry_system =>
    exact absurd rfl (hcall body X_BG shape geometry_system).1
  | RegisterCollisionGeometry body X_BG shape geometry_system =>
    exact absurd rfl (hcall body X_BG shape geometry_system).2
  | RegisterAsSourceForGeometrySystem geometry_system =>
    simp only [Call.exec, RegisterAsSourceForGeometrySystem]
    cases geometry_system with
    | none => exact ⟨rfl, rfl, id, Or.inl ⟨rfl, rfl⟩⟩
    | some a =>
      simp only []
      split
      · exact ⟨rfl, rfl, id, Or.inl ⟨rfl, rfl⟩⟩
      · exact ⟨rfl, rfl, fun h => Option.noConfusion h, Or.inl ⟨rfl, rfl⟩⟩
  | Finalize =>
    simp only [Call.exec]
    rcases Finalize_fields env s.plant with ⟨_, h, _⟩ | ⟨h0, _, h1, h2, _, h3, h4, h5⟩
    · rw [h]
      exact ⟨rfl, rfl, id, Or.inl ⟨rfl, rfl⟩⟩
    · exact ⟨h3, h4, fun h => h2 ▸ h, Or.inr (Or.inl ⟨h0, h1, h2, h5⟩)⟩
  | set_penetration_allowance penetration_allowance =>
    simp only [Call.exec]
    obtain ⟨h1, h2, _, h3, h4, h5⟩ :=
      set_penetration_allowance_fields env s.plant penetration_allowance
    exact ⟨h3, h4, fun h => h2 ▸ h, Or.inl ⟨h1, h5⟩⟩
  | CalcFramePoseOutput context =>
    simp only [Call.exec, CalcFramePoseOutput, EvalPositionKinematics]
    split
    · exact ⟨rfl, rfl, id, Or.inl ⟨rfl, rfl⟩⟩
    · split <;> exact ⟨rfl, rfl, id, Or.inl ⟨rfl, rfl⟩⟩
  | ScalarConvert CloneToScalar =>
    obtain ⟨h1, h2, h3, h4⟩ := ScalarConvert_fields env CloneToScalar s.plant
    simp only [Call.exec]
    cases hc : MultibodyPlant.ScalarConvert env CloneToScalar s.plant with
    | error e => exact ⟨rfl, rfl, id, Or.inl ⟨rfl, rfl⟩⟩
    | ok p =>
      obtain ⟨a1, a2, a3, a4⟩ := h1 p hc
      obtain ⟨b1, b2⟩ := h4 p hc
      exact ⟨a2, a3, fun h => a1 ▸ h, Or.inr (Or.inr ⟨b1, a1, b2⟩)⟩

theorem FrameInvariant_exec (env : Externals K) (s : Memory K) (call : Call K)
    (h : FrameInvariant s.plant) : FrameInvariant (call.exec env s).2.plant := by
  have registration : ∀ body X_BG shape geometry_system,
      (call = .RegisterVisualGeometry body X_BG shape geometry_system ∨
        call = .RegisterCollisionGeometry body X_BG shape geometry_system) →
      FrameInvariant (call.exec env s).2.plant := by
    intro body X_BG shape geometry_system hcall
    rcases exec_registration_cases env s body X_BG shape geometry_system call hcall with
      hsame | ⟨a, source, rfl, hb, hs, he⟩
    · rw [hsame]
      exact h
    · obtain ⟨_, _, _, _, _, _, gid, hgm, hworld, hother⟩ :=
        exec_registration env s body X_BG shape a source call hcall hb hs he
      have hcount : ∀ k, Map.count s.plant.body_index_to_frame_id_ k ≤
          Map.count (call.exec env s).2.plant.body_index_to_frame_id_ k ∧
          Map.count (call.exec env s).2.plant.body_index_to_frame_id_ k ≤ 1 := by
        intro k
        by_cases hw : body.index = world_index
        · rw [(hworld hw).1]
          exact ⟨le_refl _, h.1 k⟩
        · obtain ⟨_, fid, _, _, hnone, hsome⟩ := hother hw
          cases hf : Map.find s.plant.body_index_to_frame_id_ body.index with
          | none =>
            rw [(hnone hf).1]
            by_cases hk : k = body.index
            · subst hk
              rw [Map.count_assign_self, (Map.find_eq_none_iff _ _).mp hf]
              exact ⟨Nat.zero_le _, le_refl _⟩
            · rw [Map.count_assign_ne _ _ hk]
              exact ⟨le_refl _, h.1 k⟩
          | some f0 =>
            rw [(hsome f0 hf).1]
            exact ⟨le_refl _, h.1 k⟩
      refine ⟨fun k => (hcount k).2, ?_, ?_⟩
      swap
      · by_cases hw : body.index = world_index
        · rw [(hworld hw).1]
          exact h.2.2
        · obtain ⟨_, fid, _, _, hnone, hsome⟩ := hother hw
          cases hf : Map.find s.plant.body_index_to_frame_id_ body.index with
          | none =>
            rw [(hnone hf).1, Map.count_assign_ne _ _ (fun e => hw e.symm)]
            exact h.2.2
          | some f0 =>
            rw [(hsome f0 hf).1]
            exact h.2.2
      intro g b hmem hb0
      rw [hgm] at hmem
      rcases Map.mem_assign hmem with hold | hnew
      · exact lt_of_lt_of_le (h.2.1 g b hold hb0) (hcount b).1
      · have hbi : b = body.index := congrArg Prod.snd hnew
        subst hbi
        obtain ⟨_, fid, hfind, _, _, _⟩ := hother hb0
        rcases Nat.eq_zero_or_pos
          (Map.count (call.exec env s).2.plant.body_index_to_frame_id_ body.index) with h0 | hpos
        · rw [(Map.find_eq_none_iff _ _).mpr h0] at hfind
          exact Option.noConfusion hfind
        · exact hpos
  by_cases hreg : ∃ body X_BG shape geometry_system,
      call = .RegisterVisualGeometry body X_BG shape geometry_system ∨
        call = .RegisterCollisionGeometry body X_BG shape geometry_system
  · obtain ⟨body, X_BG, shape, geometry_system, hcall⟩ := hreg
    exact registration body X_BG shape geometry_system hcall
  · have hcall : ∀ body X_BG shape geometry_system,
        call ≠ .RegisterVisualGeometry body X_BG shape geometry_system ∧
        call ≠ .RegisterCollisionGeometry body X_BG shape geometry_system :=
      fun body X_BG shape geometry_system =>
        ⟨fun e => hreg ⟨body, X_BG, shape, geometry_system, Or.inl e⟩,
          fun e => hreg ⟨body, X_BG, shape, geometry_system, Or.inr e⟩⟩
    obtain ⟨h1, h2, _, _⟩ := exec_fields_other env s call hcall
    unfold FrameInvariant
    rw [h1, h2]
    exact h

theorem FrameInvariant_run (env : Externals K) (calls : List (Call K)) (s : Memory K)
    (h : FrameInvariant s.plant) : FrameInvariant (run env calls s).plant := by
  induction calls generalizing s with
  | nil => exact h
  | cons call calls ih => exact ih _ (FrameInvariant_exec env s call h)

end MultibodyPlant

namespace MultibodyPlant
variable {K : Type} [LinearOrderedField K]

/-- C9, as stated, fails: after one successful `RegisterCollisionGeometry` on
the world body, the world body owns a geometry and has no entry in the
body-to-frame map. -/
theorem world_body_with_geometry_has_no_frame :
    all_succeed Sample.env
      [Call.RegisterCollisionGeometry Sample.world_body Isometry3.Identity 0 (some 0)]
      Sample.registered ∧
    (∃ g, (g, Sample.world_body.index) ∈
      (run Sample.env
        [Call.RegisterCollisionGeometry Sample.world_body Isometry3.Identity 0 (some 0)]
        Sample.registered).plant.geometry_id_to_body_index_) ∧
    Map.count
      (run Sample.env
        [Call.RegisterCollisionGeometry Sample.world_body Isometry3.Identity 0 (some 0)]
        Sample.registered).plant.body_index_to_frame_id_ Sample.world_body.index = 0 :=
  ⟨⟨rfl, trivial⟩, ⟨1, by decide⟩, rfl⟩

/-- C9, amended. In every plant that a sequence of calls on a plant under
construction leaves (the successful registrations among them), every body
other than the world that is the value of some entry of the geometry-id-to-body
map has exactly one entry in the body-to-frame-id map, and the world body has
none. -/
theorem body_with_geometry_has_one_frame (env : Externals K) (p : MultibodyPlant K)
    (hreachable : Reachable env p) :
    (∀ b, (∃ g, (g, b) ∈ p.geometry_id_to_body_index_) → b ≠ world_index →
      Map.count p.body_index_to_frame_id_ b = 1) ∧
    Map.count p.body_index_to_frame_id_ world_index = 0 := by
  obtain ⟨model, gravity_field, engines, calls, rfl⟩ := hreachable
  have hinit : FrameInvariant (Memory.initial model gravity_field engines).plant :=
    ⟨fun _ => Nat.zero_le _, fun g b hmem _ => absurd hmem (List.not_mem_nil _), rfl⟩
  obtain ⟨h1, h2, h3⟩ := FrameInvariant_run env calls _ hinit
  refine ⟨fun b hgeometry hb => ?_, h3⟩
  obtain ⟨g, hg⟩ := hgeometry
  exact le_antisymm (h1 b) (h2 g b hg hb)

/-- C9 as amended, evaluated: the sample plant registers as a source and
registers two geometries for the body of index 1. -/
theorem body_with_geometry_has_one_frame_witness :
    (Reachable Sample.env Sample.two_geometries.plant ∧
      (∃ g, (g, 1) ∈ Sample.two_geometries.plant.geometry_id_to_body_index_) ∧
      1 ≠ world_index) ∧
    Map.count Sample.two_geometries.plant.body_index_to_frame_id_ 1 = 1 :=
  ⟨⟨⟨_, _, _, _, rfl⟩, ⟨2, by decide⟩, by decide⟩,
    (body_with_geometry_has_one_frame Sample.env Sample.two_geometries.plant
      ⟨_, _, _, _, rfl⟩).1 1 ⟨2, by decide⟩ (by decide)⟩

end MultibodyPlant

namespace MultibodyPlant
variable {K : Type} [LinearOrderedField K]

theorem registers_cases {body : Body K} {a : Nat} {call : Call K}
    (h : call.registers body a) :
    ∃ X_BG shape, call = .RegisterVisualGeometry body X_BG shape (some a) ∨
      call = .RegisterCollisionGeometry body X_BG shape (some a) := by
  cases call with
  | RegisterVisualGeometry b X_BG shape geometry_system =>
    obtain ⟨rfl, rfl⟩ := h
    exact ⟨X_BG, shape, Or.inl rfl⟩
  | RegisterCollisionGeometry b X_BG shape geometry_system =>
    obtain ⟨rfl, rfl⟩ := h
    exact ⟨X_BG, shape, Or.inr rfl⟩
  | RegisterAsSourceForGeometrySystem geometry_system => exact False.elim h
  | Finalize => exact False.elim h
  | set_penetration_allowance penetration_allowance => exact False.elim h
  | CalcFramePoseOutput context => exact False.elim h
  | ScalarConvert CloneToScalar => exact False.elim h

/-- A sequence of registrations for one body other than the world, on a plant
under construction that is handed the engine it registered with. -/
theorem run_registrations (env : Externals K) (body : Body K) (a : Nat) (source : SourceId)
    (hbody : body.index ≠ world_index) (calls : List (Call K)) :
    ∀ s : Memory K, (∀ c ∈ calls, c.registers body a) →
      s.plant.is_finalized = false → s.plant.source_id_ = some source →
      s.plant.geometry_system_ = some a →
      all_succeed env calls s ∧
      (∀ f0, Map.find s.plant.body_index_to_frame_id_ body.index = some f0 →
        Map.find (run env calls s).plant.body_index_to_frame_id_ body.index = some f0 ∧
        ((run env calls s).engines a).frames = (s.engines a).frames) ∧
      (Map.find s.plant.body_index_to_frame_id_ body.index = none → calls ≠ [] →
        ∃ fid, Map.find (run env calls s).plant.body_index_to_frame_id_ body.index = some fid ∧
          ((run env calls s).engines a).frames =
            (s.engines a).frames ++ [(source, fid, ⟨body.name, Isometry3.Identity⟩)]) ∧
      ∃ added, ((run env calls s).engines a).geometries = (s.engines a).geometries ++ added ∧
        added.length = calls.length ∧
        ∀ fid, Map.find (run env calls s).plant.body_index_to_frame_id_ body.index = some fid →
          ∀ x ∈ added, x.1 = source ∧ x.2.1 = fid := by
  induction calls with
  | nil =>
    intro s _ _ _ _
    exact ⟨trivial, fun f0 h0 => ⟨h0, rfl⟩, fun _ h => absurd rfl h, [], by simp [run], rfl,
      fun _ _ x hx => absurd hx (List.not_mem_nil _)⟩
  | cons call calls ih =>
    intro s hcalls hb hs he
    obtain ⟨X_BG, shape, hcall⟩ := registers_cases (hcalls call (List.mem_cons_self _ _))
    obtain ⟨hok, hmodel, hsrc, heng, _, _, gid, _, _, hother⟩ :=
      exec_registration env s body X_BG shape a source call hcall hb hs he
    obtain ⟨_, fid, hfind, hgeom, hnone, hsome⟩ := hother hbody
    have hb1 : (call.exec env s).2.plant.is_finalized = false := by
      unfold is_finalized at hb ⊢
      rw [hmodel]
      exact hb
    obtain ⟨ih1, ih2, _, added, ih4, ih5, ih6⟩ :=
      ih (call.exec env s).2 (fun c hc => hcalls c (List.mem_cons_of_mem _ hc)) hb1
        (hsrc.trans hs) (heng.trans he)
    obtain ⟨hfinal, hframes⟩ := ih2 fid hfind
    refine ⟨⟨hok, ih1⟩, ?_, ?_, ?_⟩
    · intro f0 h0
      obtain ⟨_, hfr, hf⟩ := hsome f0 h0
      subst hf
      exact ⟨hfinal, hframes.trans hfr⟩
    · intro h0 _
      exact ⟨fid, hfinal, hframes.trans (hnone h0).2⟩
    · refine ⟨(source, fid, gid, ⟨X_BG, shape⟩) :: added, ?_, by simp [ih5], ?_⟩
      · show ((run env calls (call.exec env s).2).engines a).geometries = _
        rw [ih4, hgeom]
        simp
      · intro f1 h1 x hx
        have h1' : Map.find (run env calls (call.exec env s).2).plant.body_index_to_frame_id_
            body.index = some f1 := h1
        have hf : f1 = fid := Option.some.inj (h1'.symm.trans hfinal)
        rcases List.mem_cons.mp hx with rfl | hx
        · exact ⟨rfl, hf.symm⟩
        · exact ih6 f1 h1' x hx

end MultibodyPlant
namespace MultibodyPlant
variable {K : Type} [LinearOrderedField K]

/-- C10. On a plant under construction that is handed the engine `a` it
registered with, `RegisterVisualGeometry` and `RegisterCollisionGeometry`
return normally and record the returned geometry id against the body's index.
For a body other than the world: the engine's list of frames grows by one
frame, named after the body, exactly when the body had no frame id, the shape
and pose are registered under the body's (new or existing) frame id, and
nothing is anchored; so a non-empty sequence of `n` registrations for a body
without frame creates one frame and `n` geometries under it. For the world
body: the shape and pose are registered as anchored geometry, no frame and no
frame geometry is registered and the body-to-frame map is unchanged. -/
theorem registration_frames_and_geometries (env : Externals K) (s : Memory K)
    (body : Body K) (X_BG : Isometry3 K) (shape : Shape) (a : Nat) (source : SourceId)
    (call : Call K) (calls : List (Call K))
    (hcall : call = .RegisterVisualGeometry body X_BG shape (some a) ∨
      call = .RegisterCollisionGeometry body X_BG shape (some a))
    (hcalls : ∀ c ∈ calls, c.registers body a)
    (hbuilding : s.plant.is_finalized = false)
    (hsource : s.plant.source_id_ = some source)
    (hengine : s.plant.geometry_system_ = some a) :
    (call.exec env s).1 = .ok () ∧
    (∃ gid,
      Map.find (call.exec env s).2.plant.geometry_id_to_body_index_ gid = some body.index ∧
      (body.index ≠ world_index →
        ∃ fid,
          Map.find (call.exec env s).2.plant.body_index_to_frame_id_ body.index = some fid ∧
          ((call.exec env s).2.engines a).geometries =
            (s.engines a).geometries ++ [(source, fid, gid, ⟨X_BG, shape⟩)] ∧
          ((call.exec env s).2.engines a).anchored = (s.engines a).anchored ∧
          (Map.find s.plant.body_index_to_frame_id_ body.index = none →
            (call.exec env s).2.plant.body_index_to_frame_id_ =
              Map.assign s.plant.body_index_to_frame_id_ body.index fid ∧
            ((call.exec env s).2.engines a).frames =
              (s.engines a).frames ++ [(source, fid, ⟨body.name, Isometry3.Identity⟩)]) ∧
          (∀ f0, Map.find s.plant.body_index_to_frame_id_ body.index = some f0 →
            fid = f0 ∧
            (call.exec env s).2.plant.body_index_to_frame_id_ = s.plant.body_index_to_frame_id_ ∧
            ((call.exec env s).2.engines a).frames = (s.engines a).frames)) ∧
      (body.index = world_index →
        ((call.exec env s).2.engines a).anchored =
          (s.engines a).anchored ++ [(source, gid, ⟨X_BG, shape⟩)] ∧
        ((call.exec env s).2.engines a).frames = (s.engines a).frames ∧
        ((call.exec env s).2.engines a).geometries = (s.engines a).geometries ∧
        (call.exec env s).2.plant.body_index_to_frame_id_ = s.plant.body_index_to_frame_id_)) ∧
    (body.index ≠ world_index →
      Map.find s.plant.body_index_to_frame_id_ body.index = none → calls ≠ [] →
      all_succeed env calls s ∧
      ∃ fid added,
        Map.find (run env calls s).plant.body_index_to_frame_id_ body.index = some fid ∧
        ((run env calls s).engines a).frames =
          (s.engines a).frames ++ [(source, fid, ⟨body.name, Isometry3.Identity⟩)] ∧
        ((run env calls s).engines a).geometries = (s.engines a).geometries ++ added ∧
        added.length = calls.length ∧
        ∀ x ∈ added, x.1 = source ∧ x.2.1 = fid) := by
  obtain ⟨hok, _, _, _, _, _, gid, hgm, hworld, hother⟩ :=
    exec_registration env s body X_BG shape a source call hcall hbuilding hsource hengine
  refine ⟨hok, ⟨gid, ?_, ?_, ?_⟩, ?_⟩
  · rw [hgm]
    exact Map.find_assign_self _ _ _
  · intro hb
    obtain ⟨hanch, fid, hfind, hgeom, hnone, hsome⟩ := hother hb
    exact ⟨fid, hfind, hgeom, hanch, hnone,
      fun f0 h0 => ⟨(hsome f0 h0).2.2, (hsome f0 h0).1, (hsome f0 h0).2.1⟩⟩
  · intro hw
    obtain ⟨h1, h2, h3, h4⟩ := hworld hw
    exact ⟨h4, h2, h3, h1⟩
  · intro hb hnone hne
    obtain ⟨h1, _, h3, added, h4, h5, h6⟩ :=
      run_registrations env body a source hb calls s hcalls hbuilding hsource hengine
    obtain ⟨fid, hfind, hframes⟩ := h3 hnone hne
    exact ⟨h1, fid, added, hfind, hframes, h4, h5, h6 fid hfind⟩

/-- C10, evaluated: the sample plant,
registered with the engine at address 0, registers a collision geometry and
then a visual geometry for the body of index 1, which creates one frame and
two geometries under it. -/
theorem registration_frames_and_geometries_witness :
    (Sample.registered.plant.is_finalized = false ∧
      Sample.registered.plant.source_id_ = some 0 ∧
      Sample.registered.plant.geometry_system_ = some 0 ∧
      Sample.body.index ≠ world_index ∧
      Map.find Sample.registered.plant.body_index_to_frame_id_ Sample.body.index = none) ∧
    ∃ fid added,
      Map.find
        (run Sample.env
          [Call.RegisterCollisionGeometry Sample.body Isometry3.Identity 0 (some 0),
            Call.RegisterVisualGeometry Sample.body Isometry3.Identity 0 (some 0)]
          Sample.registered).plant.body_index_to_frame_id_ Sample.body.index = some fid ∧
      ((run Sample.env
          [Call.RegisterCollisionGeometry Sample.body Isometry3.Identity 0 (some 0),
            Call.RegisterVisualGeometry Sample.body Isometry3.Identity 0 (some 0)]
          Sample.registered).engines 0).frames =
        (Sample.registered.engines 0).frames ++
          [(0, fid, ⟨Sample.body.name, Isometry3.Identity⟩)] ∧
      ((run Sample.env
          [Call.RegisterCollisionGeometry Sample.body Isometry3.Identity 0 (some 0),
            Call.RegisterVisualGeometry Sample.body Isometry3.Identity 0 (some 0)]
          Sample.registered).engines 0).geometries =
        (Sample.registered.engines 0).geometries ++ added ∧
      added.length = 2 ∧
      ∀ x ∈ added, x.1 = 0 ∧ x.2.1 = fid :=
  ⟨⟨rfl, rfl, rfl, by decide, rfl⟩,
    ((registration_frames_and_geometries Sample.env Sample.registered Sample.body
      Isometry3.Identity 0 0 0
      (Call.RegisterCollisionGeometry Sample.body Isometry3.Identity 0 (some 0))
      [Call.RegisterCollisionGeometry Sample.body Isometry3.Identity 0 (some 0),
        Call.RegisterVisualGeometry Sample.body Isometry3.Identity 0 (some 0)]
      (Or.inr rfl)
      (fun c hc => by
        rcases List.mem_cons.mp hc with rfl | hc
        · exact ⟨rfl, rfl⟩
        · rcases List.mem_cons.mp hc with rfl | hc
          · exact ⟨rfl, rfl⟩
          · exact absurd hc (List.not_mem_nil _))
      rfl rfl rfl).2.2 (by decide) rfl (by simp)).2⟩

end MultibodyPlant

namespace MultibodyPlant
variable {K : Type} [LinearOrderedField K]

theorem IdsInvariant_exec (env : Externals K) (s : Memory K) (call : Call K)
    (h : IdsInvariant s.plant) : IdsInvariant (call.exec env s).2.plant := by
  obtain ⟨h1, h2, h3⟩ := h
  by_cases hreg : ∃ body X_BG shape geometry_system,
      call = .RegisterVisualGeometry body X_BG shape geometry_system ∨
        call = .RegisterCollisionGeometry body X_BG shape geometry_system
  · obtain ⟨body, X_BG, shape, geometry_system, hcall⟩ := hreg
    rcases exec_registration_cases env s body X_BG shape geometry_system call hcall with
      hsame | ⟨a, source, rfl, hb, hs, he⟩
    · rw [hsame]
      exact ⟨h1, h2, h3⟩
    · obtain ⟨_, hmodel, hsrc, _, hids, _⟩ :=
        exec_registration env s body X_BG shape a source call hcall hb hs he
      have hb1 : (call.exec env s).2.plant.is_finalized = false := by
        unfold is_finalized at hb ⊢
        rw [hmodel]
        exact hb
      refine ⟨fun _ => hids.trans (h1 hb), fun hn => ?_, fun ht => ?_⟩
      · rw [hsrc, hs] at hn
        exact Option.noConfusion hn
      · rw [hb1] at ht
        exact Bool.noConfusion ht
  · have hcall : ∀ body X_BG shape geometry_system,
        call ≠ .RegisterVisualGeometry body X_BG shape geometry_system ∧
        call ≠ .RegisterCollisionGeometry body X_BG shape geometry_system :=
      fun body X_BG shape geometry_system =>
        ⟨fun e => hreg ⟨body, X_BG, shape, geometry_system, Or.inl e⟩,
          fun e => hreg ⟨body, X_BG, shape, geometry_system, Or.inr e⟩⟩
    obtain ⟨hfm, _, hsrc, hcase⟩ := exec_fields_other env s call hcall
    rcases hcase with ⟨hmodel, hids⟩ | ⟨hb, hb1, hsame, hids⟩ | ⟨hb1, hsame, hids⟩
    · have hfin : (call.exec env s).2.plant.is_finalized = s.plant.is_finalized := by
        unfold is_finalized
        rw [hmodel]
      refine ⟨fun hf => ?_, fun hn => ?_, fun ht => ?_⟩
      · rw [hids]
        exact h1 (hfin ▸ hf)
      · rw [hfm]
        exact h2 (hsrc hn)
      · rw [hids, hfm]
        exact h3 (hfin ▸ ht)
    · refine ⟨fun hf => ?_, fun hn => ?_, fun _ => ?_⟩
      · rw [hb1] at hf
        exact Bool.noConfusion hf
      · rw [hfm]
        exact h2 (hsrc hn)
      · rw [hids, hfm, h1 hb]
        cases hs : s.plant.source_id_ with
        | none => simp [h2 hs]
        | some source => simp
    · refine ⟨fun hf => ?_, fun hn => ?_, fun _ => ?_⟩
      · rw [hb1] at hf
        exact Bool.noConfusion hf
      · rw [hfm]
        exact h2 (hsrc hn)
      · rw [hids, hfm]
        cases hs : s.plant.source_id_ with
        | none => simp [h2 hs]
        | some source => simp

theorem IdsInvariant_run (env : Externals K) (calls : List (Call K)) (s : Memory K)
    (h : IdsInvariant s.plant) : IdsInvariant (run env calls s).plant := by
  induction calls generalizing s with
  | nil => exact h
  | cons call calls ih => exact ih _ (IdsInvariant_exec env s call h)

theorem CalcFrameIdOutput_eq (p : MultibodyPlant K) (context : Context K) (source : SourceId)
    (hfinalized : p.is_finalized = true) (hsource : p.source_id_ = some source) :
    p.CalcFrameIdOutput context = .ok ⟨source, p.ids_⟩ := by
  simp only [CalcFrameIdOutput, ThrowIfNotFinalized_of_finalized p _ hfinalized, hsource]

/-- C8. For every plant that a sequence of calls (scalar conversions among
them) on a plant under construction leaves, once it is finalized and has a
source id: at every state `CalcFrameIdOutput` and `CalcFramePoseOutput`
return, with lists of the length of the body-to-frame map; at every index `i`
the frame id is the one of the `i`-th entry of the map and the pose is the
pose, in the position cache computed for that state, of the body of that same
entry; and the frame ids are the same at every state, also after the pose
output has rewritten the position cache. -/
theorem frame_ids_and_poses_correspond (env : Externals K) (p : MultibodyPlant K)
    (hreachable : Reachable env p) (source : SourceId) (context1 context2 : Context K)
    (hfinalized : p.is_finalized = true) (hsource : p.source_id_ = some source) :
    ∃ ids poses,
      p.CalcFrameIdOutput context1 = .ok ⟨source, ids⟩ ∧
      (p.CalcFramePoseOutput context2).1 = .ok ⟨source, poses⟩ ∧
      ids.length = p.body_index_to_frame_id_.length ∧
      poses.length = ids.length ∧
      (∀ i : Nat,
        ids[i]? = (p.body_index_to_frame_id_[i]?).map Prod.snd ∧
        poses[i]? = (p.body_index_to_frame_id_[i]?).map (fun it =>
          (p.model_.CalcPositionKinematicsCache context2).get_X_WB
            (p.model_.get_body it.1).node_index)) ∧
      p.CalcFrameIdOutput context2 = .ok ⟨source, ids⟩ ∧
      (p.CalcFramePoseOutput context2).2.CalcFrameIdOutput context1 = .ok ⟨source, ids⟩ := by
  obtain ⟨model, gravity_field, engines, calls, rfl⟩ := hreachable
  have hinit : IdsInvariant (Memory.initial model gravity_field engines).plant :=
    ⟨fun _ => rfl, fun _ => rfl, fun h => Bool.noConfusion h⟩
  obtain ⟨_, _, h3⟩ := IdsInvariant_run env calls _ hinit
  generalize (run env calls (Memory.initial model gravity_field engines)).plant = p at *
  have hgate := fun method => ThrowIfNotFinalized_of_finalized p method hfinalized
  have hids := h3 hfinalized
  refine ⟨p.body_index_to_frame_id_.map Prod.snd,
    p.body_index_to_frame_id_.map (fun it =>
      (p.model_.CalcPositionKinematicsCache context2).get_X_WB (p.model_.get_body it.1).node_index),
    ?_, ?_, by simp, ?_, ?_, ?_, ?_⟩
  · rw [CalcFrameIdOutput_eq p context1 source hfinalized hsource, hids]
  · simp only [CalcFramePoseOutput, hgate, EvalPositionKinematics, hsource]
  · simp
  · intro i
    exact ⟨List.getElem?_map _ _ _, List.getElem?_map _ _ _⟩
  · rw [CalcFrameIdOutput_eq p context2 source hfinalized hsource, hids]
  · have hpost : (p.CalcFramePoseOutput context2).2 =
        { p with pc_ := some (p.model_.CalcPositionKinematicsCache context2) } := by
      simp only [CalcFramePoseOutput, hgate, EvalPositionKinematics, hsource]
    rw [hpost]
    exact (CalcFrameIdOutput_eq
      { p with pc_ := some (p.model_.CalcPositionKinematicsCache context2) } context1 source
      hfinalized hsource).trans (congrArg (fun l => Except.ok (FrameIdVector.mk source l)) hids)

/-- C8, evaluated: the sample plant registers as a source, registers a visual
geometry for the body of index 1 and is finalized; the frame id 1 and the pose
of body 1 are emitted. -/
theorem frame_ids_and_poses_correspond_witness :
    (Reachable Sample.env Sample.with_frame.plant ∧
      Sample.with_frame.plant.is_finalized = true ∧
      Sample.with_frame.plant.source_id_ = some 0) ∧
    ∃ ids poses,
      Sample.with_frame.plant.CalcFrameIdOutput Sample.context = .ok ⟨0, ids⟩ ∧
      (Sample.with_frame.plant.CalcFramePoseOutput Sample.context).1 = .ok ⟨0, poses⟩ ∧
      ids.length = 1 ∧ poses.length = ids.length := by
  obtain ⟨ids, poses, h1, h2, h3, h4, _⟩ :=
    frame_ids_and_poses_correspond Sample.env Sample.with_frame.plant ⟨_, _, _, _, rfl⟩ 0
      Sample.context Sample.context rfl rfl
  exact ⟨⟨⟨_, _, _, _, rfl⟩, rfl, rfl⟩, ids, poses, h1, h2, h3, h4⟩

end MultibodyPlant

namespace MultibodyPlant
variable {K : Type} [LinearOrderedField K]

theorem foldl_max_spec (f : Nat → K) (l : List Nat) (a : K) :
    a ≤ l.foldl (fun acc i => max acc (f i)) a ∧
    (∀ i ∈ l, f i ≤ l.foldl (fun acc i => max acc (f i)) a) ∧
    (l.foldl (fun acc i => max acc (f i)) a = a ∨
      ∃ i ∈ l, l.foldl (fun acc i => max acc (f i)) a = f i) := by
  induction l generalizing a with
  | nil => exact ⟨le_refl _, fun i hi => absurd hi (List.not_mem_nil _), Or.inl rfl⟩
  | cons j l ih =>
    obtain ⟨h1, h2, h3⟩ := ih (max a (f j))
    simp only [List.foldl_cons]
    refine ⟨le_trans (le_max_left _ _) h1, ?_, ?_⟩
    · intro i hi
      rcases List.mem_cons.mp hi with rfl | hi
      · exact le_trans (le_max_right _ _) h1
      · exact h2 i hi
    · rcases h3 with h3 | ⟨i, hi, h3⟩
      · rcases max_choice a (f j) with hm | hm
        · exact Or.inl (h3.trans hm)
        · exact Or.inr ⟨j, List.mem_cons_self _ _, h3.trans hm⟩
      · exact Or.inr ⟨i, List.mem_cons_of_mem _ hi, h3⟩

theorem max_default_mass_eq (p : MultibodyPlant K) (m : K)
    (hbound : ∀ i, i < p.model_.num_bodies → (p.model_.get_body i).get_default_mass ≤ m)
    (hattained : ∃ i, i < p.model_.num_bodies ∧ (p.model_.get_body i).get_default_mass = m)
    (hm : 0 < m) :
    (List.range p.model_.num_bodies).foldl
      (fun mass body_index => max mass (p.model_.get_body body_index).get_default_mass) 0 = m := by
  obtain ⟨h1, h2, h3⟩ :=
    foldl_max_spec (fun i => (p.model_.get_body i).get_default_mass)
      (List.range p.model_.num_bodies) 0
  obtain ⟨i, hi, hmi⟩ := hattained
  apply le_antisymm
  · rcases h3 with h3 | ⟨j, hj, h3⟩
    · rw [h3]
      exact le_of_lt hm
    · rw [h3]
      exact hbound j (List.mem_range.mp hj)
  · rw [← hmi]
    exact h2 i (List.mem_range.mpr hi)

/-- C11. On a finalized plant, with `m > 0` the greatest default mass of the
bodies of the model and `g` the norm `sqrt(v · v)` of the gravity vector, or
981/100 when there is no gravity field, `set_penetration_allowance(a)` returns
and stores `stiffness = m * g / a`, `time_scale = 1 / sqrt(stiffness / m)` and
`damping = time_scale / a`, and nothing else changes; `stiffness / m` is
`g / a`. The square root is the one the plant is given, so this holds in
particular over the reals with the real square root. -/
theorem penetration_allowance_parameters (env : Externals K) (p : MultibodyPlant K)
    (penetration_allowance m : K)
    (hfinalized : p.is_finalized = true)
    (hbound : ∀ i, i < p.model_.num_bodies → (p.model_.get_body i).get_default_mass ≤ m)
    (hattained : ∃ i, i < p.model_.num_bodies ∧ (p.model_.get_body i).get_default_mass = m)
    (hm : 0 < m) :
    let g : K :=
      match p.gravity_field_ with
      | some gravity_vector => env.sqrt (gravity_vector.dot gravity_vector)
      | none => 981 / 100
    ∃ stiffness time_scale damping : K,
      set_penetration_allowance env p penetration_allowance =
        (.ok (), { p with
          penalty_method_contact_parameters_ := ⟨stiffness, damping, time_scale⟩ }) ∧
      stiffness = m * g / penetration_allowance ∧
      time_scale = 1 / env.sqrt (stiffness / m) ∧
      damping = time_scale / penetration_allowance ∧
      stiffness / m = g / penetration_allowance := by
  intro g
  have hmass := max_default_mass_eq p m hbound hattained hm
  refine ⟨m * g / penetration_allowance,
    1 / env.sqrt (m * g / penetration_allowance / m),
    1 / env.sqrt (m * g / penetration_allowance / m) / penetration_allowance, ?_, rfl, rfl, rfl, ?_⟩
  · unfold set_penetration_allowance
    rw [ThrowIfNotFinalized_of_finalized p _ hfinalized]
    simp only [hmass, one_mul]
  · rw [div_right_comm, mul_div_cancel_left₀ g (ne_of_gt hm)]

/-- C11, evaluated: the finalized sample plant has unit masses and no gravity
field; with the allowance 981/400 it stores the stiffness 4, the time scale
1/2 and the damping 200/981. -/
theorem penetration_allowance_parameters_witness :
    (Sample.finalized.plant.is_finalized = true ∧
      (∀ i, i < Sample.finalized.plant.model_.num_bodies →
        (Sample.finalized.plant.model_.get_body i).get_default_mass ≤ 1) ∧
      (∃ i, i < Sample.finalized.plant.model_.num_bodies ∧
        (Sample.finalized.plant.model_.get_body i).get_default_mass = 1)) ∧
    set_penetration_allowance Sample.root_env Sample.finalized.plant (981 / 400) =
      (.ok (), { Sample.finalized.plant with
        penalty_method_contact_parameters_ := ⟨4, 200 / 981, 1 / 2⟩ }) := by
  have hbound : ∀ i, i < Sample.finalized.plant.model_.num_bodies →
      (Sample.finalized.plant.model_.get_body i).get_default_mass ≤ 1 :=
    fun i _ => le_refl _
  have hattained : ∃ i, i < Sample.finalized.plant.model_.num_bodies ∧
      (Sample.finalized.plant.model_.get_body i).get_default_mass = 1 :=
    ⟨0, by decide, rfl⟩
  refine ⟨⟨rfl, hbound, hattained⟩, ?_⟩
  obtain ⟨stiffness, time_scale, damping, h, hs, ht, hd, _⟩ :=
    penetration_allowance_parameters Sample.root_env Sample.finalized.plant (981 / 400) 1 rfl
      hbound hattained one_pos
  have hs4 : stiffness = 4 := by
    rw [hs]
    show (1 * (981 / 100 : ℚ)) / (981 / 400) = 4
    norm_num
  have ht2 : time_scale = 1 / 2 := by
    rw [ht, hs4]
    simp [Sample.root_env]
  have hd2 : damping = 200 / 981 := by rw [hd, ht2]; norm_num
  rw [h, hs4, ht2, hd2]

end MultibodyPlant

namespace MultibodyPlant
variable {K : Type} [LinearOrderedField K]

theorem set_penetration_allowance_stiffness (env : Externals K) (p : MultibodyPlant K)
    (penetration_allowance : K) (h : p.is_finalized = true) :
    (set_penetration_allowance env p penetration_allowance).1 = .ok () ∧
    (set_penetration_allowance env p
        penetration_allowance).2.penalty_method_contact_parameters_.stiffness =
      (List.range p.model_.num_bodies).foldl
          (fun mass body_index => max mass (p.model_.get_body body_index).get_default_mass) 0 *
        (match p.gravity_field_ with
          | some gravity_vector => env.sqrt (gravity_vector.dot gravity_vector)
          | none => 981 / 100) /
        penetration_allowance := by
  unfold set_penetration_allowance
  rw [ThrowIfNotFinalized_of_finalized p _ h]
  exact ⟨rfl, rfl⟩

theorem FinalizePlantOnly_derives (env : Externals K) (p : MultibodyPlant K)
    (h : p.is_finalized = true) (hcollision : 0 < p.get_num_collision_geometries)
    (hunset : p.penalty_method_contact_parameters_.time_scale < 0) :
    (FinalizePlantOnly env p).2.penalty_method_contact_parameters_.stiffness =
      (List.range p.model_.num_bodies).foldl
          (fun mass body_index => max mass (p.model_.get_body body_index).get_default_mass) 0 *
        (match p.gravity_field_ with
          | some gravity_vector => env.sqrt (gravity_vector.dot gravity_vector)
          | none => 981 / 100) /
        env.default_penetration_allowance := by
  obtain ⟨actuation, state_output, declared, inputs, outputs, hD⟩ := DeclareStateAndPorts_eq p h
  unfold FinalizePlantOnly
  rw [hD]
  unfold is_finalized at h
  unfold get_num_collision_geometries at hcollision
  cases hs : p.source_id_ with
  | none =>
    simp only [hs, Option.isSome_none, Bool.false_eq_true, if_false]
    split
    · exact (set_penetration_allowance_stiffness env _ _ (by exact h)).2
    · rename_i hn
      exact absurd ⟨hcollision, hunset⟩ hn
  | some source =>
    simp only [hs, Option.isSome_some, if_true]
    split
    · exact (set_penetration_allowance_stiffness env _ _ (by exact h)).2
    · rename_i hn
      exact absurd ⟨hcollision, hunset⟩ hn

theorem Finalize_derives (env : Externals K) (p : MultibodyPlant K)
    (h : p.is_finalized = false) (hcollision : 0 < p.get_num_collision_geometries)
    (hunset : p.penalty_method_contact_parameters_.time_scale < 0) :
    (Finalize env p).2.penalty_method_contact_parameters_.stiffness =
      (List.range p.model_.num_bodies).foldl
          (fun mass body_index => max mass (p.model_.get_body body_index).get_default_mass) 0 *
        (match p.gravity_field_ with
          | some gravity_vector => env.sqrt (gravity_vector.dot gravity_vector)
          | none => 981 / 100) /
        env.default_penetration_allowance := by
  unfold Finalize MultibodyTree.Finalize
  unfold is_finalized at h
  simp only [h, Bool.false_eq_true, if_false]
  exact FinalizePlantOnly_derives env
    { p with model_ := { p.model_ with topology_is_valid := true } } rfl hcollision hunset


theorem set_penetration_allowance_keeps (env : Externals K) (p : MultibodyPlant K)
    (penetration_allowance : K) :
    (set_penetration_allowance env p penetration_allowance).2.geometry_id_to_collision_index_
      = p.geometry_id_to_collision_index_ ∧
    (set_penetration_allowance env p penetration_allowance).2.gravity_field_
      = p.gravity_field_ ∧
    (set_penetration_allowance env p penetration_allowance).2.model_ = p.model_ := by
  unfold set_penetration_allowance
  split <;> exact ⟨rfl, rfl, rfl⟩

theorem FinalizePlantOnly_keeps (env : Externals K) (p : MultibodyPlant K) :
    (FinalizePlantOnly env p).2.geometry_id_to_collision_index_
      = p.geometry_id_to_collision_index_ ∧
    (FinalizePlantOnly env p).2.gravity_field_ = p.gravity_field_ ∧
    (FinalizePlantOnly env p).2.model_ = p.model_ := by
  unfold FinalizePlantOnly
  cases hD : p.DeclareStateAndPorts with
  | error e => exact ⟨rfl, rfl, rfl⟩
  | ok p1 =>
    have h1 : p1.geometry_id_to_collision_index_ = p.geometry_id_to_collision_index_ ∧
        p1.gravity_field_ = p.gravity_field_ ∧ p1.model_ = p.model_ := by
      unfold DeclareStateAndPorts at hD
      split at hD
      · exact Except.noConfusion hD
      · have := Except.ok.inj hD
        subst this
        split <;> exact ⟨rfl, rfl, rfl⟩
    have key : ∀ q : MultibodyPlant K,
        (if 0 < q.get_num_collision_geometries ∧
            q.penalty_method_contact_parameters_.time_scale < 0 then
          set_penetration_allowance env q env.default_penetration_allowance
        else (.ok (), q)).2.geometry_id_to_collision_index_
          = q.geometry_id_to_collision_index_ ∧
        (if 0 < q.get_num_collision_geometries ∧
            q.penalty_method_contact_parameters_.time_scale < 0 then
          set_penetration_allowance env q env.default_penetration_allowance
        else (.ok (), q)).2.gravity_field_ = q.gravity_field_ ∧
        (if 0 < q.get_num_collision_geometries ∧
            q.penalty_method_contact_parameters_.time_scale < 0 then
          set_penetration_allowance env q env.default_penetration_allowance
        else (.ok (), q)).2.model_ = q.model_ := by
      intro q
      split
      · exact set_penetration_allowance_keeps env q _
      · exact ⟨rfl, rfl, rfl⟩
    obtain ⟨k1, k2, k3⟩ := key ({ (if p1.source_id_.isSome = true then
      p1.DeclareGeometrySystemPorts else p1).DeclareCacheEntries with geometry_system_ := none })
    refine ⟨k1.trans ?_, k2.trans ?_, k3.trans ?_⟩ <;>
    · by_cases hs : p1.source_id_.isSome = true
      · simp only [hs, if_true]
        first | exact h1.1 | exact h1.2.1 | exact h1.2.2
      · simp only [hs, if_false]
        first | exact h1.1 | exact h1.2.1 | exact h1.2.2

theorem Finalize_keeps (env : Externals K) (p : MultibodyPlant K)
    (h : p.is_finalized = false) :
    (Finalize env p).2.geometry_id_to_collision_index_ = p.geometry_id_to_collision_index_ ∧
    (Finalize env p).2.gravity_field_ = p.gravity_field_ ∧
    (Finalize env p).2.model_ = { p.model_ with topology_is_valid := true } := by
  unfold Finalize MultibodyTree.Finalize
  unfold is_finalized at h
  simp only [h, Bool.false_eq_true, if_false]
  exact FinalizePlantOnly_keeps env
    { p with model_ := { p.model_ with topology_is_valid := true } }

/-- C12, as stated, fails: the sample plant with one collision geometry is
finalized, which derives the stiffness 9810 from the default allowance; a
later `set_penetration_allowance(1)` returns normally and stores the stiffness
981/100. -/
theorem allowance_changes_finalized_parameters :
    0 < Sample.collision_finalized.plant.get_num_collision_geometries ∧
    Sample.collision_finalized.plant.is_finalized = true ∧
    Sample.collision_finalized.plant.penalty_method_contact_parameters_.stiffness = 9810 ∧
    (set_penetration_allowance Sample.env Sample.collision_finalized.plant 1).1 = .ok () ∧
    (set_penetration_allowance Sample.env Sample.collision_finalized.plant
      1).2.penalty_method_contact_parameters_.stiffness = 981 / 100 := by
  have hplant : Sample.collision_finalized.plant =
      (Finalize Sample.env Sample.collision_registered.plant).2 := rfl
  obtain ⟨hcollision, hgravity, hmodel⟩ :=
    Finalize_keeps Sample.env Sample.collision_registered.plant rfl
  have hfinalized : Sample.collision_finalized.plant.is_finalized = true := by
    rw [hplant]
    unfold is_finalized
    rw [hmodel]
  have hmass : ∀ p : MultibodyPlant ℚ, p.model_.num_bodies = 3 →
      (∀ i, (p.model_.get_body i).get_default_mass = 1) →
      (List.range p.model_.num_bodies).foldl
        (fun mass body_index => max mass (p.model_.get_body body_index).get_default_mass) 0
        = 1 := fun p hn hb =>
    max_default_mass_eq p 1 (fun i _ => le_of_eq (hb i)) ⟨0, by rw [hn]; decide, hb 0⟩ one_pos
  have hderived := Finalize_derives Sample.env Sample.collision_registered.plant rfl
    (by decide) (by show (-1 : ℚ) < 0; norm_num)
  rw [hmass Sample.collision_registered.plant rfl (fun _ => rfl)] at hderived
  have hset := set_penetration_allowance_stiffness Sample.env Sample.collision_finalized.plant 1
    hfinalized
  rw [hmass Sample.collision_finalized.plant (by rw [hplant, hmodel]; rfl)
    (fun i => by rw [hplant, hmodel]; rfl)] at hset
  refine ⟨?_, hfinalized, ?_, hset.1, ?_⟩
  · unfold get_num_collision_geometries
    rw [hplant, hcollision]
    decide
  · rw [hplant, hderived]
    show (1 * (981 / 100 : ℚ)) / (1 / 1000) = 9810
    norm_num
  · rw [hset.2, hplant, hgravity]
    show (1 * (981 / 100 : ℚ)) / 1 = 981 / 100
    norm_num


theorem DoCalcTimeDerivatives_parameters (p : MultibodyPlant K)
    (dynamics : MultibodyTreeDynamics K p.model_.num_bodies p.model_.num_positions
      p.model_.num_velocities)
    (context : Context K) :
    (DoCalcTimeDerivatives p dynamics context).2.penalty_method_contact_parameters_
      = p.penalty_method_contact_parameters_ := by
  unfold DoCalcTimeDerivatives
  simp only []
  split
  · rfl
  · split <;> rfl

/-- What `set_penetration_allowance(a)` returns on a finalized plant. -/
theorem set_penetration_allowance_parameters (env : Externals K) (p : MultibodyPlant K)
    (penetration_allowance : K) (h : p.is_finalized = true) :
    let g : K :=
      match p.gravity_field_ with
      | some gravity_vector => env.sqrt (gravity_vector.dot gravity_vector)
      | none => 981 / 100
    let mass : K :=
      (List.range p.model_.num_bodies).foldl
        (fun mass body_index => max mass (p.model_.get_body body_index).get_default_mass) 0
    let stiffness := mass * g / penetration_allowance
    let time_scale := 1 / env.sqrt (stiffness / mass)
    let damping := time_scale / penetration_allowance
    set_penetration_allowance env p penetration_allowance =
      (.ok (), { p with
        penalty_method_contact_parameters_ := ⟨stiffness, damping, time_scale⟩ }) := by
  intro g mass stiffness time_scale damping
  unfold set_penetration_allowance
  rw [ThrowIfNotFinalized_of_finalized p _ h]
  simp only [one_mul]

theorem FinalizePlantOnly_derives_parameters (env : Externals K) (p : MultibodyPlant K)
    (h : p.is_finalized = true) (hcollision : 0 < p.get_num_collision_geometries)
    (hunset : p.penalty_method_contact_parameters_.time_scale < 0) :
    let g : K :=
      match p.gravity_field_ with
      | some gravity_vector => env.sqrt (gravity_vector.dot gravity_vector)
      | none => 981 / 100
    let mass : K :=
      (List.range p.model_.num_bodies).foldl
        (fun mass body_index => max mass (p.model_.get_body body_index).get_default_mass) 0
    let stiffness := mass * g / env.default_penetration_allowance
    let time_scale := 1 / env.sqrt (stiffness / mass)
    let damping := time_scale / env.default_penetration_allowance
    (FinalizePlantOnly env p).1 = .ok () ∧
    (FinalizePlantOnly env p).2.penalty_method_contact_parameters_
      = ⟨stiffness, damping, time_scale⟩ := by
  intro g mass stiffness time_scale damping
  obtain ⟨actuation, state_output, declared, inputs, outputs, hD⟩ := DeclareStateAndPorts_eq p h
  unfold FinalizePlantOnly
  rw [hD]
  unfold is_finalized at h
  unfold get_num_collision_geometries at hcollision
  have key : ∀ q : MultibodyPlant K, q.is_finalized = true → q.model_ = p.model_ →
      q.gravity_field_ = p.gravity_field_ →
      (set_penetration_allowance env q env.default_penetration_allowance).1 = .ok () ∧
      (set_penetration_allowance env q
        env.default_penetration_allowance).2.penalty_method_contact_parameters_
        = ⟨stiffness, damping, time_scale⟩ := by
    intro q hq hmodel hgravity
    have hs := set_penetration_allowance_parameters env q env.default_penetration_allowance hq
    simp only [] at hs
    rw [hs, hmodel, hgravity]
    exact ⟨rfl, rfl⟩
  cases hs : p.source_id_ with
  | none =>
    simp only [hs, Option.isSome_none, Bool.false_eq_true, if_false]
    split
    · exact key _ (by exact h) rfl rfl
    · rename_i hn
      exact absurd ⟨hcollision, hunset⟩ hn
  | some source =>
    simp only [hs, Option.isSome_some, if_true]
    split
    · exact key _ (by exact h) rfl rfl
    · rename_i hn
      exact absurd ⟨hcollision, hunset⟩ hn

/-- What `Finalize()` derives on a plant with collision geometry whose
parameters are not set yet. -/
theorem Finalize_derives_parameters (env : Externals K) (p : MultibodyPlant K)
    (h : p.is_finalized = false) (hcollision : 0 < p.get_num_collision_geometries)
    (hunset : p.penalty_method_contact_parameters_.time_scale < 0) :
    let g : K :=
      match p.gravity_field_ with
      | some gravity_vector => env.sqrt (gravity_vector.dot gravity_vector)
      | none => 981 / 100
    let mass : K :=
      (List.range p.model_.num_bodies).foldl
        (fun mass body_index => max mass (p.model_.get_body body_index).get_default_mass) 0
    let stiffness := mass * g / env.default_penetration_allowance
    let time_scale := 1 / env.sqrt (stiffness / mass)
    let damping := time_scale / env.default_penetration_allowance
    (Finalize env p).1 = .ok () ∧
    (Finalize env p).2.penalty_method_contact_parameters_
      = ⟨stiffness, damping, time_scale⟩ := by
  intro g mass stiffness time_scale damping
  unfold Finalize MultibodyTree.Finalize
  unfold is_finalized at h
  simp only [h, Bool.false_eq_true, if_false]
  exact FinalizePlantOnly_derives_parameters env
    { p with model_ := { p.model_ with topology_is_valid := true } } rfl hcollision hunset

/-- The greatest default mass of the slider model is 1. -/
theorem Sample.slider_mass :
    (List.range Sample.slider.plant.model_.num_bodies).foldl
      (fun mass body_index =>
        max mass (Sample.slider.plant.model_.get_body body_index).get_default_mass) 0
      = 1 :=
  max_default_mass_eq Sample.slider.plant 1 (fun _ _ => le_refl _) ⟨0, by decide, rfl⟩ one_pos

/-- The parameters that `Finalize()` derived on the slider plant. -/
theorem Sample.slider_parameters :
    Sample.slider.plant.penalty_method_contact_parameters_ = ⟨10000, 10, 1 / 100⟩ := by
  have hplant : Sample.slider.plant =
      (Finalize Sample.exact_env Sample.slider_registered.plant).2 := rfl
  have hderived := (Finalize_derives_parameters Sample.exact_env
    Sample.slider_registered.plant rfl (by decide) (by show (-1 : ℚ) < 0; norm_num)).2
  have hmass : (List.range Sample.slider_registered.plant.model_.num_bodies).foldl
      (fun mass body_index =>
        max mass (Sample.slider_registered.plant.model_.get_body body_index).get_default_mass)
      0 = 1 := Sample.slider_mass
  have hgravity : Sample.slider_registered.plant.gravity_field_ = some ⟨0, 0, -10⟩ := rfl
  have hg : Sample.exact_env.sqrt ((⟨0, 0, -10⟩ : Vector3 ℚ).dot ⟨0, 0, -10⟩) = 10 := by
    simp [Sample.exact_env, Vector3.dot]
    norm_num
  have h1 : (1 * 10 / Sample.exact_env.default_penetration_allowance : ℚ) = 10000 := by
    show (1 * 10 / (1 / 1000) : ℚ) = 10000
    norm_num
  have h2 : Sample.exact_env.sqrt (10000 / 1) = 100 := by
    simp [Sample.exact_env]
  simp only [hmass, hgravity, hg, h1, h2] at hderived
  rw [hplant, hderived]
  show (⟨10000, 1 / 100 / (1 / 1000), 1 / 100⟩ : PenaltyMethodContactParameters ℚ)
    = ⟨10000, 10, 1 / 100⟩
  norm_num

/-- C12, amended. The three penalty parameters are derived by `Finalize()` and
changed thereafter by `set_penetration_allowance` only. On a plant under
construction with collision geometry whose parameters are not set,
`Finalize()` returns and stores the parameters derived from the default
allowance. On a finalized plant every other call of the interface, whether it
returns or throws, and `DoCalcTimeDerivatives` leave them as they are (the
scalar conversion constructs another plant and does not touch this one),
while `set_penetration_allowance(a)` returns normally and replaces them by the
values it derives from `a`, `stiffness = mass * g / a`,
`time_scale = 1 / sqrt(stiffness / mass)` and `damping = time_scale / a`, with
`mass` the greatest default mass and `g` the norm of gravity (981/100 without
a gravity field), changing nothing else. -/
theorem penalty_parameters_change_only_by_allowance (env : Externals K) (s : Memory K)
    (call : Call K)
    (dynamics : MultibodyTreeDynamics K s.plant.model_.num_bodies s.plant.model_.num_positions
      s.plant.model_.num_velocities)
    (context : Context K)
    (hfinalized : s.plant.is_finalized = true) :
    ((∀ a, call ≠ .set_penetration_allowance a) → (∀ c, call ≠ .ScalarConvert c) →
      (call.exec env s).2.plant.penalty_method_contact_parameters_
        = s.plant.penalty_method_contact_parameters_) ∧
    (DoCalcTimeDerivatives s.plant dynamics context).2.penalty_method_contact_parameters_
      = s.plant.penalty_method_contact_parameters_ ∧
    (∀ a,
      let g : K :=
        match s.plant.gravity_field_ with
        | some gravity_vector => env.sqrt (gravity_vector.dot gravity_vector)
        | none => 981 / 100
      let mass : K :=
        (List.range s.plant.model_.num_bodies).foldl
          (fun mass body_index =>
            max mass (s.plant.model_.get_body body_index).get_default_mass) 0
      let stiffness := mass * g / a
      let time_scale := 1 / env.sqrt (stiffness / mass)
      let damping := time_scale / a
      set_penetration_allowance env s.plant a =
        (.ok (), { s.plant with
          penalty_method_contact_parameters_ := ⟨stiffness, damping, time_scale⟩ })) ∧
    (∀ q : MultibodyPlant K, q.is_finalized = false → 0 < q.get_num_collision_geometries →
      q.penalty_method_contact_parameters_.time_scale < 0 →
      let g : K :=
        match q.gravity_field_ with
        | some gravity_vector => env.sqrt (gravity_vector.dot gravity_vector)
        | none => 981 / 100
      let mass : K :=
        (List.range q.model_.num_bodies).foldl
          (fun mass body_index => max mass (q.model_.get_body body_index).get_default_mass) 0
      let stiffness := mass * g / env.default_penetration_allowance
      let time_scale := 1 / env.sqrt (stiffness / mass)
      let damping := time_scale / env.default_penetration_allowance
      (Finalize env q).1 = .ok () ∧
      (Finalize env q).2.penalty_method_contact_parameters_
        = ⟨stiffness, damping, time_scale⟩) := by
  refine ⟨?_, DoCalcTimeDerivatives_parameters s.plant dynamics context,
    fun a => set_penetration_allowance_parameters env s.plant a hfinalized,
    fun q hq hcollision hunset => Finalize_derives_parameters env q hq hcollision hunset⟩
  intro hset hconvert
  cases call with
  | set_penetration_allowance a => exact absurd rfl (hset a)
  | ScalarConvert c => exact absurd rfl (hconvert c)
  | RegisterAsSourceForGeometrySystem geometry_system =>
    simp only [Call.exec, RegisterAsSourceForGeometrySystem]
    split
    · rfl
    · split <;> rfl
  | RegisterVisualGeometry body X_BG shape geometry_system =>
    obtain ⟨e, he, _⟩ :=
      (registration_of_finalized s body X_BG shape geometry_system hfinalized).1
    simp only [Call.exec, he]
  | RegisterCollisionGeometry body X_BG shape geometry_system =>
    obtain ⟨e, he, _⟩ :=
      (registration_of_finalized s body X_BG shape geometry_system hfinalized).2
    simp only [Call.exec, he]
  | Finalize =>
    simp only [Call.exec]
    rcases Finalize_fields env s.plant with ⟨_, h, _⟩ | ⟨h, _⟩
    · rw [h]
    · rw [hfinalized] at h
      exact Bool.noConfusion h
  | CalcFramePoseOutput context2 =>
    simp only [Call.exec, CalcFramePoseOutput, EvalPositionKinematics]
    split
    · rfl
    · split <;> rfl

/-- C12 as amended, evaluated on the slider plant, which has two collision
geometries: `Finalize()` derived the stiffness 10000, the damping 10 and the
time scale 1/100 from the default allowance 1/1000; the pose output returns
and leaves them as they are; `set_penetration_allowance(1/10)` returns and
replaces them by the stiffness 100, the damping 1 and the time scale 1/10. -/
theorem penalty_parameters_change_only_by_allowance_witness :
    Sample.slider.plant.is_finalized = true ∧
    Sample.slider.plant.get_num_collision_geometries = 2 ∧
    Sample.slider.plant.penalty_method_contact_parameters_ = ⟨10000, 10, 1 / 100⟩ ∧
    ((Call.CalcFramePoseOutput Sample.slider_free).exec Sample.exact_env
      Sample.slider).1 = .ok () ∧
    ((Call.CalcFramePoseOutput Sample.slider_free).exec Sample.exact_env
      Sample.slider).2.plant.penalty_method_contact_parameters_ = ⟨10000, 10, 1 / 100⟩ ∧
    set_penetration_allowance Sample.exact_env Sample.slider.plant (1 / 10) =
      (.ok (), { Sample.slider.plant with
        penalty_method_contact_parameters_ := ⟨100, 1, 1 / 10⟩ }) := by
  have h := penalty_parameters_change_only_by_allowance Sample.exact_env Sample.slider
    (Call.CalcFramePoseOutput Sample.slider_free) Sample.slider_dynamics Sample.slider_free rfl
  refine ⟨rfl, rfl, Sample.slider_parameters, rfl, ?_, ?_⟩
  · rw [h.1 (fun _ hc => Call.noConfusion hc) (fun _ hc => Call.noConfusion hc)]
    exact Sample.slider_parameters
  · have hs := h.2.2.1 (1 / 10)
    have hgravity : Sample.slider.plant.gravity_field_ = some ⟨0, 0, -10⟩ := rfl
    have hg : Sample.exact_env.sqrt ((⟨0, 0, -10⟩ : Vector3 ℚ).dot ⟨0, 0, -10⟩) = 10 := by
      simp [Sample.exact_env, Vector3.dot]
      norm_num
    have h1 : (1 * 10 / (1 / 10) : ℚ) = 100 := by norm_num
    have h2 : Sample.exact_env.sqrt (100 / 1) = 10 := by
      simp [Sample.exact_env]
    have h3 : (1 / 10 / (1 / 10) : ℚ) = 1 := by norm_num
    simp only [Sample.slider_mass, hgravity, hg, h1, h2, h3] at hs
    exact hs

end MultibodyPlant

theorem ldlt_solve_spec {K : Type} [LinearOrderedField K] {n : Nat}
    (M : Matrix (Fin n) (Fin n) K) (b : Fin n → K)
    (hM : ∀ x : Fin n → K, x ≠ 0 → 0 < Matrix.dotProduct x (M.mulVec x)) :
    M.mulVec (ldlt_solve M b) = b := by
  have hdet : M.det ≠ 0 := by
    intro h0
    obtain ⟨x, hx, hMx⟩ := Matrix.exists_mulVec_eq_zero_iff.mpr h0
    have hpos := hM x hx
    rw [hMx, Matrix.dotProduct_zero] at hpos
    exact lt_irrefl _ hpos
  unfold ldlt_solve
  rw [Matrix.mulVec_smul, Matrix.mulVec_mulVec, Matrix.mul_adjugate, Matrix.smul_mulVec_assoc,
    Matrix.one_mulVec, smul_smul, inv_mul_cancel₀ hdet, one_smul]

namespace MultibodyPlant
variable {K : Type} [LinearOrderedField K]

theorem CalcAndAddContactForce_ok (p : MultibodyPlant K)
    (pc : PositionKinematicsCache K) (vc : VelocityKinematicsCache K)
    (penetration : PenetrationAsPointPair K) (F : List (SpatialForce K))
    (hgeometry : ∀ id, p.is_collision_geometry id = true →
      ∃ b, Map.at_ p.geometry_id_to_body_index_ id = .ok b ∧ b < F.length) :
    ∃ F2, CalcAndAddContactForce p pc vc penetration F = (.ok (), F2) ∧
      F2.length = F.length := by
  cases hA : p.is_collision_geometry penetration.id_A with
  | false =>
    exact ⟨F, is_collision_geometry_eq_false_skips p pc vc penetration F (Or.inl hA), rfl⟩
  | true =>
    cases hB : p.is_collision_geometry penetration.id_B with
    | false =>
      exact ⟨F, is_collision_geometry_eq_false_skips p pc vc penetration F (Or.inr hB), rfl⟩
    | true =>
      obtain ⟨a, ha, hla⟩ := hgeometry _ hA
      obtain ⟨b, hb, hlb⟩ := hgeometry _ hB
      rw [CalcAndAddContactForce_of_bodies p pc vc penetration F a b hA hB ha hb]
      have key : ∀ (G : List (SpatialForce K)) (c : BodyIndex) (X : SpatialForce K),
          c < G.length →
          ∃ G1, (if c ≠ world_index then add_at G c X else .ok G) = .ok G1 ∧
            G1.length = G.length := by
        intro G c X hc
        by_cases hw : c ≠ world_index
        · exact ⟨_, by rw [if_pos hw]; exact add_at_eq_ok X hc, by simp⟩
        · exact ⟨G, by rw [if_neg hw], rfl⟩
      split
      · exact ⟨F, rfl, rfl⟩
      · obtain ⟨F1, h1, hl1⟩ := key F a
          ((F_AC_W p pc vc penetration a b).Shift (p_CoBo_W p pc penetration a)) hla
        obtain ⟨F2, h2, hl2⟩ := key F1 b
          (-((F_AC_W p pc vc penetration a b).Shift (p_CoBo_W p pc penetration b)))
          (by rw [hl1]; exact hlb)
        refine ⟨F2, ?_, hl2.trans hl1⟩
        simp only [h1, h2]

theorem CalcAndAddContactForces_caches (p : MultibodyPlant K)
    (pc_ : Option (PositionKinematicsCache K)) (vc_ : Option (VelocityKinematicsCache K))
    (pc : PositionKinematicsCache K) (vc : VelocityKinematicsCache K)
    (penetrations : List (PenetrationAsPointPair K)) (F : List (SpatialForce K)) :
    CalcAndAddContactForces { p with pc_ := pc_, vc_ := vc_ } pc vc penetrations F =
      CalcAndAddContactForces p pc vc penetrations F := by
  induction penetrations generalizing F with
  | nil => rfl
  | cons penetration rest ih =>
    unfold CalcAndAddContactForces
    have h : CalcAndAddContactForce { p with pc_ := pc_, vc_ := vc_ } pc vc penetration F =
        CalcAndAddContactForce p pc vc penetration F := rfl
    rw [h]
    split
    · rfl
    · exact ih _

end MultibodyPlant

namespace SpatialForce
variable {K : Type} [LinearOrderedField K]

theorem add_assoc_right (F G H : SpatialForce K) : F + G + H = F + (G + H) := by
  ext <;> simp [add_rotational, add_translational, add_assoc]

end SpatialForce

namespace MultibodyPlant
variable {K : Type} [LinearOrderedField K]

/-- One iteration of the contact loop adds to every entry of the array the
force that the specification assigns to the body of that index. -/
theorem CalcAndAddContactForce_specified (p : MultibodyPlant K)
    (pc : PositionKinematicsCache K) (vc : VelocityKinematicsCache K)
    (penetration : PenetrationAsPointPair K) (F : List (SpatialForce K))
    (hgeometry : ∀ id, p.is_collision_geometry id = true →
      ∃ b, Map.at_ p.geometry_id_to_body_index_ id = .ok b ∧ b < F.length) :
    ∃ F2, CalcAndAddContactForce p pc vc penetration F = (.ok (), F2) ∧
      F2.length = F.length ∧
      ∀ i : Nat, F2[i]? =
        (F[i]?).map (fun Fi => Fi + specified_contact_force p pc vc penetration i) := by
  obtain ⟨F2, h2, hl⟩ := CalcAndAddContactForce_ok p pc vc penetration F hgeometry
  refine ⟨F2, h2, hl, ?_⟩
  have hskip : ∀ i : Nat, F[i]? = (F[i]?).map (fun Fi => Fi + (0 : SpatialForce K)) := by
    intro i
    simp only [SpatialForce.add_zero_right]
    cases F[i]? <;> rfl
  have hsame : ∀ G, CalcAndAddContactForce p pc vc penetration F = (.ok (), G) → F2 = G :=
    fun G hG => (Prod.mk.inj (h2.symm.trans hG)).2
  cases hA : p.is_collision_geometry penetration.id_A with
  | false =>
    intro i
    have h0 : specified_contact_force p pc vc penetration i = 0 := by
      unfold specified_contact_force
      rw [if_neg (fun h => by rw [hA] at h; exact Bool.noConfusion h.1)]
    rw [h0, hsame F (is_collision_geometry_eq_false_skips p pc vc penetration F (Or.inl hA))]
    exact hskip i
  | true =>
    cases hB : p.is_collision_geometry penetration.id_B with
    | false =>
      intro i
      have h0 : specified_contact_force p pc vc penetration i = 0 := by
        unfold specified_contact_force
        rw [if_neg (fun h => by rw [hB] at h; exact Bool.noConfusion h.2)]
      rw [h0, hsame F (is_collision_geometry_eq_false_skips p pc vc penetration F (Or.inr hB))]
      exact hskip i
    | true =>
      obtain ⟨a, ha, hla⟩ := hgeometry _ hA
      obtain ⟨b, hb, hlb⟩ := hgeometry _ hB
      have hlaw := CalcAndAddContactForce_law p pc vc penetration F a b hA hB ha hb
        (fun _ => hla) (fun _ => hlb)
      simp only [] at hlaw
      obtain ⟨hle, hpos, _⟩ := hlaw
      unfold specified_contact_force
      simp only [hA, hB, and_self, if_true, ha, hb]
      split
      · rename_i hf
        obtain ⟨G, hG, hp⟩ := hpos hf
        intro i
        rw [hsame G hG, hp i]
        simp only [SpatialForce.add_assoc_right]
      · rename_i hf
        rw [hsame F (hle (not_lt.mp hf))]
        exact hskip

/-- The contact loop adds to every entry of the array, pair after pair, the
force that the specification assigns to the body of that index. -/
theorem CalcAndAddContactForces_specified (p : MultibodyPlant K)
    (pc : PositionKinematicsCache K) (vc : VelocityKinematicsCache K)
    (n : Nat)
    (hgeometry : ∀ id, p.is_collision_geometry id = true →
      ∃ b, Map.at_ p.geometry_id_to_body_index_ id = .ok b ∧ b < n)
    (penetrations : List (PenetrationAsPointPair K)) (F : List (SpatialForce K))
    (hF : F.length = n) :
    ∃ F2, CalcAndAddContactForces p pc vc penetrations F = (.ok (), F2) ∧ F2.length = n ∧
      ∀ i : Nat, F2[i]? = (F[i]?).map (fun Fi =>
        penetrations.foldl
          (fun acc penetration => acc + specified_contact_force p pc vc penetration i) Fi) := by
  induction penetrations generalizing F with
  | nil =>
    refine ⟨F, rfl, hF, fun i => ?_⟩
    simp only [List.foldl_nil]
    cases F[i]? <;> rfl
  | cons penetration rest ih =>
    obtain ⟨F1, h1, hl1, hp1⟩ := CalcAndAddContactForce_specified p pc vc penetration F
      (by rw [hF]; exact hgeometry)
    obtain ⟨F2, h2, hl2, hp2⟩ := ih F1 (hl1.trans hF)
    refine ⟨F2, ?_, hl2, fun i => ?_⟩
    · unfold CalcAndAddContactForces
      rw [h1]
      exact h2
    · rw [hp2 i, hp1 i]
      simp only [List.foldl_cons]
      cases F[i]? <;> rfl

end MultibodyPlant

namespace MultibodyPlant
variable {K : Type} [LinearOrderedField K]

/-- The loop over actuators that all act on joints of one degree of freedom
returns, having added `u[i]` through `AddInOneForce` at the degree of freedom 0
of every actuator `i`, in order. -/
theorem AddActuation_eq {num_bodies num_positions num_velocities : Nat}
    (dynamics : MultibodyTreeDynamics K num_bodies num_positions num_velocities)
    (context : Context K) (u : List K) (actuators : List Nat)
    (h : ∀ i ∈ actuators, (dynamics.get_joint_actuator i).joint_num_dofs = 1)
    (forces : MultibodyForces K num_bodies num_velocities) :
    AddActuation dynamics context u actuators forces =
      .ok (actuators.foldl
        (fun forces i =>
          (dynamics.get_joint_actuator i).AddInOneForce context 0 (u.getD i 0) forces)
        forces) := by
  induction actuators generalizing forces with
  | nil => rfl
  | cons i rest ih =>
    unfold AddActuation
    simp only [h i (List.mem_cons_self _ _), ne_eq, not_true_eq_false, if_false]
    rw [ih (fun j hj => h j (List.mem_cons_of_mem _ hj))]
    rfl

end MultibodyPlant

namespace MultibodyPlant

/-- The mass matrix of the slider, `(1)`, is positive definite. -/
theorem Sample.slider_positive_definite (x : Fin 1 → ℚ) (hx : x ≠ 0) :
    0 < Matrix.dotProduct x ((Matrix.diagonal (fun _ : Fin 1 => (1 : ℚ))).mulVec x) := by
  have hx0 : x 0 ≠ 0 := by
    intro hn
    apply hx
    funext i
    fin_cases i
    exact hn
  have hs : Matrix.dotProduct x ((Matrix.diagonal (fun _ : Fin 1 => (1 : ℚ))).mulVec x)
      = x 0 * x 0 := by
    simp [Matrix.dotProduct, Matrix.mulVec_diagonal]
  rw [hs]
  exact mul_self_pos.mpr hx0

/-- The collision geometries of the slider plant are the geometry 2 of the
slider and the geometry 3 of the world. -/
theorem Sample.slider_geometry (id : GeometryId)
    (h : Sample.slider.plant.is_collision_geometry id = true) :
    ∃ b, Map.at_ Sample.slider.plant.geometry_id_to_body_index_ id = .ok b ∧ b < 2 := by
  by_cases h2 : id = 2
  · subst h2
    exact ⟨1, rfl, by decide⟩
  · by_cases h3 : id = 3
    · subst h3
      exact ⟨0, rfl, by decide⟩
    · have hc : Sample.slider.plant.is_collision_geometry id = false := by
        show decide (0 < Map.count [((2 : GeometryId), (0 : Nat)), (3, 1)] id) = false
        simp [Map.count, List.filter, Ne.symm h2, Ne.symm h3]
      rw [hc] at h
      exact Bool.noConfusion h

/-- The contact force that the specification assigns to the slider resting on
the ground at the allowance: its weight, upwards. -/
theorem Sample.slider_contact_force :
    specified_contact_force Sample.slider.plant
      (Sample.slider.plant.model_.CalcPositionKinematicsCache Sample.slider_resting)
      (Sample.slider.plant.model_.CalcVelocityKinematicsCache Sample.slider_resting
        (Sample.slider.plant.model_.CalcPositionKinematicsCache Sample.slider_resting))
      ⟨2, 3, ⟨0, 0, 0⟩, ⟨0, 0, 0⟩, ⟨0, 0, 1⟩, 1 / 1000⟩ 1 = ⟨0, ⟨0, 0, 10⟩⟩ := by
  have hA : Sample.slider.plant.is_collision_geometry 2 = true := rfl
  have hB : Sample.slider.plant.is_collision_geometry 3 = true := rfl
  have ha : Map.at_ Sample.slider.plant.geometry_id_to_body_index_ 2 = .ok 1 := rfl
  have hb : Map.at_ Sample.slider.plant.geometry_id_to_body_index_ 3 = .ok 0 := rfl
  have hpc : Sample.slider.plant.model_.CalcPositionKinematicsCache Sample.slider_resting
      = ⟨fun _ => Isometry3.Identity⟩ := rfl
  have hvc : ∀ pc, Sample.slider.plant.model_.CalcVelocityKinematicsCache
      Sample.slider_resting pc = ⟨fun _ => ⟨0, 0⟩⟩ := fun _ => rfl
  unfold specified_contact_force
  simp only [hA, hB, ha, hb, hpc, hvc, Sample.slider_parameters, and_self, if_true]
  simp [world_index, Isometry3.Identity, PositionKinematicsCache.get_X_WB,
    VelocityKinematicsCache.get_V_WB, Vector3.dot, Vector3.cross]
  ext <;> simp
  norm_num

end MultibodyPlant
namespace MultibodyPlant
variable {K : Type} [LinearOrderedField K]

end MultibodyPlant

namespace math
namespace AutoDiffScalar
variable {K : Type} [LinearOrderedField K]

theorem add_def (a b : AutoDiffScalar K) :
    a + b = ⟨a.value + b.value,
      combine (fun da db => da + db) a.derivatives b.derivatives⟩ := rfl

theorem mul_def (a b : AutoDiffScalar K) :
    a * b = ⟨a.value * b.value,
      combine (fun da db => da * b.value + db * a.value) a.derivatives b.derivatives⟩ := rfl

theorem div_def (a b : AutoDiffScalar K) :
    a / b = ⟨a.value / b.value,
      combine (fun da db => (da * b.value - db * a.value) / (b.value * b.value))
        a.derivatives b.derivatives⟩ := rfl

end AutoDiffScalar

namespace AutodiffTest
variable {K : Type} [LinearOrderedField K]

/-- C14. For all inputs `x` and `y` with `y ≠ 0`, each tracked with a unit seed
derivative, `DoMath` returns, and its result has the values
`(cos x + sin x * cos x / y, sin x + y, x^2 + y^3)` and the Jacobian with rows
`(-sin x + (cos^2 x - sin^2 x) / y, -sin x * cos x / y^2)`, `(cos x, 1)` and
`(2 x, 3 y^2)`. -/
theorem DoMath_values_and_jacobian (f : ScalarFunctions K) (x y : K) (hy : y ≠ 0) :
    ∃ output, DoMath f (vec_ x y) = some output ∧
      autoDiffToValueMatrix output
        = [f.cos x + f.sin x * f.cos x / y, f.sin x + y, x ^ 2 + y ^ 3] ∧
      autoDiffToGradientMatrix output
        = [[-f.sin x + (f.cos x ^ 2 - f.sin x ^ 2) / y, -f.sin x * f.cos x / y ^ 2],
            [f.cos x, 1],
            [2 * x, 3 * y ^ 2]] := by
  have hmath : DoMath f (vec_ x y) = some
      [AutoDiffScalar.cos f ⟨x, [1, 0]⟩
          + AutoDiffScalar.sin f ⟨x, [1, 0]⟩ * AutoDiffScalar.cos f ⟨x, [1, 0]⟩ / ⟨y, [0, 1]⟩,
        AutoDiffScalar.sin f ⟨x, [1, 0]⟩ + ⟨y, [0, 1]⟩,
        (⟨x, [1, 0]⟩ : AutoDiffScalar K) * ⟨x, [1, 0]⟩
          + (⟨y, [0, 1]⟩ : AutoDiffScalar K) * ⟨y, [0, 1]⟩ * ⟨y, [0, 1]⟩] := rfl
  refine ⟨_, hmath, ?_, ?_⟩
  · simp only [autoDiffToValueMatrix, AutoDiffScalar.add_def, AutoDiffScalar.mul_def,
      AutoDiffScalar.div_def, AutoDiffScalar.sin, AutoDiffScalar.cos, List.map]
    refine congrArg₂ _ rfl (congrArg₂ _ rfl (congrArg₂ _ ?_ rfl))
    ring
  · simp [autoDiffToGradientMatrix, AutoDiffScalar.add_def, AutoDiffScalar.mul_def,
      AutoDiffScalar.div_def, AutoDiffScalar.sin, AutoDiffScalar.cos, AutoDiffScalar.combine]
    refine ⟨⟨?_, ?_⟩, ?_, ?_⟩
    · field_simp
      ring
    · rw [pow_two]
    · ring
    · ring

/-- C14, evaluated on the reals at the values of the test, `x = 7` and
`y = 9`, with the real sine and cosine. -/
theorem DoMath_values_and_jacobian_witness :
    (9 : ℝ) ≠ 0 ∧
    ∃ output, SetUp ⟨Real.sin, Real.cos⟩ = some output ∧
      autoDiffToValueMatrix output
        = [Real.cos 7 + Real.sin 7 * Real.cos 7 / 9, Real.sin 7 + 9, 7 ^ 2 + 9 ^ 3] ∧
      autoDiffToGradientMatrix output
        = [[-Real.sin 7 + (Real.cos 7 ^ 2 - Real.sin 7 ^ 2) / 9,
              -Real.sin 7 * Real.cos 7 / 9 ^ 2],
            [Real.cos 7, 1],
            [2 * 7, 3 * 9 ^ 2]] :=
  ⟨by norm_num, DoMath_values_and_jacobian ⟨Real.sin, Real.cos⟩ 7 9 (by norm_num)⟩

end AutodiffTest
end math

namespace math
variable {K : Type} [LinearOrderedField K]

/-- The number of columns of the gradient matrix is zero unless some entry
tracks a derivative. -/
theorem foldl_max_derivatives (m : List (AutoDiffScalar K)) (n : Nat) :
    m.foldl (fun n a => max n a.derivatives.length) n = n ∨
      ∃ a ∈ m, a.derivatives ≠ [] := by
  induction m generalizing n with
  | nil => exact Or.inl rfl
  | cons a m ih =>
    simp only [List.foldl_cons]
    by_cases ha : a.derivatives = []
    · rcases ih (max n a.derivatives.length) with h | ⟨b, hb, hne⟩
      · left
        rw [h, ha]
        simp
      · exact Or.inr ⟨b, List.mem_cons_of_mem _ hb, hne⟩
    · exact Or.inr ⟨a, List.mem_cons_self _ _, ha⟩

/-- The gradient matrix is zero within `t` exactly when every tracked
derivative of every entry is. -/
theorem isZero_gradient_iff (m : List (AutoDiffScalar K)) (t : K) :
    isZero (autoDiffToGradientMatrix m) t = true ↔
      ∀ a ∈ m, ∀ d ∈ a.derivatives, |d| ≤ t := by
  unfold isZero autoDiffToGradientMatrix
  simp only [List.all_eq_true, List.mem_map, decide_eq_true_eq]
  constructor
  · intro h a ha d hd
    have hne : a.derivatives.isEmpty = false := by
      cases hl : a.derivatives with
      | nil => rw [hl] at hd; exact absurd hd (List.not_mem_nil _)
      | cons _ _ => rfl
    refine h _ ⟨a, ha, rfl⟩ d ?_
    rw [hne]
    exact hd
  · rintro h row ⟨a, ha, rfl⟩ d hd
    cases hl : a.derivatives with
    | nil =>
      rw [hl] at hd
      simp only [List.isEmpty_nil, if_true] at hd
      have hd0 : d = 0 := (List.mem_replicate.mp hd).2
      have hn : m.foldl (fun n a => max n a.derivatives.length) 0 ≠ 0 :=
        (List.mem_replicate.mp hd).1
      rcases foldl_max_derivatives m 0 with h0 | ⟨b, hb, hne⟩
      · exact absurd h0 hn
      · obtain ⟨e, he⟩ := List.exists_mem_of_ne_nil _ hne
        rw [hd0, abs_zero]
        exact le_trans (abs_nonneg e) (h b hb e he)
    | cons x l =>
      rw [hl] at hd
      simp only [List.isEmpty_cons, Bool.false_eq_true, if_false] at hd
      exact h a ha d (hl ▸ hd)

end math
namespace math
variable {K : Type} [LinearOrderedField K]

theorem DiscardZeroGradient_ok_iff (m : List (AutoDiffScalar K)) (t : K) :
    DiscardZeroGradient m t = .ok (m.map (fun a => a.value)) ↔
      ∀ a ∈ m, ∀ d ∈ a.derivatives, |d| ≤ t := by
  rw [← isZero_gradient_iff]
  unfold DiscardZeroGradient
  cases h : isZero (autoDiffToGradientMatrix m) t with
  | true => exact ⟨fun _ => rfl, fun _ => rfl⟩
  | false =>
    simp only [Bool.false_eq_true, if_false]
    exact ⟨fun he => Except.noConfusion he, fun hf => hf.elim⟩

theorem DiscardZeroGradient_error_iff (m : List (AutoDiffScalar K)) (t : K) :
    (∃ what, DiscardZeroGradient m t = .error (.runtime_error what)) ↔
      ¬ ∀ a ∈ m, ∀ d ∈ a.derivatives, |d| ≤ t := by
  rw [← isZero_gradient_iff]
  unfold DiscardZeroGradient
  cases h : isZero (autoDiffToGradientMatrix m) t with
  | true =>
    simp only [if_true]
    exact ⟨fun ⟨_, he⟩ => Except.noConfusion he, fun hf => absurd trivial hf⟩
  | false =>
    simp only [Bool.false_eq_true, if_false]
    exact ⟨fun _ hf => hf, fun _ => ⟨_, rfl⟩⟩

theorem DiscardZeroGradient_transform_eq (X : Isometry3 (AutoDiffScalar K)) (t : K) :
    DiscardZeroGradient_transform X t =
      (DiscardZeroGradient X.entries t).map (fun _ => X.map (fun a => a.value)) := by
  unfold DiscardZeroGradient_transform DiscardZeroGradient
  split <;> rfl

/-- C15. For every derivative-tracking matrix `m`, every derivative-tracking
rigid transform `X` and every tolerance `t`, `DiscardZeroGradient` succeeds
exactly when every tracked derivative of every entry is zero within `t`, and
then returns exactly the underlying plain values; otherwise it fails with a
runtime error. The default tolerance is exactly zero: with it the call
succeeds exactly when every tracked derivative is zero. Applied to a plain
matrix or transform it succeeds and returns its input. -/
theorem DiscardZeroGradient_succeeds_iff_gradient_zero
    (m : List (AutoDiffScalar K)) (X : Isometry3 (AutoDiffScalar K))
    (plain : List K) (plain_transform : Isometry3 K) (t : K) :
    (DiscardZeroGradient m t = .ok (m.map (fun a => a.value)) ↔
      ∀ a ∈ m, ∀ d ∈ a.derivatives, |d| ≤ t) ∧
    ((∃ what, DiscardZeroGradient m t = .error (.runtime_error what)) ↔
      ¬ ∀ a ∈ m, ∀ d ∈ a.derivatives, |d| ≤ t) ∧
    (DiscardZeroGradient_transform X t = .ok (X.map (fun a => a.value)) ↔
      ∀ a ∈ X.entries, ∀ d ∈ a.derivatives, |d| ≤ t) ∧
    ((∃ what, DiscardZeroGradient_transform X t = .error (.runtime_error what)) ↔
      ¬ ∀ a ∈ X.entries, ∀ d ∈ a.derivatives, |d| ≤ t) ∧
    (DiscardZeroGradient m default_precision = .ok (m.map (fun a => a.value)) ↔
      ∀ a ∈ m, ∀ d ∈ a.derivatives, d = 0) ∧
    DiscardZeroGradient_plain plain t = .ok plain ∧
    DiscardZeroGradient_plain_transform plain_transform t = .ok plain_transform := by
  refine ⟨DiscardZeroGradient_ok_iff m t, DiscardZeroGradient_error_iff m t, ?_, ?_, ?_,
    rfl, rfl⟩
  · rw [DiscardZeroGradient_transform_eq, ← DiscardZeroGradient_ok_iff]
    cases h : DiscardZeroGradient X.entries t with
    | error e => exact ⟨fun he => Except.noConfusion he, fun he => Except.noConfusion he⟩
    | ok v =>
      refine ⟨fun _ => ?_, fun _ => rfl⟩
      have hv : DiscardZeroGradient X.entries t
          = .ok (X.entries.map (fun a => a.value)) := by
        unfold DiscardZeroGradient at h ⊢
        split
        · rfl
        · rename_i hz
          rw [if_neg hz] at h
          exact Except.noConfusion h
      rw [← h, hv]
  · rw [DiscardZeroGradient_transform_eq, ← DiscardZeroGradient_error_iff]
    cases h : DiscardZeroGradient X.entries t with
    | error e =>
      constructor
      · rintro ⟨what, he⟩
        exact ⟨what, Except.error.inj he ▸ rfl⟩
      · rintro ⟨what, he⟩
        exact ⟨what, Except.error.inj he ▸ rfl⟩
    | ok v =>
      exact ⟨fun ⟨_, he⟩ => Except.noConfusion he, fun ⟨_, he⟩ => Except.noConfusion he⟩
  · rw [DiscardZeroGradient_ok_iff]
    unfold default_precision
    constructor
    · intro h a ha d hd
      exact abs_nonpos_iff.mp (h a ha d hd)
    · intro h a ha d hd
      rw [h a ha d hd, abs_zero]

end math
namespace math
namespace AdditionalAutodiffTest

theorem test3_ones_mem (a : AutoDiffScalar ℚ) (ha : a ∈ test3_ones) :
    a.derivatives = [1, 1] := by
  have h : a = ⟨1, [1, 1]⟩ ∨ a = ⟨2, [1, 1]⟩ ∨ a = ⟨3, [1, 1]⟩ := by
    simpa [test3_ones, test2, initializeAutoDiffGivenGradientMatrix, List.replicate] using ha
  rcases h with h | h | h <;> rw [h]

/-- C15, evaluated on the cases of the test: the vector with all-ones
gradients fails at the default tolerance and succeeds with the tolerance 2;
the vector with all-zero gradients and the vector with no gradient succeed;
the transform with the derivatives `(1, 2, 3)` in one entry fails; the plain
vector is returned as it is. -/
theorem DiscardZeroGradient_succeeds_iff_gradient_zero_witness :
    (∃ what, DiscardZeroGradient test3_ones default_precision
      = .error (.runtime_error what)) ∧
    DiscardZeroGradient test3_ones 2 = .ok test2 ∧
    DiscardZeroGradient test3_zero default_precision = .ok test2 ∧
    DiscardZeroGradient test3 default_precision = .ok test2 ∧
    (∃ what, DiscardZeroGradient_transform test6_derivatives default_precision
      = .error (.runtime_error what)) ∧
    DiscardZeroGradient_plain test2 default_precision = .ok test2 :=
  ⟨(DiscardZeroGradient_succeeds_iff_gradient_zero test3_ones test6_derivatives test2 test5
      default_precision).2.1.mpr (fun h => by
        have h1 := h ⟨1, [1, 1]⟩ (List.mem_cons_self _ _) 1 (List.mem_cons_self _ _)
        have h2 : ¬ (|(1 : ℚ)| ≤ 0) := by norm_num
        exact h2 h1),
    (DiscardZeroGradient_succeeds_iff_gradient_zero test3_ones test6_derivatives test2 test5
      2).1.mpr (fun a ha d hd => by
        rw [test3_ones_mem a ha] at hd
        have hd1 : d = 1 := by simpa using hd
        rw [hd1]
        norm_num),
    rfl, rfl,
    (DiscardZeroGradient_succeeds_iff_gradient_zero test3_ones test6_derivatives test2 test5
      default_precision).2.2.2.1.mpr (fun h => by
        have h1 := h ⟨1, [1, 2, 3]⟩ (List.mem_cons_self _ _) 1 (List.mem_cons_self _ _)
        have h2 : ¬ (|(1 : ℚ)| ≤ 0) := by norm_num
        exact h2 h1),
    (DiscardZeroGradient_succeeds_iff_gradient_zero test3_ones test6_derivatives test2 test5
      default_precision).2.2.2.2.2.1⟩

end AdditionalAutodiffTest
end math

namespace MultibodyPlant
variable {K : Type} [LinearOrderedField K]

/-- The plant built by the scalar-converting constructor has no entry in its
collision-index map, whatever the source plant holds. -/
theorem ScalarConvert_collision_index {U : Type} (env : Externals K)
    (CloneToScalar : MultibodyTree U → MultibodyTree K) (other : MultibodyPlant U)
    (p : MultibodyPlant K) (h : ScalarConvert env CloneToScalar other = .ok p) :
    p.geometry_id_to_collision_index_ = [] := by
  unfold ScalarConvert at h
  split at h
  · exact Except.noConfusion h
  · simp only [] at h
    split at h
    · exact Except.noConfusion h
    · rename_i u p1 hF
      have hp : p1 = p := Except.ok.inj h
      subst hp
      have hk := (FinalizePlantOnly_keeps env
        ({ building (CloneToScalar other.model_) with
            model_ := CloneToScalar other.model_
            source_id_ := other.source_id_
            body_index_to_frame_id_ := other.body_index_to_frame_id_
            geometry_id_to_body_index_ := other.geometry_id_to_body_index_
            geometry_id_to_visual_index_ := other.geometry_id_to_visual_index_ } :
          MultibodyPlant K))
      rw [hF] at hk
      exact hk.1

/-- C16, at the failing input: the finalized sample plant with one collision
geometry (the geometry 2) is converted, the model being cloned as it is. The
converted plant has the source id, the frame-id map, the body map and the
visual-index map of the source, but its collision-index map is empty: it
reports no collision geometry where the source reports one, and answers
`is_collision_geometry 2` with `false` where the source answers `true`. -/
theorem ScalarConvert_loses_collision_geometries :
    Sample.collision_finalized.plant.is_finalized = true ∧
    Sample.collision_finalized.plant.get_num_collision_geometries = 1 ∧
    Sample.collision_finalized.plant.is_collision_geometry 2 = true ∧
    ∃ p, ScalarConvert Sample.env id Sample.collision_finalized.plant = .ok p ∧
      p.source_id_ = Sample.collision_finalized.plant.source_id_ ∧
      p.body_index_to_frame_id_ = Sample.collision_finalized.plant.body_index_to_frame_id_ ∧
      p.geometry_id_to_body_index_
        = Sample.collision_finalized.plant.geometry_id_to_body_index_ ∧
      p.geometry_id_to_visual_index_
        = Sample.collision_finalized.plant.geometry_id_to_visual_index_ ∧
      p.geometry_id_to_collision_index_ = [] ∧
      Sample.collision_finalized.plant.geometry_id_to_collision_index_ = [(2, 0)] ∧
      p.get_num_collision_geometries = 0 ∧
      p.is_collision_geometry 2 = false :=
  ⟨rfl, rfl, rfl, _, rfl, rfl, rfl, rfl, rfl, rfl, rfl, rfl, rfl⟩

end MultibodyPlant

namespace MultibodyPlant

/-- C17, at the failing input: on the chain, where the body 1 has the node
index 2, a penetration between the body 1 and the world applies the force
`(0, 0, 1/10)` to the body 1. The pose and the velocity of the body 1 are read
from the caches at its node index 2, but the force is added to the entry 1 of
the array, the body index, which is the entry of the node of the body 2; the
entry 2, at the node index of the body 1, is left as it was. -/
theorem contact_force_added_at_body_index :
    (Sample.chain_plant.model_.get_body 1).node_index = 2 ∧
    (Sample.chain_plant.model_.get_body 2).node_index = 1 ∧
    Map.at_ Sample.chain_plant.geometry_id_to_body_index_ Sample.chain_penetration.id_A
      = .ok 1 ∧
    p_CoBo_W Sample.chain_plant Sample.pc Sample.chain_penetration 1
      = (Sample.pc.get_X_WB 2).translation - p_WC Sample.chain_penetration ∧
    ∃ F, CalcAndAddContactForcesByPenaltyMethod Sample.chain_plant Sample.chain_context
        Sample.pc Sample.vc Sample.forces = (.ok (), F) ∧
      F[1]? = some ⟨0, ⟨0, 0, 1 / 10⟩⟩ ∧ F[2]? = some 0 ∧ F[0]? = some 0 := by
  have hA : Sample.chain_plant.is_collision_geometry Sample.chain_penetration.id_A = true := by
    decide
  have hB : Sample.chain_plant.is_collision_geometry Sample.chain_penetration.id_B = true := by
    decide
  have ha : Map.at_ Sample.chain_plant.geometry_id_to_body_index_
      Sample.chain_penetration.id_A = .ok 1 := rfl
  have hb : Map.at_ Sample.chain_plant.geometry_id_to_body_index_
      Sample.chain_penetration.id_B = .ok 0 := rfl
  refine ⟨rfl, rfl, ha, rfl, ?_⟩
  have hf : 0 < fn_AC Sample.chain_plant Sample.pc Sample.vc Sample.chain_penetration 1 0 := by
    simp [fn_AC, vn, v_WBc, p_CoBo_W, p_WC, Sample.chain_plant, Sample.chain_model,
      Sample.plant, Sample.pc, Sample.vc, Sample.chain_penetration, Sample.model,
      SpatialVelocity.Shift, Vector3.dot, Vector3.cross, building]
    norm_num
  obtain ⟨F2, h2, hp⟩ := CalcAndAddContactForce_pointwise Sample.chain_plant Sample.pc
    Sample.vc Sample.chain_penetration Sample.forces 1 0 hA hB ha hb
    (fun _ => by decide) (fun _ => by decide) hf
  refine ⟨F2, ?_, ?_, ?_, ?_⟩
  · unfold CalcAndAddContactForcesByPenaltyMethod
    rw [if_neg (by decide)]
    show CalcAndAddContactForces Sample.chain_plant Sample.pc Sample.vc
      [Sample.chain_penetration] Sample.forces = _
    unfold CalcAndAddContactForces
    rw [h2]
    rfl
  · rw [hp 1]
    simp [Sample.forces, world_index, F_AC_W, fn_AC, vn, v_WBc, p_CoBo_W, p_WC,
      Sample.chain_plant, Sample.chain_model, Sample.plant, Sample.pc, Sample.vc,
      Sample.chain_penetration, Sample.model, SpatialVelocity.Shift, SpatialForce.Shift,
      Vector3.dot, Vector3.cross, building]
    ext <;> simp
    norm_num
  · rw [hp 2]
    simp [Sample.forces, world_index]
    ext <;> simp
  · rw [hp 0]
    simp [Sample.forces, world_index]
    ext <;> simp

end MultibodyPlant

namespace MultibodyPlant
variable {K : Type} [LinearOrderedField K]

/-- C18. For a penetration between two distinct non-world bodies `a` and `b`
that applies a force, one iteration of the loop of
`CalcAndAddContactForcesByPenaltyMethod` adds `F_A` to the entry `a` and `F_B`
to the entry `b` and changes no other entry; the two forces are opposite,
`F_A.translational + F_B.translational = 0`, and the sum of their moments
about any common point `q`, each being the torque at the body origin plus
`(origin - q) × force`, is zero: the pair is a zero wrench, whatever the body
origins, the witness points, the normal and the force magnitude. -/
theorem contact_pair_is_zero_wrench (p : MultibodyPlant K)
    (pc : PositionKinematicsCache K) (vc : VelocityKinematicsCache K)
    (penetration : PenetrationAsPointPair K) (F : List (SpatialForce K))
    (a b : BodyIndex)
    (hA : p.is_collision_geometry penetration.id_A = true)
    (hB : p.is_collision_geometry penetration.id_B = true)
    (ha : Map.at_ p.geometry_id_to_body_index_ penetration.id_A = .ok a)
    (hb : Map.at_ p.geometry_id_to_body_index_ penetration.id_B = .ok b)
    (hab : a ≠ b) (haw : a ≠ world_index) (hbw : b ≠ world_index)
    (hFa : a < F.length) (hFb : b < F.length)
    (hf : 0 < fn_AC p pc vc penetration a b) :
    let origin := fun i => (pc.get_X_WB (p.model_.get_body i).node_index).translation
    ∃ (F2 : List (SpatialForce K)) (F_A F_B : SpatialForce K),
      CalcAndAddContactForce p pc vc penetration F = (.ok (), F2) ∧
      F2[a]? = (F[a]?).map (fun Fi => Fi + F_A) ∧
      F2[b]? = (F[b]?).map (fun Fi => Fi + F_B) ∧
      (∀ i, i ≠ a → i ≠ b → F2[i]? = F[i]?) ∧
      F_A.translational = fn_AC p pc vc penetration a b • penetration.nhat_BA_W ∧
      F_A.translational + F_B.translational = 0 ∧
      ∀ q : Vector3 K,
        (F_A.rotational + (origin a - q).cross F_A.translational) +
          (F_B.rotational + (origin b - q).cross F_B.translational) = 0 := by
  intro origin
  obtain ⟨F2, h2, hp⟩ := CalcAndAddContactForce_pointwise p pc vc penetration F a b hA hB ha hb
    (fun _ => hFa) (fun _ => hFb) hf
  refine ⟨F2, (F_AC_W p pc vc penetration a b).Shift (p_CoBo_W p pc penetration a),
    -((F_AC_W p pc vc penetration a b).Shift (p_CoBo_W p pc penetration b)), h2, ?_, ?_, ?_,
    ?_, ?_, ?_⟩
  · rw [hp a, if_pos ⟨rfl, haw⟩, if_neg (fun h => hab h.1)]
    simp only [SpatialForce.add_zero_right]
  · rw [hp b, if_neg (fun h => hab h.1.symm), if_pos ⟨rfl, hbw⟩]
    simp only [SpatialForce.add_zero_right]
  · intro i hia hib
    rw [hp i, if_neg (fun h => hia h.1), if_neg (fun h => hib h.1)]
    simp only [SpatialForce.add_zero_right]
    cases F[i]? <;> rfl
  · rw [F_AC_W_Shift_eq]
  · rw [F_AC_W_Shift_eq, F_AC_W_Shift_eq]
    ext <;> simp [SpatialForce.neg_translational]
  · intro q
    rw [F_AC_W_Shift_eq, F_AC_W_Shift_eq]
    ext <;> simp [SpatialForce.neg_translational, SpatialForce.neg_rotational, Vector3.cross,
      origin] <;> ring

end MultibodyPlant
namespace MultibodyPlant

/-- C18, evaluated on the sample pair between the bodies 1 and 2: the force
`(0, 0, 3/10)` goes to the body 1, its opposite to the body 2, and the moments
of the two about any point sum to zero. -/
theorem contact_pair_is_zero_wrench_witness :
    (Sample.plant.is_collision_geometry Sample.penetration.id_A = true ∧
      Sample.plant.is_collision_geometry Sample.penetration.id_B = true ∧
      Map.at_ Sample.plant.geometry_id_to_body_index_ Sample.penetration.id_A = .ok 1 ∧
      Map.at_ Sample.plant.geometry_id_to_body_index_ Sample.penetration.id_B = .ok 2 ∧
      0 < fn_AC Sample.plant Sample.pc Sample.vc Sample.penetration 1 2) ∧
    ∃ (F2 : List (SpatialForce ℚ)) (F_A F_B : SpatialForce ℚ),
      CalcAndAddContactForce Sample.plant Sample.pc Sample.vc Sample.penetration
        Sample.forces = (.ok (), F2) ∧
      F2[1]? = some (0 + F_A) ∧ F2[2]? = some (0 + F_B) ∧
      F_A.translational = ⟨0, 0, 3 / 10⟩ ∧
      F_A.translational + F_B.translational = 0 ∧
      ∀ q : Vector3 ℚ,
        (F_A.rotational + ((Sample.pc.get_X_WB 1).translation - q).cross F_A.translational) +
          (F_B.rotational + ((Sample.pc.get_X_WB 2).translation - q).cross F_B.translational)
            = 0 := by
  have hA : Sample.plant.is_collision_geometry Sample.penetration.id_A = true := by decide
  have hB : Sample.plant.is_collision_geometry Sample.penetration.id_B = true := by decide
  have ha : Map.at_ Sample.plant.geometry_id_to_body_index_ Sample.penetration.id_A = .ok 1 := rfl
  have hb : Map.at_ Sample.plant.geometry_id_to_body_index_ Sample.penetration.id_B = .ok 2 := rfl
  have hfn : fn_AC Sample.plant Sample.pc Sample.vc Sample.penetration 1 2 = 3 / 10 := by
    simp [fn_AC, vn, v_WBc, p_CoBo_W, p_WC, Sample.plant, Sample.pc, Sample.vc,
      Sample.penetration, Sample.model, SpatialVelocity.Shift, Vector3.dot, Vector3.cross,
      building]
    norm_num
  have hf : 0 < fn_AC Sample.plant Sample.pc Sample.vc Sample.penetration 1 2 := by
    rw [hfn]
    norm_num
  obtain ⟨F2, F_A, F_B, h2, h3, h4, _, h6, h7, h8⟩ :=
    contact_pair_is_zero_wrench Sample.plant Sample.pc Sample.vc Sample.penetration
      Sample.forces 1 2 hA hB ha hb (by decide) (by decide) (by decide) (by decide) (by decide)
      hf
  refine ⟨⟨hA, hB, ha, hb, hf⟩, F2, F_A, F_B, h2, h3, h4, ?_, h7, h8⟩
  rw [h6, hfn]
  ext <;> simp [Sample.penetration]

end MultibodyPlant

end Drake
